import Mathlib

/-!
# SMPS_5G2_FRWK: task manager and scheduler core

A shallow embedding of `os_TaskManager.c` and of the main loop of
`os_Scheduler.c`, with theorems about the queue index, the operating-mode
automaton, task dispatch, the rescue timer, the task-time bookkeeping, the
CPU-load meter, the component-check bit and the shutdown sequence.

Conventions of the embedding:

* C objects of type `uint16_t` / `uint32_t` are natural numbers; every
  arithmetic operation that can leave the range is reduced explicitly
  (`% 65536`, `% 4294967296`).
* Arrays (`tasks[]`, the task queues) are total maps from the index to the
  element, as memory is; the stored sizes are separate objects, as in C.
* Code that is not part of the core (task entries, switch-over hooks, the
  application status capture, the fault scan) and reads of hardware
  registers that change on their own (timer counter, timer interrupt flag)
  are inputs, gathered in `ENVIRONMENT`.
* The core functions return, next to the state and the C return value, the
  list of calls they made into that outside code (`EVENT`), so that
  statements of the form "the task is (not) invoked" can be written down.
-/

namespace Frwk

/-! ## Data model -/

/-- Modelled from the spec: the operating-mode enumeration of
`os_TaskManager.h` (that header is not among the sources). The eight named
modes are pairwise different constants; `OTHER raw` stands for every bit
pattern of the mode word that is none of them. -/
inductive OP_MODE where
  | UNKNOWN
  | BOOT
  | FIRMWARE_INIT
  | STARTUP_SEQUENCE
  | IDLE
  | RUN
  | FAULT
  | STANDBY
  | OTHER (raw : Nat)
  deriving DecidableEq, Repr

/-- The four functions whose address `os_CheckOperationModeStatus` stores in
`task_mgr.op_mode_switch_over_function`. -/
inductive SWITCH_OVER_FUNCTION where
  | task_queue_idle_init
  | task_queue_run_init
  | task_queue_fault_init
  | task_queue_standby_init
  deriving DecidableEq, Repr

/-- One element of `tasks[]` (`TASKMGR_TASK_CONTROL_t`). -/
structure TASKMGR_TASK_CONTROL where
  id : Nat
  enabled : Bool
  time_quota : Nat
  task_period : Nat
  task_period_max : Nat
  return_value : Nat

/-- The member `task_mgr.task_queue`. `active_queue` is the pointer to the
queue in use, read as `active_queue[i]`. -/
structure TASK_QUEUE where
  active_queue : Nat → Nat
  size : Nat
  ubound : Nat
  active_index : Nat
  active_task_id : Nat
  active_retval : Nat
  active_task_time : Nat

/-- The member `task_mgr.os_timer`. The two register pointers `reg_counter`
and `reg_period` are assigned once, in `os_TaskManager_Initialize`, to the
timer counter and timer period register; what they point to is
`ENVIRONMENT.t_start` / `t_stop` (counter reads) and `CPU.TMR_PERIOD`. -/
structure OS_TIMER where
  index : Nat
  master_period : Nat
  rescue_period : Nat
  task_period_max : Nat

/-- The member `task_mgr.cpu_load`. -/
structure CPU_LOAD where
  load : Nat
  load_max_buffer : Nat
  ticks : Nat
  loop_nomblk : Nat
  load_factor : Nat

/-- The bits of `task_mgr.status.bits` the core writes. -/
structure TASK_MGR_STATUS where
  queue_switch : Bool
  startup_sequence_complete : Bool
  fault_override : Bool
  rescue_timer_overrun : Bool
  task_mgr_period_overrun : Bool
  os_component_check : Bool

/-- The object `task_mgr` (`TASK_MANAGER_t`). `proc_code` is kept as its two
8-bit segments. -/
structure TASK_MANAGER where
  op_mode : OP_MODE
  pre_op_mode : OP_MODE
  proc_code_op_mode : Nat
  proc_code_task_id : Nat
  status : TASK_MGR_STATUS
  task_queue : TASK_QUEUE
  os_timer : OS_TIMER
  cpu_load : CPU_LOAD
  op_mode_switch_over_function : Option SWITCH_OVER_FUNCTION

/-- The object `rescue_state` (`WREG_SET_t`). -/
structure WREG_SET where
  wreg14 : Nat
  wreg15 : Nat
  cpu_stat : Nat

/-- The CPU and timer registers the core writes: frame pointer `w14`, stack
pointer `w15`, status register `SR`, the timer period register
(`*task_mgr.os_timer.reg_period`) and the interrupt enable bit
`TASK_MGR_TMR_IE` of the rescue timer. -/
structure CPU where
  W14 : Nat
  W15 : Nat
  SR : Nat
  TMR_PERIOD : Nat
  TMR_IE : Bool

/-- The global state the core works on. -/
structure SYS where
  task_mgr : TASK_MANAGER
  tasks : Nat → TASKMGR_TASK_CONTROL
  rescue_state : WREG_SET
  cpu : CPU
  run_scheduler : Bool

/-- How a call of a task entry ends: it returns a status, or the rescue
timer interrupt fires while it runs (`s` is the state at that instant). -/
inductive TASK_RESULT where
  | returned (s : SYS) (retval : Nat)
  | timed_out (s : SYS)

/-- A call from the core into code outside of it. -/
inductive EVENT where
  | task (id : Nat)
  | hook (f : SWITCH_OVER_FUNCTION)
  | mode_check
  deriving DecidableEq, Repr

/-- Compile-time configuration: the task queues of `UserTasks.c` with their
sizes, the constants of `task_manager_config.h`, the numeric value of each
operating mode and the width in bits of `cpu_load.ticks`. None of these
declarations is among the sources, so they are parameters. -/
structure CONFIG where
  task_table_size : Nat
  task_queue_boot : Nat → Nat
  task_queue_boot_size : Nat
  task_queue_firmware_init : Nat → Nat
  task_queue_firmware_init_size : Nat
  task_queue_startup_sequence : Nat → Nat
  task_queue_startup_sequence_size : Nat
  task_queue_idle : Nat → Nat
  task_queue_idle_size : Nat
  task_queue_run : Nat → Nat
  task_queue_run_size : Nat
  task_queue_fault : Nat → Nat
  task_queue_fault_size : Nat
  task_queue_standby : Nat → Nat
  task_queue_standby_size : Nat
  TASK_MGR_TIMER_INDEX : Nat
  TASK_MGR_MASTER_PERIOD : Nat
  TASK_MGR_RESCUE_PERIOD : Nat
  TASK_MGR_CPU_LOAD_NOMBLK : Nat
  TASK_MGR_CPU_LOAD_FACTOR : Nat
  op_mode_value : OP_MODE → Nat
  ticks_bits : Nat

/-- What the world outside the core does during one scheduler cycle: the
task table, the four switch-over functions, the application status capture
and the fault scan as state transformers, the number of iterations of the
idle wait loop, the two reads of the timer counter around the task call and
the read of the timer interrupt flag after it. -/
structure ENVIRONMENT where
  Task_Table : Nat → Option (SYS → TASK_RESULT)
  switch_over : SWITCH_OVER_FUNCTION → SYS → SYS
  APPLICATION_CaptureSystemStatus : SYS → SYS × Nat
  exec_FaultCheckAll : SYS → SYS × Nat
  idle_ticks : Nat
  t_start : Nat
  t_stop : Nat
  tmr_if : Bool

/-- State, C return value and calls made, as returned by a core function. -/
structure OUTCOME where
  sys : SYS
  ret : Nat
  trace : List EVENT

/-! ## os_TaskManager.c -/

/-- The interrupt service routine `_RescueTimer_Interrupt`: disable the timer
interrupt, set the overrun bit, disable the active task, and
(`RestoreStackFrame`) load `w14`/`w15` from `rescue_state`; control continues
at `TASK_MGR_JUMP_TARGET`. -/
def _RescueTimer_Interrupt (s : SYS) : SYS :=
  { s with
    cpu := { s.cpu with
      TMR_IE := false
      W14 := s.rescue_state.wreg14
      W15 := s.rescue_state.wreg15 }
    task_mgr := { s.task_mgr with
      status := { s.task_mgr.status with rescue_timer_overrun := true } }
    tasks := Function.update s.tasks s.task_mgr.task_queue.active_task_id
      { s.tasks s.task_mgr.task_queue.active_task_id with enabled := false } }

/-- Lines 114-130 of `os_ProcessTaskQueue`: pick the task, log the process
code, capture the stack frame and `SR`, program the rescue period and enable
the rescue interrupt. -/
def os_ProcessTaskQueue_arm (cfg : CONFIG) (s : SYS) : SYS :=
  { s with
    task_mgr := { s.task_mgr with
      task_queue := { s.task_mgr.task_queue with
        active_task_id :=
          s.task_mgr.task_queue.active_queue s.task_mgr.task_queue.active_index }
      proc_code_op_mode := cfg.op_mode_value s.task_mgr.op_mode % 256
      proc_code_task_id :=
        s.task_mgr.task_queue.active_queue s.task_mgr.task_queue.active_index % 256 }
    rescue_state := { wreg14 := s.cpu.W14, wreg15 := s.cpu.W15, cpu_stat := s.cpu.SR }
    cpu := { s.cpu with
      TMR_PERIOD := s.task_mgr.os_timer.rescue_period
      TMR_IE := true } }

/-- Lines 133-141 of `os_ProcessTaskQueue`: the guarded task call, up to the
label `TASK_MGR_JUMP_TARGET`. `ret` is the local `retval` at the label: the
status of the task when it returned, and still the initial 0 when no task
was called or the rescue interrupt cut the call short. -/
def os_ProcessTaskQueue_call (env : ENVIRONMENT) (s : SYS) : OUTCOME :=
  if (s.tasks s.task_mgr.task_queue.active_task_id).enabled then
    match env.Task_Table s.task_mgr.task_queue.active_task_id with
    | some entry =>
      match entry s with
      | TASK_RESULT.returned s1 retval =>
        { sys := s1, ret := retval % 65536,
          trace := [EVENT.task s.task_mgr.task_queue.active_task_id] }
      | TASK_RESULT.timed_out s1 =>
        { sys := _RescueTimer_Interrupt s1, ret := 0,
          trace := [EVENT.task s.task_mgr.task_queue.active_task_id] }
    | none => { sys := s, ret := 0, trace := [] }
  else { sys := s, ret := 0, trace := [] }

/-- Lines 158-180 of `os_ProcessTaskQueue`: the 32-bit buffer `t_buf` and the
function result `f_ret`, from the flag `TASK_MGR_TMR_IF`, the period register
and the two counter reads. -/
def task_time (tmr_if : Bool) (period t_start t_stop : Nat) : Nat × Nat :=
  if tmr_if then
    let t_stop1 := (period + 4294967296 - t_stop) % 4294967296
    let t_buf := (t_stop1 + t_start) % 4294967296
    (if t_buf > 65535 then 65535 else t_buf, 1)
  else
    if t_stop > t_start then (t_stop - t_start, 1) else (0, 0)

/-- Lines 144-194 of `os_ProcessTaskQueue`, from the jump target on: disarm
the rescue timer, restore `SR` and the master period, log the return value,
measure the task time and track the maxima. The read of the period register
in line 166 yields `master_period`, which line 146 has stored there. -/
def os_ProcessTaskQueue_measure (env : ENVIRONMENT) (s : SYS) (retval : Nat) : SYS × Nat :=
  let id := s.task_mgr.task_queue.active_task_id
  let tt := task_time env.tmr_if s.task_mgr.os_timer.master_period
    (env.t_start % 65536) (env.t_stop % 65536)
  let t16 := tt.1 % 65536
  let old := s.tasks id
  ({ s with
    cpu := { s.cpu with
      TMR_IE := false
      SR := s.rescue_state.cpu_stat
      TMR_PERIOD := s.task_mgr.os_timer.master_period }
    tasks := Function.update s.tasks id
      { old with
        return_value := retval
        task_period := t16
        task_period_max := if t16 > old.task_period_max then t16 else old.task_period_max }
    task_mgr := { s.task_mgr with
      status := { s.task_mgr.status with task_mgr_period_overrun := env.tmr_if }
      task_queue := { s.task_mgr.task_queue with
        active_retval := retval
        active_task_time := t16 }
      os_timer := { s.task_mgr.os_timer with
        task_period_max :=
          if t16 > s.task_mgr.os_timer.task_period_max then t16
          else s.task_mgr.os_timer.task_period_max } } }, tt.2)

/-- The function `os_ProcessTaskQueue`. -/
def os_ProcessTaskQueue (cfg : CONFIG) (env : ENVIRONMENT) (s : SYS) : OUTCOME :=
  let c := os_ProcessTaskQueue_call env (os_ProcessTaskQueue_arm cfg s)
  let m := os_ProcessTaskQueue_measure env c.sys c.ret
  { sys := m.1, ret := m.2, trace := c.trace }

/-- State and local `retval` of `os_ProcessTaskQueue` at the label
`TASK_MGR_JUMP_TARGET` (line 141), with the calls made up to there. -/
def at_jump_target (cfg : CONFIG) (env : ENVIRONMENT) (s : SYS) : OUTCOME :=
  os_ProcessTaskQueue_call env (os_ProcessTaskQueue_arm cfg s)

/-- Store a new operating mode in `task_mgr.op_mode.value`. -/
def set_op_mode (s : SYS) (m : OP_MODE) : SYS :=
  { s with task_mgr := { s.task_mgr with op_mode := m } }

/-- Lines 207-229 of `os_CheckOperationModeStatus`: the start-up
progressions. -/
def os_CheckOperationModeStatus_startup (s : SYS) : SYS :=
  if s.task_mgr.op_mode = OP_MODE.UNKNOWN then
    set_op_mode s OP_MODE.BOOT
  else if s.task_mgr.pre_op_mode = OP_MODE.BOOT ∧ s.task_mgr.op_mode = OP_MODE.BOOT then
    set_op_mode s OP_MODE.FIRMWARE_INIT
  else if s.task_mgr.pre_op_mode = OP_MODE.FIRMWARE_INIT
      ∧ s.task_mgr.op_mode = OP_MODE.FIRMWARE_INIT then
    set_op_mode s OP_MODE.STARTUP_SEQUENCE
  else if s.task_mgr.pre_op_mode = OP_MODE.STARTUP_SEQUENCE
      ∧ s.task_mgr.op_mode = OP_MODE.STARTUP_SEQUENCE then
    set_op_mode
      { s with task_mgr := { s.task_mgr with
          status := { s.task_mgr.status with startup_sequence_complete := true } } }
      OP_MODE.IDLE
  else s

/-- The five assignments every named case of the switch makes to the task
queue, and the assignment to the switch-over function pointer. -/
def load_queue (s : SYS) (queue : Nat → Nat) (size : Nat)
    (f : Option SWITCH_OVER_FUNCTION) : SYS :=
  { s with task_mgr := { s.task_mgr with
      task_queue := { s.task_mgr.task_queue with
        active_queue := queue
        active_task_id := queue 0
        active_index := 0
        size := size
        ubound := (size + 65535) % 65536 }
      op_mode_switch_over_function := f } }

/-- Lines 237-338 of `os_CheckOperationModeStatus`: the switch over the new
operating mode. -/
def os_CheckOperationModeStatus_switch (cfg : CONFIG) (s : SYS) : SYS :=
  match s.task_mgr.op_mode with
  | OP_MODE.BOOT =>
    load_queue s cfg.task_queue_boot cfg.task_queue_boot_size none
  | OP_MODE.FIRMWARE_INIT =>
    load_queue s cfg.task_queue_firmware_init cfg.task_queue_firmware_init_size none
  | OP_MODE.STARTUP_SEQUENCE =>
    load_queue s cfg.task_queue_startup_sequence cfg.task_queue_startup_sequence_size none
  | OP_MODE.IDLE =>
    load_queue s cfg.task_queue_idle cfg.task_queue_idle_size
      (some SWITCH_OVER_FUNCTION.task_queue_idle_init)
  | OP_MODE.RUN =>
    load_queue s cfg.task_queue_run cfg.task_queue_run_size
      (some SWITCH_OVER_FUNCTION.task_queue_run_init)
  | OP_MODE.FAULT =>
    load_queue
      { s with task_mgr := { s.task_mgr with
          status := { s.task_mgr.status with fault_override := true } } }
      cfg.task_queue_fault cfg.task_queue_fault_size
      (some SWITCH_OVER_FUNCTION.task_queue_fault_init)
  | OP_MODE.STANDBY =>
    load_queue s cfg.task_queue_standby cfg.task_queue_standby_size
      (some SWITCH_OVER_FUNCTION.task_queue_standby_init)
  | _ => set_op_mode s OP_MODE.IDLE

/-- The body of the loop in lines 341-346, for one index `i`. -/
def clear_task_timing (tasks : Nat → TASKMGR_TASK_CONTROL) (id : Nat) :
    Nat → TASKMGR_TASK_CONTROL :=
  Function.update tasks id
    { tasks id with return_value := 0, task_period := 0, task_period_max := 0 }

/-- Lines 341-346 of `os_CheckOperationModeStatus`: clear the timing data of
the tasks at positions `0 .. size-1` of the active queue. -/
def os_CheckOperationModeStatus_clear (s : SYS) : SYS :=
  { s with
    tasks :=
      (List.range s.task_mgr.task_queue.size).foldl
        (fun t i => clear_task_timing t (s.task_mgr.task_queue.active_queue i)) s.tasks }

/-- Lines 349-354 of `os_CheckOperationModeStatus`: call the switch-over
function when the pointer is not NULL, then synchronise the two mode words
and raise `queue_switch`. -/
def os_CheckOperationModeStatus_finish (env : ENVIRONMENT) (s : SYS) : OUTCOME :=
  let h : SYS × List EVENT :=
    match s.task_mgr.op_mode_switch_over_function with
    | some f => (env.switch_over f s, [EVENT.hook f])
    | none => (s, [])
  { sys := { h.1 with task_mgr := { h.1.task_mgr with
        pre_op_mode := h.1.task_mgr.op_mode
        status := { h.1.task_mgr.status with queue_switch := true } } }
    ret := 1
    trace := h.2 }

/-- The function `os_CheckOperationModeStatus`. -/
def os_CheckOperationModeStatus (cfg : CONFIG) (env : ENVIRONMENT) (s : SYS) : OUTCOME :=
  let s1 := os_CheckOperationModeStatus_startup s
  if s1.task_mgr.pre_op_mode ≠ s1.task_mgr.op_mode then
    os_CheckOperationModeStatus_finish env
      (os_CheckOperationModeStatus_clear (os_CheckOperationModeStatus_switch cfg s1))
  else
    { sys := { s1 with task_mgr := { s1.task_mgr with
          status := { s1.task_mgr.status with queue_switch := false } } }
      ret := 1
      trace := [] }

/-- The loop of lines 407-415 of `os_TaskManager_Initialize`, for one index. -/
def init_task (i : Nat) (cfg : CONFIG) (t : TASKMGR_TASK_CONTROL) : TASKMGR_TASK_CONTROL :=
  { t with
    id := i
    time_quota := cfg.TASK_MGR_MASTER_PERIOD
    task_period := 0
    task_period_max := 0
    return_value := 0
    enabled := true }

/-- The function `os_TaskManager_Initialize` (its return value is 1). -/
def os_TaskManager_Initialize (cfg : CONFIG) (s : SYS) : SYS :=
  { s with
    task_mgr := { s.task_mgr with
      pre_op_mode := OP_MODE.BOOT
      op_mode := OP_MODE.BOOT
      proc_code_op_mode := 0
      proc_code_task_id := 0
      task_queue := { s.task_mgr.task_queue with
        active_queue := cfg.task_queue_boot
        size := cfg.task_queue_boot_size
        ubound := (cfg.task_queue_boot_size + 65535) % 65536
        active_task_id := cfg.task_queue_boot 0
        active_index := 0 }
      os_timer := {
        index := cfg.TASK_MGR_TIMER_INDEX
        master_period := cfg.TASK_MGR_MASTER_PERIOD
        rescue_period := cfg.TASK_MGR_RESCUE_PERIOD
        task_period_max := 0 }
      status := { s.task_mgr.status with
        queue_switch := false
        startup_sequence_complete := false
        fault_override := false }
      cpu_load := {
        load := 0
        load_max_buffer := 0
        ticks := 0
        loop_nomblk := cfg.TASK_MGR_CPU_LOAD_NOMBLK
        load_factor := cfg.TASK_MGR_CPU_LOAD_FACTOR } }
    tasks := fun i => if i < cfg.task_table_size then init_task i cfg (s.tasks i) else s.tasks i }

/-! ## os_Scheduler.c -/

/-- Lines 161-176 of `OS_Execute`: the queue-advance step. `fres` is the
local accumulator of return values. -/
def OS_Execute_advance (cfg : CONFIG) (env : ENVIRONMENT) (fres : Nat) (s : SYS) : OUTCOME :=
  if (s.task_mgr.task_queue.active_index + 1) % 65536 > s.task_mgr.task_queue.ubound
      ∨ s.task_mgr.pre_op_mode ≠ s.task_mgr.op_mode then
    let r := os_CheckOperationModeStatus cfg env s
    { sys := { r.sys with task_mgr := { r.sys.task_mgr with
          task_queue := { r.sys.task_mgr.task_queue with
            active_index := 0
            active_task_id := (r.sys.tasks 0).id } } }
      ret := fres &&& r.ret
      trace := EVENT.mode_check :: r.trace }
  else
    { sys := { s with task_mgr := { s.task_mgr with
          task_queue := { s.task_mgr.task_queue with
            active_index := (s.task_mgr.task_queue.active_index + 1) % 65536 } } }
      ret := fres
      trace := [] }

/-- Lines 88-108 of `OS_Execute`: the idle wait has counted `idle_ticks`
iterations; compute the CPU load from them. -/
def OS_Execute_cpu_load (cfg : CONFIG) (env : ENVIRONMENT) (s : SYS) : SYS :=
  let ticks := (env.idle_ticks % 2 ^ cfg.ticks_bits * s.task_mgr.cpu_load.loop_nomblk)
    % 2 ^ cfg.ticks_bits
  let load := (1000 + 65536
    - ((((ticks * s.task_mgr.cpu_load.load_factor) % 2 ^ cfg.ticks_bits) >>> 16) % 65536))
    % 65536
  { s with task_mgr := { s.task_mgr with
      cpu_load := { s.task_mgr.cpu_load with
        ticks := ticks
        load := load
        load_max_buffer := s.task_mgr.cpu_load.load_max_buffer ||| load } } }

/-- Line 141 of `OS_Execute`: the accumulator `fres` is assigned to the
one-bit field `os_component_check`, which keeps its bit 0. -/
def set_os_component_check (s : SYS) (fres : Nat) : SYS :=
  { s with task_mgr := { s.task_mgr with
      status := { s.task_mgr.status with os_component_check := decide (fres % 2 = 1) } } }

/-- Lines 129-176 of `OS_Execute`, the part of an iteration that follows the
task dispatch: application status capture, component-check bit, fault scan
and queue advance. `fres` is the accumulator after the dispatch. -/
def OS_Execute_tail (cfg : CONFIG) (env : ENVIRONMENT) (fres : Nat) (s : SYS) : OUTCOME :=
  let a := env.APPLICATION_CaptureSystemStatus s
  let fres2 := fres &&& (a.2 % 65536)
  let f := env.exec_FaultCheckAll (set_os_component_check a.1 fres2)
  OS_Execute_advance cfg env (fres2 &&& (f.2 % 65536)) f.1

/-- One iteration of the main loop of `OS_Execute` (lines 88-176): CPU load,
task dispatch, application status capture, component-check bit, fault scan,
queue advance. `ret` is the accumulator `fres` at the end of the iteration. -/
def OS_Execute_cycle (cfg : CONFIG) (env : ENVIRONMENT) (fres : Nat) (s : SYS) : OUTCOME :=
  let p := os_ProcessTaskQueue cfg env (OS_Execute_cpu_load cfg env s)
  let r := OS_Execute_tail cfg env (fres &&& p.ret) p.sys
  { sys := r.sys, ret := r.ret, trace := p.trace ++ r.trace }

/-- The main loop `while (run_scheduler)` of `OS_Execute`, run over the
environments of the successive cycles; it stops early when `run_scheduler`
is found false. -/
def OS_Execute_loop (cfg : CONFIG) : List ENVIRONMENT → Nat → SYS → OUTCOME
  | [], fres, s => { sys := s, ret := fres, trace := [] }
  | env :: envs, fres, s =>
    if s.run_scheduler then
      let c := OS_Execute_cycle cfg env fres s
      let r := OS_Execute_loop cfg envs c.ret c.sys
      { sys := r.sys, ret := r.ret, trace := c.trace ++ r.trace }
    else { sys := s, ret := fres, trace := [] }

/-- The state in which the task entry of a cycle is called: lines 88-130,
the CPU-load computation followed by the first part of
`os_ProcessTaskQueue`. -/
def dispatch_state (cfg : CONFIG) (env : ENVIRONMENT) (s : SYS) : SYS :=
  os_ProcessTaskQueue_arm cfg (OS_Execute_cpu_load cfg env s)

/-! ## Predicates used in the statements -/

/-- The queue-index invariant: `active_index <= ubound`. -/
def index_in_bounds (s : SYS) : Prop :=
  s.task_mgr.task_queue.active_index ≤ s.task_mgr.task_queue.ubound

instance (s : SYS) : Decidable (index_in_bounds s) := by
  unfold index_in_bounds; infer_instance

/-- The seven operating modes that have a case in the switch of
`os_CheckOperationModeStatus`. -/
def named_mode (m : OP_MODE) : Prop :=
  m = OP_MODE.BOOT ∨ m = OP_MODE.FIRMWARE_INIT ∨ m = OP_MODE.STARTUP_SEQUENCE ∨
  m = OP_MODE.IDLE ∨ m = OP_MODE.RUN ∨ m = OP_MODE.FAULT ∨ m = OP_MODE.STANDBY

/-- The queue an operating mode owns (`task_queue_boot` for BOOT, ...); the
idle queue for every mode without a queue of its own. -/
def queue_of_mode (cfg : CONFIG) : OP_MODE → Nat → Nat
  | OP_MODE.BOOT => cfg.task_queue_boot
  | OP_MODE.FIRMWARE_INIT => cfg.task_queue_firmware_init
  | OP_MODE.STARTUP_SEQUENCE => cfg.task_queue_startup_sequence
  | OP_MODE.RUN => cfg.task_queue_run
  | OP_MODE.FAULT => cfg.task_queue_fault
  | OP_MODE.STANDBY => cfg.task_queue_standby
  | _ => cfg.task_queue_idle

/-- The size of the queue an operating mode owns. -/
def size_of_mode (cfg : CONFIG) : OP_MODE → Nat
  | OP_MODE.BOOT => cfg.task_queue_boot_size
  | OP_MODE.FIRMWARE_INIT => cfg.task_queue_firmware_init_size
  | OP_MODE.STARTUP_SEQUENCE => cfg.task_queue_startup_sequence_size
  | OP_MODE.RUN => cfg.task_queue_run_size
  | OP_MODE.FAULT => cfg.task_queue_fault_size
  | OP_MODE.STANDBY => cfg.task_queue_standby_size
  | _ => cfg.task_queue_idle_size

/-- The switch-over functions of `env` write neither the operating mode nor
the bit `startup_sequence_complete`. -/
def hooks_keep_mode (env : ENVIRONMENT) : Prop :=
  ∀ (f : SWITCH_OVER_FUNCTION) (s : SYS),
    (env.switch_over f s).task_mgr.op_mode = s.task_mgr.op_mode ∧
    (env.switch_over f s).task_mgr.status.startup_sequence_complete
      = s.task_mgr.status.startup_sequence_complete

/-- The switch-over functions of `env` write neither the operating mode nor
the member `task_mgr.task_queue`. -/
def hooks_keep_queue (env : ENVIRONMENT) : Prop :=
  ∀ (f : SWITCH_OVER_FUNCTION) (s : SYS),
    (env.switch_over f s).task_mgr.op_mode = s.task_mgr.op_mode ∧
    (env.switch_over f s).task_mgr.task_queue = s.task_mgr.task_queue

/-- The state a task call ends in. -/
def TASK_RESULT.sys : TASK_RESULT → SYS
  | TASK_RESULT.returned s _ => s
  | TASK_RESULT.timed_out s => s

/-- No code outside the core that runs in a cycle of `env` (task entries,
switch-over functions, status capture, fault scan) re-enables task `T`: each
of them, started with `tasks[T].enabled` false, ends with it false. -/
def keeps_disabled (T : Nat) (env : ENVIRONMENT) : Prop :=
  (∀ (id : Nat) (entry : SYS → TASK_RESULT) (s : SYS), env.Task_Table id = some entry →
    (s.tasks T).enabled = false → ((entry s).sys.tasks T).enabled = false) ∧
  (∀ (f : SWITCH_OVER_FUNCTION) (s : SYS), (s.tasks T).enabled = false →
    ((env.switch_over f s).tasks T).enabled = false) ∧
  (∀ s : SYS, (s.tasks T).enabled = false →
    ((env.APPLICATION_CaptureSystemStatus s).1.tasks T).enabled = false) ∧
  (∀ s : SYS, (s.tasks T).enabled = false →
    ((env.exec_FaultCheckAll s).1.tasks T).enabled = false)

/-! ## Concrete configuration used to instantiate the statements -/

/-- A task control block with all fields cleared and the task enabled. -/
def task0 : TASKMGR_TASK_CONTROL :=
  { id := 0, enabled := true, time_quota := 0, task_period := 0,
    task_period_max := 0, return_value := 0 }

/-- A configuration with seven different queues: the queue of the k-th mode
holds the ids k, k+1, ... and has k+1 elements (boot: k = 0, ..., standby:
k = 6). -/
def cfg0 : CONFIG :=
  { task_table_size := 8
    task_queue_boot := fun i => i
    task_queue_boot_size := 1
    task_queue_firmware_init := fun i => i + 1
    task_queue_firmware_init_size := 2
    task_queue_startup_sequence := fun i => i + 2
    task_queue_startup_sequence_size := 3
    task_queue_idle := fun i => i + 3
    task_queue_idle_size := 4
    task_queue_run := fun i => i + 4
    task_queue_run_size := 5
    task_queue_fault := fun i => i + 5
    task_queue_fault_size := 6
    task_queue_standby := fun i => i + 6
    task_queue_standby_size := 7
    TASK_MGR_TIMER_INDEX := 1
    TASK_MGR_MASTER_PERIOD := 7000
    TASK_MGR_RESCUE_PERIOD := 60000
    TASK_MGR_CPU_LOAD_NOMBLK := 4
    TASK_MGR_CPU_LOAD_FACTOR := 65536
    op_mode_value := fun _ => 0
    ticks_bits := 32 }

/-- A state in mode UNKNOWN with every numeric field zero, every status bit
clear, the switch-over pointer NULL, `run_scheduler` set and every task
enabled. -/
def sys0 : SYS :=
  { task_mgr :=
      { op_mode := OP_MODE.UNKNOWN
        pre_op_mode := OP_MODE.UNKNOWN
        proc_code_op_mode := 0
        proc_code_task_id := 0
        status :=
          { queue_switch := false, startup_sequence_complete := false,
            fault_override := false, rescue_timer_overrun := false,
            task_mgr_period_overrun := false, os_component_check := false }
        task_queue :=
          { active_queue := fun _ => 0, size := 0, ubound := 0, active_index := 0,
            active_task_id := 0, active_retval := 0, active_task_time := 0 }
        os_timer := { index := 0, master_period := 0, rescue_period := 0, task_period_max := 0 }
        cpu_load := { load := 0, load_max_buffer := 0, ticks := 0, loop_nomblk := 0,
                      load_factor := 0 }
        op_mode_switch_over_function := none }
    tasks := fun _ => task0
    rescue_state := { wreg14 := 0, wreg15 := 0, cpu_stat := 0 }
    cpu := { W14 := 0, W15 := 0, SR := 0, TMR_PERIOD := 0, TMR_IE := false }
    run_scheduler := true }

/-- An environment whose tasks return 1 at once, whose hooks, status capture
and fault scan change nothing, with the counter reads 100 and 250 and no
pending timer flag. -/
def env0 : ENVIRONMENT :=
  { Task_Table := fun _ => some (fun s => TASK_RESULT.returned s 1)
    switch_over := fun _ s => s
    APPLICATION_CaptureSystemStatus := fun s => (s, 1)
    exec_FaultCheckAll := fun s => (s, 1)
    idle_ticks := 10
    t_start := 100
    t_stop := 250
    tmr_if := false }

/-- A request for RUN observed in the initialised state of `cfg0`. -/
def sys_run_request : SYS :=
  set_op_mode (os_TaskManager_Initialize cfg0 sys0) OP_MODE.RUN

/-- The state reached by the RUN request of `sys_run_request` (RUN queue
active), in which the mode word is then overwritten with the unnamed value
255. -/
def sys_unnamed_request : SYS :=
  set_op_mode (os_CheckOperationModeStatus cfg0 env0 sys_run_request).sys (OP_MODE.OTHER 255)

/-- An environment like `env0` in which every task entry runs until the
rescue timer interrupt ends it. -/
def env_spin : ENVIRONMENT :=
  { env0 with Task_Table := fun _ => some (fun s => TASK_RESULT.timed_out s) }

/-- An environment like `env0` in which both counter reads give 100. -/
def env_equal_reads : ENVIRONMENT :=
  { env0 with t_start := 100, t_stop := 100 }

/-- An environment like `env0` in which the timer flag is pending after the
task, with the counter reads 6900 before and 150 after. -/
def env_overrun : ENVIRONMENT :=
  { env0 with t_start := 6900, t_stop := 150, tmr_if := true }

/-- The mode check detects a transition: after the start-up progressions the
two mode words differ (the condition of line 234). -/
def transition_detected (s : SYS) : Prop :=
  (os_CheckOperationModeStatus_startup s).task_mgr.pre_op_mode
    ≠ (os_CheckOperationModeStatus_startup s).task_mgr.op_mode

instance (s : SYS) : Decidable (transition_detected s) := by
  unfold transition_detected; infer_instance

/-- The state of `os_CheckOperationModeStatus` at line 348, when a transition
was detected: the queue is selected and the timing data is cleared, the
switch-over function has not been called yet. -/
def before_hook (cfg : CONFIG) (s : SYS) : SYS :=
  os_CheckOperationModeStatus_clear
    (os_CheckOperationModeStatus_switch cfg (os_CheckOperationModeStatus_startup s))

/-- The switch-over function that belongs to an operating mode: the one the
case of that mode stores in the pointer; none for BOOT, FIRMWARE_INIT and
STARTUP_SEQUENCE. -/
def hook_of_mode : OP_MODE → Option SWITCH_OVER_FUNCTION
  | OP_MODE.IDLE => some SWITCH_OVER_FUNCTION.task_queue_idle_init
  | OP_MODE.RUN => some SWITCH_OVER_FUNCTION.task_queue_run_init
  | OP_MODE.FAULT => some SWITCH_OVER_FUNCTION.task_queue_fault_init
  | OP_MODE.STANDBY => some SWITCH_OVER_FUNCTION.task_queue_standby_init
  | _ => none

/-- The calls of switch-over functions made when a pointer value is
executed: one call for a function, none for NULL. -/
def hook_calls : Option SWITCH_OVER_FUNCTION → List EVENT
  | some f => [EVENT.hook f]
  | none => []

/-- Consecutive calls of `os_CheckOperationModeStatus`, one per environment
of the list, with no other code in between. -/
def mode_checks (cfg : CONFIG) : List ENVIRONMENT → SYS → SYS
  | [], s => s
  | env :: envs, s => mode_checks cfg envs (os_CheckOperationModeStatus cfg env s).sys

/-- The initialised state of `cfg0` in which the mode word is overwritten
with the unnamed value 255 (the switch-over pointer is still NULL). -/
def sys_unnamed_from_boot : SYS :=
  set_op_mode (os_TaskManager_Initialize cfg0 sys0) (OP_MODE.OTHER 255)

/-- The state of `sys_run_request` moved to the middle of a long queue:
`active_index = 3`, `ubound = 9`, RUN requested while `pre_op_mode` is BOOT. -/
def sys_run_request_mid : SYS :=
  { sys_run_request with
    task_mgr := { sys_run_request.task_mgr with
      task_queue := { sys_run_request.task_mgr.task_queue with
        size := 10
        ubound := 9
        active_index := 3 } } }

/-- The state of `sys_run_request_mid` without the request: both mode words
are BOOT. -/
def sys_mid_queue : SYS :=
  set_op_mode sys_run_request_mid OP_MODE.BOOT

/-- The 16-bit value that line 107 of `OS_Execute` subtracts from 1000: the
product of the scaled tick count (line 106) and `load_factor`, shifted right
by 16 and cast to `uint16_t`. -/
def idle_share (cfg : CONFIG) (env : ENVIRONMENT) (s : SYS) : Nat :=
  (((((env.idle_ticks % 2 ^ cfg.ticks_bits * s.task_mgr.cpu_load.loop_nomblk)
      % 2 ^ cfg.ticks_bits) * s.task_mgr.cpu_load.load_factor) % 2 ^ cfg.ticks_bits) >>> 16)
    % 65536

/-- An environment like `env0` in which the idle wait loop runs 300 times. -/
def env_long_idle : ENVIRONMENT :=
  { env0 with idle_ticks := 300 }

/-- Modelled from the spec: the object `traplog`, whose declaration is not
among the sources. Of the trap log the scheduler writes the flag bit
`status.bits.sw_reset` and the reset-attempt counter `reset_count`, a 16-bit
counter that persists across warm resets. -/
structure TRAPLOG where
  sw_reset : Bool
  reset_count : Nat

/-- How `OS_Execute` ends after the main loop: with the warm reset
`CPU_RESET` (line 222) or in the endless loop of lines 228-229. -/
inductive SHUTDOWN where
  | CPU_RESET
  | STALL
  deriving DecidableEq, Repr

/-- Lines 212-230 of `OS_Execute`, executed when the main loop has ended.
`TASK_MGR_CPU_RESET_LIMIT` is the configuration constant of that name and
`CaptureCPUInterruptStatus` the effect of the function of that name on the
trap log; neither is among the sources. -/
def OS_Execute_shutdown (TASK_MGR_CPU_RESET_LIMIT : Nat)
    (CaptureCPUInterruptStatus : TRAPLOG → TRAPLOG) (t : TRAPLOG) : TRAPLOG × SHUTDOWN :=
  if ((CaptureCPUInterruptStatus t).reset_count + 1) % 65536 < TASK_MGR_CPU_RESET_LIMIT then
    ({ CaptureCPUInterruptStatus t with
        sw_reset := true
        reset_count := ((CaptureCPUInterruptStatus t).reset_count + 1) % 65536 },
      SHUTDOWN.CPU_RESET)
  else
    ({ CaptureCPUInterruptStatus t with
        sw_reset := true
        reset_count := ((CaptureCPUInterruptStatus t).reset_count + 1) % 65536 },
      SHUTDOWN.STALL)

/-- The ends of up to `n` consecutive runs of `OS_Execute`, the trap log
being carried from one run to the next by the warm reset; a run that ends in
the endless loop is the last one. -/
def OS_Execute_restarts (TASK_MGR_CPU_RESET_LIMIT : Nat)
    (CaptureCPUInterruptStatus : TRAPLOG → TRAPLOG) : Nat → TRAPLOG → List SHUTDOWN
  | 0, _ => []
  | n + 1, t =>
    match (OS_Execute_shutdown TASK_MGR_CPU_RESET_LIMIT CaptureCPUInterruptStatus t).2 with
    | SHUTDOWN.CPU_RESET =>
      SHUTDOWN.CPU_RESET :: OS_Execute_restarts TASK_MGR_CPU_RESET_LIMIT
        CaptureCPUInterruptStatus n
        (OS_Execute_shutdown TASK_MGR_CPU_RESET_LIMIT CaptureCPUInterruptStatus t).1
    | SHUTDOWN.STALL => [SHUTDOWN.STALL]

/-- A trap log with the reset counter at 2. -/
def traplog2 : TRAPLOG :=
  { sw_reset := false, reset_count := 2 }

/-- A trap log with the reset counter at 65534. -/
def traplog_high : TRAPLOG :=
  { sw_reset := false, reset_count := 65534 }

/-- The state of a scheduler cycle right after line 141 of `OS_Execute`: the
task has been dispatched, the application status captured and the bit
`os_component_check` written; the fault scan has not run yet. `fres` is the
accumulator at the start of the cycle. -/
def at_component_check (cfg : CONFIG) (env : ENVIRONMENT) (fres : Nat) (s : SYS) : SYS :=
  set_os_component_check
    (env.APPLICATION_CaptureSystemStatus
      (os_ProcessTaskQueue cfg env (OS_Execute_cpu_load cfg env s)).sys).1
    ((fres &&& (os_ProcessTaskQueue cfg env (OS_Execute_cpu_load cfg env s)).ret)
      &&& ((env.APPLICATION_CaptureSystemStatus
        (os_ProcessTaskQueue cfg env (OS_Execute_cpu_load cfg env s)).sys).2 % 65536))

/-- The state reached by the RUN request of `sys_run_request`, moved to the
last position of the RUN queue of `cfg0` (`active_index = ubound = 4`). -/
def sys_run_end : SYS :=
  { (os_CheckOperationModeStatus cfg0 env0 sys_run_request).sys with
    task_mgr := { (os_CheckOperationModeStatus cfg0 env0 sys_run_request).sys.task_mgr with
      task_queue :=
        { (os_CheckOperationModeStatus cfg0 env0 sys_run_request).sys.task_mgr.task_queue with
          active_index := 4 } } }

/-- The code outside the core that runs in a cycle of `env` does not write
`cpu_load.load_max_buffer`. -/
def keeps_load_max_buffer (env : ENVIRONMENT) : Prop :=
  (∀ (id : Nat) (entry : SYS → TASK_RESULT) (s : SYS), env.Task_Table id = some entry →
    (entry s).sys.task_mgr.cpu_load.load_max_buffer = s.task_mgr.cpu_load.load_max_buffer) ∧
  (∀ (f : SWITCH_OVER_FUNCTION) (s : SYS),
    (env.switch_over f s).task_mgr.cpu_load.load_max_buffer
      = s.task_mgr.cpu_load.load_max_buffer) ∧
  (∀ s : SYS, (env.APPLICATION_CaptureSystemStatus s).1.task_mgr.cpu_load.load_max_buffer
    = s.task_mgr.cpu_load.load_max_buffer) ∧
  (∀ s : SYS, (env.exec_FaultCheckAll s).1.task_mgr.cpu_load.load_max_buffer
    = s.task_mgr.cpu_load.load_max_buffer)

/-- The state of a scheduler cycle when the queue-advance step starts (line
161 of `OS_Execute`). -/
def before_advance (cfg : CONFIG) (env : ENVIRONMENT) (fres : Nat) (s : SYS) : SYS :=
  (env.exec_FaultCheckAll (at_component_check cfg env fres s)).1

/-- The enumeration `FLTOBJ_COMPARE_TYPE_e`. -/
inductive FLTOBJ_COMPARE_TYPE where
  | FAULT_LEVEL_NONE
  | FAULT_LEVEL_GREATER_THAN
  | FAULT_LEVEL_LESS_THAN
  | FAULT_LEVEL_EQUAL
  | FAULT_LEVEL_NOT_EQUAL
  | FAULT_LEVEL_IN_RANGE
  | FAULT_LEVEL_OUT_OF_RANGE
  | FAULT_LEVEL_BOOLEAN
  deriving DecidableEq, Repr

/-- The named bits of `FAULT_OBJECT_STATUS_t`. -/
structure FAULT_OBJECT_STATUS where
  fltlvl_hw : Bool
  fltlvl_sw : Bool
  fltlvl_si : Bool
  fltlvl_sys : Bool
  fault_active : Bool
  fault_status : Bool
  fltchk_enabled : Bool
  deriving DecidableEq, Repr

/-- The named bits of `FAULT_OBJECT_CLASS_t`. -/
structure FAULT_OBJECT_CLASS where
  flag : Bool
  warning : Bool
  critical : Bool
  catastrophic : Bool
  user_class : Bool
  deriving DecidableEq, Repr

/-- The 16-bit objects whose address the initializers of
`fdrv_FaultObjects.c` store in `criteria.source_object`. -/
inductive SOURCE_OBJECT where
  | traplog_status_value
  | cpu_load_load_max_buffer
  | task_queue_active_retval
  | os_timer_task_period_max
  | task_mgr_status_value
  deriving DecidableEq, Repr

/-- The functions whose address the initializers store in `trip_function`
or `reset_function`. -/
inductive FAULT_FUNCTION where
  | APPLICATION_Reset
  deriving DecidableEq, Repr

/-- The structure `FAULT_CONDITION_SETTINGS_t`; a NULL pointer is `none`. -/
structure FAULT_CONDITION_SETTINGS where
  counter : Nat
  source_object : Option SOURCE_OBJECT
  source_bit_mask : Nat
  compare_object : Option SOURCE_OBJECT
  compare_bit_mask : Nat
  compare_type : FLTOBJ_COMPARE_TYPE
  trip_level : Nat
  trip_cnt_threshold : Nat
  reset_level : Nat
  reset_cnt_threshold : Nat
  deriving DecidableEq, Repr

/-- The structure `FAULT_OBJECT_t`. -/
structure FAULT_OBJECT where
  id : Nat
  error_code : Nat
  status : FAULT_OBJECT_STATUS
  flt_class : FAULT_OBJECT_CLASS
  criteria : FAULT_CONDITION_SETTINGS
  trip_function : Option FAULT_FUNCTION
  reset_function : Option FAULT_FUNCTION
  deriving DecidableEq, Repr

/-- The constants the fault-object initializers use and that no source file
defines (they come from headers that are not among the sources), and the
word view `task_mgr.status.value` of the status bit field, whose bit
positions are fixed by `os_TaskManager.h`. -/
structure FAULT_CONFIG where
  FLTOBJ_CPU_FAILURE_ERROR : Nat
  FLTOBJ_CPU_LOAD_OVERRUN : Nat
  FLTOBJ_TASK_EXECUTION_FAILURE : Nat
  FLTOBJ_TASK_TIME_QUOTA_VIOLATION : Nat
  FLTOBJ_OS_COMPONENT_FAILURE : Nat
  FAULT_OBJECT_CPU_RESET_TRIGGER_BIT_MASK : Nat
  CPU_LOAD_WARNING : Nat
  CPU_LOAD_NORMAL : Nat
  EXEC_STAT_OS_COMP_CHECK : Nat
  status_value : TASK_MGR_STATUS → Nat

/-- The macro `FLTOBJ_BIT_MASK_DEFAULT`. -/
def FLTOBJ_BIT_MASK_DEFAULT : Nat := 65535

/-- The function `TaskExecutionFaultObject_Initialize`: the object
`fltobj_TaskExecutionFailure` it leaves and its return value. -/
def TaskExecutionFaultObject_Initialize (fc : FAULT_CONFIG) : FAULT_OBJECT × Nat :=
  ({ id := fc.FLTOBJ_TASK_EXECUTION_FAILURE % 65536
     error_code := fc.FLTOBJ_TASK_EXECUTION_FAILURE % 4294967296
     criteria :=
       { source_object := some SOURCE_OBJECT.task_queue_active_retval
         source_bit_mask := FLTOBJ_BIT_MASK_DEFAULT
         compare_object := none
         compare_bit_mask := FLTOBJ_BIT_MASK_DEFAULT
         compare_type := FLTOBJ_COMPARE_TYPE.FAULT_LEVEL_NOT_EQUAL
         trip_level := 1
         trip_cnt_threshold := 1
         reset_level := 1
         reset_cnt_threshold := 1
         counter := 0 }
     flt_class :=
       { flag := true, warning := false, critical := false, catastrophic := false,
         user_class := false }
     trip_function := none
     reset_function := none
     status :=
       { fltlvl_hw := false, fltlvl_sw := true, fltlvl_si := false, fltlvl_sys := false,
         fault_status := true, fault_active := true, fltchk_enabled := true } }, 1)

/-- The function `OSComponentFailureFaultObject_Initialize`: the object
`fltobj_OSComponentFailure` it leaves and its return value. The levels
`true` and `false` are stored in 16-bit fields as 1 and 0. -/
def OSComponentFailureFaultObject_Initialize (fc : FAULT_CONFIG) : FAULT_OBJECT × Nat :=
  ({ id := fc.FLTOBJ_OS_COMPONENT_FAILURE % 65536
     error_code := fc.FLTOBJ_OS_COMPONENT_FAILURE % 4294967296
     criteria :=
       { source_object := some SOURCE_OBJECT.task_mgr_status_value
         source_bit_mask := fc.EXEC_STAT_OS_COMP_CHECK % 65536
         compare_object := none
         compare_bit_mask := FLTOBJ_BIT_MASK_DEFAULT
         compare_type := FLTOBJ_COMPARE_TYPE.FAULT_LEVEL_BOOLEAN
         trip_level := 1
         trip_cnt_threshold := 1
         reset_level := 0
         reset_cnt_threshold := 100
         counter := 0 }
     flt_class :=
       { flag := false, warning := true, critical := false, catastrophic := false,
         user_class := false }
     trip_function := none
     reset_function := none
     status :=
       { fltlvl_hw := false, fltlvl_sw := true, fltlvl_si := false, fltlvl_sys := false,
         fault_status := true, fault_active := true, fltchk_enabled := true } }, 1)

/-- The 16-bit value a read through a `source_object` or `compare_object`
pointer yields in state `s`; `traplog_status_value` is the current value of
`traplog.status.value`. -/
def source_value (fc : FAULT_CONFIG) (traplog_status_value : Nat) (s : SYS) :
    SOURCE_OBJECT → Nat
  | SOURCE_OBJECT.traplog_status_value => traplog_status_value % 65536
  | SOURCE_OBJECT.cpu_load_load_max_buffer => s.task_mgr.cpu_load.load_max_buffer % 65536
  | SOURCE_OBJECT.task_queue_active_retval => s.task_mgr.task_queue.active_retval % 65536
  | SOURCE_OBJECT.os_timer_task_period_max => s.task_mgr.os_timer.task_period_max % 65536
  | SOURCE_OBJECT.task_mgr_status_value => fc.status_value s.task_mgr.status % 65536

/-- Modelled from the spec: the trip column of the comparison table of the
fault-object engine (section 4.3). The fault scan `exec_FaultCheckAll` is
only declared in `fdrv_FaultHandler.h`; its body, and with it the
comparison it performs, is not among the sources. `s` is the masked source
value. -/
def trip_condition (t : FLTOBJ_COMPARE_TYPE) (trip_level reset_level s : Nat) : Bool :=
  match t with
  | FLTOBJ_COMPARE_TYPE.FAULT_LEVEL_GREATER_THAN => decide (s > trip_level)
  | FLTOBJ_COMPARE_TYPE.FAULT_LEVEL_LESS_THAN => decide (s < trip_level)
  | FLTOBJ_COMPARE_TYPE.FAULT_LEVEL_EQUAL => decide (s = trip_level)
  | FLTOBJ_COMPARE_TYPE.FAULT_LEVEL_NOT_EQUAL => decide (s ≠ trip_level)
  | FLTOBJ_COMPARE_TYPE.FAULT_LEVEL_IN_RANGE => decide (reset_level ≤ s ∧ s ≤ trip_level)
  | FLTOBJ_COMPARE_TYPE.FAULT_LEVEL_OUT_OF_RANGE => decide (s < reset_level ∨ s > trip_level)
  | FLTOBJ_COMPARE_TYPE.FAULT_LEVEL_BOOLEAN => decide (s ≠ 0)
  | FLTOBJ_COMPARE_TYPE.FAULT_LEVEL_NONE => false

/-- Modelled from the spec: the reset column of the comparison table of the
fault-object engine (section 4.3); the evaluating function is not among the
sources. -/
def reset_condition (t : FLTOBJ_COMPARE_TYPE) (trip_level reset_level s : Nat) : Bool :=
  match t with
  | FLTOBJ_COMPARE_TYPE.FAULT_LEVEL_GREATER_THAN => decide (s ≤ reset_level)
  | FLTOBJ_COMPARE_TYPE.FAULT_LEVEL_LESS_THAN => decide (s ≥ reset_level)
  | FLTOBJ_COMPARE_TYPE.FAULT_LEVEL_EQUAL => decide (s ≠ reset_level)
  | FLTOBJ_COMPARE_TYPE.FAULT_LEVEL_NOT_EQUAL => decide (s = reset_level)
  | FLTOBJ_COMPARE_TYPE.FAULT_LEVEL_IN_RANGE => decide (¬ (reset_level ≤ s ∧ s ≤ trip_level))
  | FLTOBJ_COMPARE_TYPE.FAULT_LEVEL_OUT_OF_RANGE => decide (reset_level ≤ s ∧ s ≤ trip_level)
  | FLTOBJ_COMPARE_TYPE.FAULT_LEVEL_BOOLEAN => decide (s = 0)
  | FLTOBJ_COMPARE_TYPE.FAULT_LEVEL_NONE => false

/-- Modelled from the spec: the level a comparison uses (section 4.3): the
masked value read through `compare_object` when that pointer is set, the
constant level of the descriptor otherwise. -/
def compare_level (c : FAULT_CONDITION_SETTINGS) (read : SOURCE_OBJECT → Nat) (level : Nat) :
    Nat :=
  match c.compare_object with
  | some obj => read obj &&& c.compare_bit_mask
  | none => level

/-- Modelled from the spec: the trip condition of a fault object for the
values `read` yields (section 4.3, whose evaluating function is not among
the sources): the comparison of the masked source with the trip level;
false when the source pointer is NULL. -/
def object_trips (o : FAULT_OBJECT) (read : SOURCE_OBJECT → Nat) : Bool :=
  match o.criteria.source_object with
  | some src =>
    trip_condition o.criteria.compare_type (compare_level o.criteria read o.criteria.trip_level)
      (compare_level o.criteria read o.criteria.reset_level)
      (read src &&& o.criteria.source_bit_mask)
  | none => false

/-- Modelled from the spec: the reset condition of a fault object for the
values `read` yields (section 4.3, whose evaluating function is not among
the sources). -/
def object_resets (o : FAULT_OBJECT) (read : SOURCE_OBJECT → Nat) : Bool :=
  match o.criteria.source_object with
  | some src =>
    reset_condition o.criteria.compare_type (compare_level o.criteria read o.criteria.trip_level)
      (compare_level o.criteria read o.criteria.reset_level)
      (read src &&& o.criteria.source_bit_mask)
  | none => false

/-- A word view of the status bit field with `os_component_check` in bit 5
and the other five bits below it. -/
def status_word (st : TASK_MGR_STATUS) : Nat :=
  st.queue_switch.toNat + 2 * st.startup_sequence_complete.toNat
    + 4 * st.fault_override.toNat + 8 * st.rescue_timer_overrun.toNat
    + 16 * st.task_mgr_period_overrun.toNat + 32 * st.os_component_check.toNat

/-- A set of fault constants with five different identifiers, the status
word of `status_word` and the mask 32 for its bit `os_component_check`. -/
def fc0 : FAULT_CONFIG :=
  { FLTOBJ_CPU_FAILURE_ERROR := 1
    FLTOBJ_CPU_LOAD_OVERRUN := 2
    FLTOBJ_TASK_EXECUTION_FAILURE := 3
    FLTOBJ_TASK_TIME_QUOTA_VIOLATION := 4
    FLTOBJ_OS_COMPONENT_FAILURE := 5
    FAULT_OBJECT_CPU_RESET_TRIGGER_BIT_MASK := 1
    CPU_LOAD_WARNING := 100
    CPU_LOAD_NORMAL := 300
    EXEC_STAT_OS_COMP_CHECK := 32
    status_value := status_word }

/-- An environment like `env0` whose tasks return the status 2. -/
def env_returns_two : ENVIRONMENT :=
  { env0 with Task_Table := fun _ => some (fun s => TASK_RESULT.returned s 2) }

/-- An environment like `env0` whose application status capture fails
(returns 0). -/
def env_capture_fails : ENVIRONMENT :=
  { env0 with APPLICATION_CaptureSystemStatus := fun s => (s, 0) }

/-- Modelled from the spec: what one evaluation of a fault object ends in
(section 4.3): a trip edge, a reset edge or neither. -/
inductive FAULT_EDGE where
  | NONE
  | TRIP
  | RESET
  deriving DecidableEq, Repr

/-- Modelled from the spec: a fault object that is enabled but cannot be
evaluated (section 4.3, failure semantics): NULL source pointer or compare
type NONE. -/
def malformed (o : FAULT_OBJECT) : Bool :=
  o.criteria.source_object.isNone
    || decide (o.criteria.compare_type = FLTOBJ_COMPARE_TYPE.FAULT_LEVEL_NONE)

/-- Modelled from the spec: the evaluation of one fault object in a scan
(section 4.3; the body of `exec_FaultCheckAll` is not among the sources): a
disabled object is left alone, an enabled malformed one is skipped and
reported (third component false), any other goes through the hysteresis
with its two conditions. The hysteresis `filter` is a parameter: it maps the
object (with its counter and status) and the trip and the reset condition of
this evaluation to the object it leaves and to the edge the evaluation is.
Its counting rule is the subject of section 4.3 (one counter, incremented
and decremented) and of section 8 (property 3, S2, S3: successive
evaluations), which describe it differently, and no code for it is among
the sources. -/
def fault_check (filter : FAULT_OBJECT → Bool → Bool → FAULT_OBJECT × FAULT_EDGE)
    (o : FAULT_OBJECT) (read : SOURCE_OBJECT → Nat) : FAULT_OBJECT × FAULT_EDGE × Bool :=
  if o.status.fltchk_enabled then
    if malformed o then (o, FAULT_EDGE.NONE, false)
    else
      ((filter o (object_trips o read) (object_resets o read)).1,
        (filter o (object_trips o read) (object_resets o read)).2, true)
  else (o, FAULT_EDGE.NONE, true)

/-- A hysteresis for the examples, the one that both descriptions give for
an object with both thresholds 1: an evaluation with the trip condition sets
`fault_active` and `fault_status` and is a trip edge if `fault_status` was
clear; one with the reset condition clears both and is a reset edge if
`fault_status` was set; an evaluation with neither changes nothing. The
counter field is left as it is. -/
def filter_threshold_one (o : FAULT_OBJECT) (trip reset : Bool) : FAULT_OBJECT × FAULT_EDGE :=
  if trip then
    ({ o with status := { o.status with fault_active := true, fault_status := true } },
      if o.status.fault_status then FAULT_EDGE.NONE else FAULT_EDGE.TRIP)
  else if reset then
    ({ o with status := { o.status with fault_active := false, fault_status := false } },
      if o.status.fault_status then FAULT_EDGE.RESET else FAULT_EDGE.NONE)
  else (o, FAULT_EDGE.NONE)

/-- A fault object with the given comparison, levels and thresholds on the
source `os_timer.task_period_max`, all 16 bits, enabled, not tripped,
counter 0, class warning. -/
def fltobj_of (t : FLTOBJ_COMPARE_TYPE) (trip_level trip_cnt reset_level reset_cnt : Nat) :
    FAULT_OBJECT :=
  { id := 100
    error_code := 100
    criteria :=
      { source_object := some SOURCE_OBJECT.os_timer_task_period_max
        source_bit_mask := FLTOBJ_BIT_MASK_DEFAULT
        compare_object := none
        compare_bit_mask := FLTOBJ_BIT_MASK_DEFAULT
        compare_type := t
        trip_level := trip_level
        trip_cnt_threshold := trip_cnt
        reset_level := reset_level
        reset_cnt_threshold := reset_cnt
        counter := 0 }
    flt_class :=
      { flag := false, warning := true, critical := false, catastrophic := false,
        user_class := false }
    trip_function := none
    reset_function := none
    status :=
      { fltlvl_hw := false, fltlvl_sw := true, fltlvl_si := false, fltlvl_sys := false,
        fault_status := false, fault_active := false, fltchk_enabled := true } }

/-- Modelled from the spec: the two global flags the class effects set
(section 4.3; `GLOBAL_FAULT_FLAG_BIT` and `GLOBAL_WARNING_FLAG_BIT` in the
comments of `fdrv_FaultHandler.h`), whose declaration is not among the
sources: the notification flag and the warning flag. -/
structure GLOBAL_FLAGS where
  fault_flag : Bool
  warning_flag : Bool
  deriving DecidableEq, Repr

/-- Modelled from the spec: the running data of one fault scan (section
4.3; the body of `exec_FaultCheckAll` is not among the sources): the fault
objects evaluated so far, the cycle-wide bitmap of class bits, the user
functions called and whether every enabled object could be evaluated. -/
structure FAULT_SCAN where
  objects : List FAULT_OBJECT
  classes : FAULT_OBJECT_CLASS
  calls : List FAULT_FUNCTION
  ok : Bool

/-- The bitwise OR of two class words. -/
def class_or (a b : FAULT_OBJECT_CLASS) : FAULT_OBJECT_CLASS :=
  { flag := a.flag || b.flag
    warning := a.warning || b.warning
    critical := a.critical || b.critical
    catastrophic := a.catastrophic || b.catastrophic
    user_class := a.user_class || b.user_class }

/-- Modelled from the spec: the user function an edge of a fault object
calls (section 4.3; not among the sources): with `user_class` set, the trip
function on a trip edge and the reset function on a reset edge, if the
pointer is not NULL. -/
def edge_calls (o : FAULT_OBJECT) : FAULT_EDGE → List FAULT_FUNCTION
  | FAULT_EDGE.TRIP => if o.flt_class.user_class then o.trip_function.toList else []
  | FAULT_EDGE.RESET => if o.flt_class.user_class then o.reset_function.toList else []
  | FAULT_EDGE.NONE => []

/-- Modelled from the spec: one step of the fault scan (section 4.3; not
among the sources): evaluate the next fault object and, upon a trip edge,
OR its class bits into the cycle-wide bitmap. -/
def scan_object (filter : FAULT_OBJECT → Bool → Bool → FAULT_OBJECT × FAULT_EDGE)
    (read : SOURCE_OBJECT → Nat) (acc : FAULT_SCAN) (o : FAULT_OBJECT) : FAULT_SCAN :=
  { objects := acc.objects ++ [(fault_check filter o read).1]
    classes :=
      if (fault_check filter o read).2.1 = FAULT_EDGE.TRIP then
        class_or acc.classes o.flt_class
      else acc.classes
    calls := acc.calls ++ edge_calls o (fault_check filter o read).2.1
    ok := acc.ok && (fault_check filter o read).2.2 }

/-- Modelled from the spec: the walk of the fault scan over the two lists
(section 4.3; not among the sources), the list of the operating system
first, then the user list. -/
def scan_all (filter : FAULT_OBJECT → Bool → Bool → FAULT_OBJECT × FAULT_EDGE)
    (read : SOURCE_OBJECT → Nat) (os_list user_list : List FAULT_OBJECT) : FAULT_SCAN :=
  (os_list ++ user_list).foldl (scan_object filter read)
    { objects := []
      classes :=
        { flag := false, warning := false, critical := false, catastrophic := false,
          user_class := false }
      calls := []
      ok := true }

/-- Modelled from the spec: the reduction of the cycle-wide bitmap to a
single action (section 4.3; not among the sources): catastrophic clears
`run_scheduler`, else critical requests the mode FAULT, else warning sets the
global warning flag, else flag sets the global notification flag. -/
def class_action (c : FAULT_OBJECT_CLASS) (s : SYS) (g : GLOBAL_FLAGS) : SYS × GLOBAL_FLAGS :=
  if c.catastrophic then ({ s with run_scheduler := false }, g)
  else if c.critical then (set_op_mode s OP_MODE.FAULT, g)
  else if c.warning then (s, { g with warning_flag := true })
  else if c.flag then (s, { g with fault_flag := true })
  else (s, g)

/-- What a fault scan leaves: the state, the return value, the fault
objects of both lists, the global flags and the user functions called. -/
structure FAULT_SCAN_RESULT where
  sys : SYS
  ret : Nat
  objects : List FAULT_OBJECT
  flags : GLOBAL_FLAGS
  calls : List FAULT_FUNCTION

/-- Modelled from the spec: the function `exec_FaultCheckAll` (section 4.3,
`scan_all()`), of which `fdrv_FaultHandler.h` has the declaration only: read
the sources in state `s`, evaluate the fault objects of the two lists in
order, reduce the class bits of the objects that tripped to one action and
apply it; return non-success if an enabled object was malformed. The
hysteresis `filter` of the evaluations is a parameter (see `fault_check`).
The retraction of class effects on a reset edge and the effect of the user
functions on the state are not modelled. -/
def exec_FaultCheckAll (filter : FAULT_OBJECT → Bool → Bool → FAULT_OBJECT × FAULT_EDGE)
    (fc : FAULT_CONFIG) (traplog_status_value : Nat)
    (os_list user_list : List FAULT_OBJECT) (g : GLOBAL_FLAGS) (s : SYS) : FAULT_SCAN_RESULT :=
  { sys := (class_action
      (scan_all filter (source_value fc traplog_status_value s) os_list
        user_list).classes s g).1
    ret :=
      if (scan_all filter (source_value fc traplog_status_value s) os_list user_list).ok then 1
      else 0
    objects :=
      (scan_all filter (source_value fc traplog_status_value s) os_list user_list).objects
    flags := (class_action
      (scan_all filter (source_value fc traplog_status_value s) os_list
        user_list).classes s g).2
    calls :=
      (scan_all filter (source_value fc traplog_status_value s) os_list user_list).calls }

/-- The fault object `fltobj_of` makes, with another class word and both
thresholds 1: EQUAL with trip level 1. -/
def fltobj_class (c : FAULT_OBJECT_CLASS) : FAULT_OBJECT :=
  { fltobj_of FLTOBJ_COMPARE_TYPE.FAULT_LEVEL_EQUAL 1 1 1 1 with flt_class := c }

/-- Both global flags cleared. -/
def flags0 : GLOBAL_FLAGS :=
  { fault_flag := false, warning_flag := false }

/-- The initialised state of `cfg0` with `os_timer.task_period_max = 1`, the
value at which the objects of `fltobj_class` trip. -/
def sys_period_one : SYS :=
  { os_TaskManager_Initialize cfg0 sys0 with
    task_mgr := { (os_TaskManager_Initialize cfg0 sys0).task_mgr with
      os_timer := { (os_TaskManager_Initialize cfg0 sys0).task_mgr.os_timer with
        task_period_max := 1 } } }

/-- The class word `FLT_CLASS_NONE` of `FAULT_OBJECT_CLASS_e`. -/
def FLT_CLASS_NONE : FAULT_OBJECT_CLASS :=
  { flag := false, warning := false, critical := false, catastrophic := false,
    user_class := false }

/-- The class word `FLT_CLASS_FLAG`. -/
def FLT_CLASS_FLAG : FAULT_OBJECT_CLASS :=
  { FLT_CLASS_NONE with flag := true }

/-- The class word `FLT_CLASS_WARNING`. -/
def FLT_CLASS_WARNING : FAULT_OBJECT_CLASS :=
  { FLT_CLASS_NONE with warning := true }

/-- The class word `FLT_CLASS_CRITICAL`. -/
def FLT_CLASS_CRITICAL : FAULT_OBJECT_CLASS :=
  { FLT_CLASS_NONE with critical := true }

/-- The class word `FLT_CLASS_CATASTROPHIC`. -/
def FLT_CLASS_CATASTROPHIC : FAULT_OBJECT_CLASS :=
  { FLT_CLASS_NONE with catastrophic := true }

/-- Some fault object of the list `l` has a trip edge in a scan with the
hysteresis `filter` and the values `read`, and its class word has the bit
`p`. -/
def trips_with (filter : FAULT_OBJECT → Bool → Bool → FAULT_OBJECT × FAULT_EDGE)
    (read : SOURCE_OBJECT → Nat) (l : List FAULT_OBJECT)
    (p : FAULT_OBJECT_CLASS → Bool) : Prop :=
  ∃ o ∈ l, (fault_check filter o read).2.1 = FAULT_EDGE.TRIP ∧ p o.flt_class = true

/-! ## The remaining fault-object initializers -/

/-- The function `CPUFailureObject_Initialize`: the object `fltobj_CPUFailure`
it leaves and its return value. -/
def CPUFailureObject_Initialize (fc : FAULT_CONFIG) : FAULT_OBJECT × Nat :=
  ({ id := fc.FLTOBJ_CPU_FAILURE_ERROR % 65536
     error_code := fc.FLTOBJ_CPU_FAILURE_ERROR % 4294967296
     criteria :=
       { source_object := some SOURCE_OBJECT.traplog_status_value
         source_bit_mask := fc.FAULT_OBJECT_CPU_RESET_TRIGGER_BIT_MASK % 65536
         compare_object := none
         compare_bit_mask := fc.FAULT_OBJECT_CPU_RESET_TRIGGER_BIT_MASK % 65536
         compare_type := FLTOBJ_COMPARE_TYPE.FAULT_LEVEL_EQUAL
         trip_level := 1
         trip_cnt_threshold := 1
         reset_level := 1
         reset_cnt_threshold := 1
         counter := 0 }
     flt_class :=
       { flag := false, warning := false, critical := false, catastrophic := true,
         user_class := true }
     trip_function := some FAULT_FUNCTION.APPLICATION_Reset
     reset_function := none
     status :=
       { fltlvl_hw := false, fltlvl_sw := true, fltlvl_si := true, fltlvl_sys := false,
         fault_status := true, fault_active := true, fltchk_enabled := true } }, 1)

/-- The function `CPULoadOverrunFaultObject_Initialize`: the object
`fltobj_CPULoadOverrun` it leaves and its return value. -/
def CPULoadOverrunFaultObject_Initialize (fc : FAULT_CONFIG) : FAULT_OBJECT × Nat :=
  ({ id := fc.FLTOBJ_CPU_LOAD_OVERRUN % 65536
     error_code := fc.FLTOBJ_CPU_LOAD_OVERRUN % 4294967296
     criteria :=
       { source_object := some SOURCE_OBJECT.cpu_load_load_max_buffer
         source_bit_mask := FLTOBJ_BIT_MASK_DEFAULT
         compare_object := none
         compare_bit_mask := FLTOBJ_BIT_MASK_DEFAULT
         compare_type := FLTOBJ_COMPARE_TYPE.FAULT_LEVEL_LESS_THAN
         trip_level := fc.CPU_LOAD_WARNING % 65536
         trip_cnt_threshold := 1
         reset_level := fc.CPU_LOAD_NORMAL % 65536
         reset_cnt_threshold := 1
         counter := 0 }
     flt_class :=
       { flag := false, warning := true, critical := false, catastrophic := false,
         user_class := false }
     trip_function := none
     reset_function := none
     status :=
       { fltlvl_hw := false, fltlvl_sw := true, fltlvl_si := true, fltlvl_sys := false,
         fault_status := true, fault_active := true, fltchk_enabled := true } }, 1)

/-- The function `TaskTimeQuotaViolationFaultObject_Initialize`, called in
state `s`: the object `fltobj_TaskTimeQuotaViolation` it leaves and its
return value. `scaled_period` is the value of the floating-point expression
`0.9 * (float)task_mgr.os_timer.master_period` converted to an integer, which
depends on the floating-point arithmetic of the target; it is stored in the
16-bit field `reset_level`. -/
def TaskTimeQuotaViolationFaultObject_Initialize (fc : FAULT_CONFIG) (scaled_period : Nat)
    (s : SYS) : FAULT_OBJECT × Nat :=
  ({ id := fc.FLTOBJ_TASK_TIME_QUOTA_VIOLATION % 65536
     error_code := fc.FLTOBJ_TASK_TIME_QUOTA_VIOLATION % 4294967296
     criteria :=
       { source_object := some SOURCE_OBJECT.os_timer_task_period_max
         source_bit_mask := FLTOBJ_BIT_MASK_DEFAULT
         compare_object := none
         compare_bit_mask := FLTOBJ_BIT_MASK_DEFAULT
         compare_type := FLTOBJ_COMPARE_TYPE.FAULT_LEVEL_GREATER_THAN
         trip_level := s.task_mgr.os_timer.master_period % 65536
         trip_cnt_threshold := 1
         reset_level := scaled_period % 65536
         reset_cnt_threshold := 10
         counter := 0 }
     flt_class :=
       { flag := false, warning := true, critical := false, catastrophic := false,
         user_class := false }
     trip_function := none
     reset_function := none
     status :=
       { fltlvl_hw := false, fltlvl_sw := true, fltlvl_si := false, fltlvl_sys := false,
         fault_status := true, fault_active := true, fltchk_enabled := true } }, 1)

/-- The function `MyFaultObject_Initialize` of `UserFaultObjects.c`: the
object `fltobj_MyFaultObject` it leaves and its return value. -/
def MyFaultObject_Initialize (fc : FAULT_CONFIG) : FAULT_OBJECT × Nat :=
  ({ id := fc.FLTOBJ_CPU_FAILURE_ERROR % 65536
     error_code := fc.FLTOBJ_CPU_FAILURE_ERROR % 4294967296
     criteria :=
       { source_object := some SOURCE_OBJECT.traplog_status_value
         source_bit_mask := fc.FAULT_OBJECT_CPU_RESET_TRIGGER_BIT_MASK % 65536
         compare_object := none
         compare_bit_mask := fc.FAULT_OBJECT_CPU_RESET_TRIGGER_BIT_MASK % 65536
         compare_type := FLTOBJ_COMPARE_TYPE.FAULT_LEVEL_EQUAL
         trip_level := 1
         trip_cnt_threshold := 1
         reset_level := 1
         reset_cnt_threshold := 1
         counter := 0 }
     flt_class :=
       { flag := true, warning := false, critical := false, catastrophic := false,
         user_class := true }
     trip_function := none
     reset_function := none
     status :=
       { fltlvl_hw := false, fltlvl_sw := true, fltlvl_si := true, fltlvl_sys := false,
         fault_status := true, fault_active := true, fltchk_enabled := true } }, 1)

/-- The array `os_fault_object_init_functions[]`, each function called in
state `s`: what the five initializers leave and return, in the order of the
array. -/
def os_fault_object_init_functions (fc : FAULT_CONFIG) (scaled_period : Nat) (s : SYS) :
    List (FAULT_OBJECT × Nat) :=
  [CPUFailureObject_Initialize fc,
   CPULoadOverrunFaultObject_Initialize fc,
   TaskExecutionFaultObject_Initialize fc,
   TaskTimeQuotaViolationFaultObject_Initialize fc scaled_period s,
   OSComponentFailureFaultObject_Initialize fc]

/-- The array `user_fault_object_init_functions[]`: what its one initializer
leaves and returns. -/
def user_fault_object_init_functions (fc : FAULT_CONFIG) : List (FAULT_OBJECT × Nat) :=
  [MyFaultObject_Initialize fc]

/-- The objects `os_fault_object_list[]` points to, in the order of the
array, after all initializers have run in state `s`. -/
def os_fault_object_list (fc : FAULT_CONFIG) (scaled_period : Nat) (s : SYS) :
    List FAULT_OBJECT :=
  [(CPUFailureObject_Initialize fc).1,
   (CPULoadOverrunFaultObject_Initialize fc).1,
   (TaskExecutionFaultObject_Initialize fc).1,
   (TaskTimeQuotaViolationFaultObject_Initialize fc scaled_period s).1,
   (OSComponentFailureFaultObject_Initialize fc).1]

/-- The object `user_fault_object_list[]` points to, after its initializer
has run. -/
def user_fault_object_list (fc : FAULT_CONFIG) : List FAULT_OBJECT :=
  [(MyFaultObject_Initialize fc).1]

/-- The return value of `os_TaskManager_Initialize`: the local `fres`, set to
1 in line 372 and not written again before `return (fres)`. -/
def os_TaskManager_Initialize_fres : Nat := 1

/-- The ordering of the timing fields for the first `n` entries of the task
table: `tasks[i].task_period <= tasks[i].task_period_max <=
task_mgr.os_timer.task_period_max`. -/
def timing_ordered (n : Nat) (s : SYS) : Prop :=
  ∀ i : Nat, i < n →
    (s.tasks i).task_period ≤ (s.tasks i).task_period_max ∧
    (s.tasks i).task_period_max ≤ s.task_mgr.os_timer.task_period_max

/-- The task entries and the switch-over functions of `env` preserve the
ordering of the timing fields (they are code outside the core). -/
def keeps_timing_ordered (n : Nat) (env : ENVIRONMENT) : Prop :=
  (∀ (id : Nat) (entry : SYS → TASK_RESULT) (s : SYS), env.Task_Table id = some entry →
    timing_ordered n s → timing_ordered n (entry s).sys) ∧
  (∀ (f : SWITCH_OVER_FUNCTION) (s : SYS),
    timing_ordered n s → timing_ordered n (env.switch_over f s))

/-- From state `a` to state `b` the global maximum
`task_mgr.os_timer.task_period_max` has not decreased, and it is a 16-bit
value in `b` if it is one in `a`. -/
def period_max_grows (a b : SYS) : Prop :=
  a.task_mgr.os_timer.task_period_max ≤ b.task_mgr.os_timer.task_period_max ∧
  (a.task_mgr.os_timer.task_period_max < 65536 → b.task_mgr.os_timer.task_period_max < 65536)

/-- The code outside the core that runs in a cycle of `env` (task entries,
switch-over functions, status capture, fault scan) does not decrease
`task_mgr.os_timer.task_period_max` and keeps it a 16-bit value. -/
def keeps_period_max (env : ENVIRONMENT) : Prop :=
  (∀ (id : Nat) (entry : SYS → TASK_RESULT) (s : SYS), env.Task_Table id = some entry →
    period_max_grows s (entry s).sys) ∧
  (∀ (f : SWITCH_OVER_FUNCTION) (s : SYS), period_max_grows s (env.switch_over f s)) ∧
  (∀ s : SYS, period_max_grows s (env.APPLICATION_CaptureSystemStatus s).1) ∧
  (∀ s : SYS, period_max_grows s (env.exec_FaultCheckAll s).1)

/-- The state after the first dispatch of `cfg0` with the overrun of
`env_overrun`: the recorded task time, and with it
`os_timer.task_period_max`, is 13750, above the master period 7000. -/
def sys_quota_exceeded : SYS :=
  (os_ProcessTaskQueue cfg0 env_overrun (os_TaskManager_Initialize cfg0 sys0)).sys

/-- Lines 44-73 of `OS_Execute`: the accumulator `fres` starts at 1 and is
ANDed with the 16-bit return value of every initialization step the compile
switches enable (`CheckCPUResetRootCause`, `DEVICE_Reset`,
`ExecuteUserStartupCode`, `CLOCK_Initialize`, `DEVICE_Initialize`,
`OS_Initialize`); `rets` lists these return values in the order of the
calls. The result is the value of `fres` when the main loop is entered. -/
def OS_Execute_init (rets : List Nat) : Nat :=
  rets.foldl (fun fres r => fres &&& (r % 65536)) 1

/-- An environment like `env0` whose fault scan fails (returns 0). -/
def env_scan_fails : ENVIRONMENT :=
  { env0 with exec_FaultCheckAll := fun s => (s, 0) }

/-- From state `a` to state `b` none of the status bits
`rescue_timer_overrun`, `fault_override`, `startup_sequence_complete` has
been cleared: each of them that is set in `a` is set in `b`. -/
def sticky_kept (a b : SYS) : Prop :=
  (a.task_mgr.status.rescue_timer_overrun = true →
    b.task_mgr.status.rescue_timer_overrun = true) ∧
  (a.task_mgr.status.fault_override = true → b.task_mgr.status.fault_override = true) ∧
  (a.task_mgr.status.startup_sequence_complete = true →
    b.task_mgr.status.startup_sequence_complete = true)

/-- The code outside the core that runs in a cycle of `env` (task entries,
switch-over functions, status capture, fault scan) clears none of the three
status bits of `sticky_kept`. -/
def keeps_sticky (env : ENVIRONMENT) : Prop :=
  (∀ (id : Nat) (entry : SYS → TASK_RESULT) (s : SYS), env.Task_Table id = some entry →
    sticky_kept s (entry s).sys) ∧
  (∀ (f : SWITCH_OVER_FUNCTION) (s : SYS), sticky_kept s (env.switch_over f s)) ∧
  (∀ s : SYS, sticky_kept s (env.APPLICATION_CaptureSystemStatus s).1) ∧
  (∀ s : SYS, sticky_kept s (env.exec_FaultCheckAll s).1)

/-- The state of `cfg0` after the four mode checks of the start-up (mode
IDLE, `startup_sequence_complete` set), a request for FAULT and the mode
check that switches to the fault queue (`fault_override` set). -/
def sys_fault_mode : SYS :=
  (os_CheckOperationModeStatus cfg0 env0
    (set_op_mode (mode_checks cfg0 [env0, env0, env0, env0]
      (os_TaskManager_Initialize cfg0 sys0)) OP_MODE.FAULT)).sys

/-- The dispatch of state `s` obtains no return value from the task: the
task picked is disabled, or its entry in `Task_Table` is NULL, or the entry
is called and ended by the rescue interrupt. -/
def no_return_value (cfg : CONFIG) (env : ENVIRONMENT) (s : SYS) : Prop :=
  ((os_ProcessTaskQueue_arm cfg s).tasks
      (os_ProcessTaskQueue_arm cfg s).task_mgr.task_queue.active_task_id).enabled = false ∨
  env.Task_Table (os_ProcessTaskQueue_arm cfg s).task_mgr.task_queue.active_task_id = none ∨
  (((os_ProcessTaskQueue_arm cfg s).tasks
      (os_ProcessTaskQueue_arm cfg s).task_mgr.task_queue.active_task_id).enabled = true ∧
    ∃ (entry : SYS → TASK_RESULT) (s1 : SYS),
      env.Task_Table (os_ProcessTaskQueue_arm cfg s).task_mgr.task_queue.active_task_id
        = some entry ∧
      entry (os_ProcessTaskQueue_arm cfg s) = TASK_RESULT.timed_out s1)

/-! ## Queue index -/

theorem OS_Execute_advance_index (cfg : CONFIG) (env : ENVIRONMENT) (fres : Nat) (s : SYS) :
    index_in_bounds (OS_Execute_advance cfg env fres s).sys := by
  unfold OS_Execute_advance index_in_bounds
  split
  · simp
  · rename_i h
    simp only [not_or, not_lt] at h
    exact h.1

theorem OS_Execute_cycle_index (cfg : CONFIG) (env : ENVIRONMENT) (fres : Nat) (s : SYS) :
    index_in_bounds (OS_Execute_cycle cfg env fres s).sys := by
  unfold OS_Execute_cycle OS_Execute_tail
  exact OS_Execute_advance_index cfg env _ _

theorem OS_Execute_loop_index (cfg : CONFIG) (envs : List ENVIRONMENT) :
    ∀ (fres : Nat) (s : SYS), index_in_bounds s →
      index_in_bounds (OS_Execute_loop cfg envs fres s).sys := by
  induction envs with
  | nil => intro fres s h; simpa [OS_Execute_loop] using h
  | cons env envs ih =>
    intro fres s h
    unfold OS_Execute_loop
    split
    · exact ih _ _ (OS_Execute_cycle_index cfg env fres s)
    · exact h

/-- C1. Queue-index invariant: `os_TaskManager_Initialize` establishes
`active_index <= ubound`; the queue-advance step of the scheduler maps every
state with `active_index <= ubound` to a state with `active_index <= ubound`
(the bound being that of the queue active afterwards); hence the state after
a full scheduler cycle, and after any number of cycles started from the
initialised state, satisfies `active_index <= ubound`. -/
theorem queue_index_invariant (cfg : CONFIG) :
    (∀ s : SYS, index_in_bounds (os_TaskManager_Initialize cfg s)) ∧
    (∀ (env : ENVIRONMENT) (fres : Nat) (s : SYS), index_in_bounds s →
      index_in_bounds (OS_Execute_advance cfg env fres s).sys) ∧
    (∀ (env : ENVIRONMENT) (fres : Nat) (s : SYS), index_in_bounds s →
      index_in_bounds (OS_Execute_cycle cfg env fres s).sys) ∧
    (∀ (envs : List ENVIRONMENT) (fres : Nat) (s : SYS),
      index_in_bounds (OS_Execute_loop cfg envs fres (os_TaskManager_Initialize cfg s)).sys) := by
  have hinit : ∀ s : SYS, index_in_bounds (os_TaskManager_Initialize cfg s) := by
    intro s
    simp [index_in_bounds, os_TaskManager_Initialize]
  refine ⟨hinit, ?_, ?_, ?_⟩
  · intro env fres s _
    exact OS_Execute_advance_index cfg env fres s
  · intro env fres s _
    exact OS_Execute_cycle_index cfg env fres s
  · intro envs fres s
    exact OS_Execute_loop_index cfg envs fres _ (hinit s)

/-- The queue-index invariant at a concrete state: the initialised state of
`cfg0` satisfies the hypothesis, and so do its successors. -/
theorem queue_index_invariant_witness :
    index_in_bounds (os_TaskManager_Initialize cfg0 sys0) ∧
    index_in_bounds
      (OS_Execute_advance cfg0 env0 1 (os_TaskManager_Initialize cfg0 sys0)).sys ∧
    index_in_bounds
      (OS_Execute_cycle cfg0 env0 1 (os_TaskManager_Initialize cfg0 sys0)).sys :=
  have h := (queue_index_invariant cfg0).1 sys0
  ⟨h, (queue_index_invariant cfg0).2.1 env0 1 _ h, (queue_index_invariant cfg0).2.2.1 env0 1 _ h⟩

/-! ## Operating-mode automaton -/

theorem check_task_mgr_of_switch (cfg : CONFIG) (env : ENVIRONMENT) (s : SYS)
    (h : (os_CheckOperationModeStatus_startup s).task_mgr.pre_op_mode
      ≠ (os_CheckOperationModeStatus_startup s).task_mgr.op_mode) :
    os_CheckOperationModeStatus cfg env s =
      os_CheckOperationModeStatus_finish env
        (os_CheckOperationModeStatus_clear
          (os_CheckOperationModeStatus_switch cfg (os_CheckOperationModeStatus_startup s))) := by
  unfold os_CheckOperationModeStatus
  simp only [h, ne_eq, not_false_eq_true, if_true]

theorem check_from_unknown (cfg : CONFIG) (env : ENVIRONMENT) (s : SYS)
    (h : s.task_mgr.op_mode = OP_MODE.UNKNOWN) :
    (os_CheckOperationModeStatus cfg env s).sys.task_mgr.op_mode = OP_MODE.BOOT ∧
    (os_CheckOperationModeStatus cfg env s).sys.task_mgr.pre_op_mode = OP_MODE.BOOT := by
  by_cases hp : s.task_mgr.pre_op_mode = OP_MODE.BOOT
  · simp [os_CheckOperationModeStatus, os_CheckOperationModeStatus_startup, set_op_mode, h, hp]
  · simp [os_CheckOperationModeStatus, os_CheckOperationModeStatus_startup, set_op_mode, h, hp,
      os_CheckOperationModeStatus_switch, load_queue, os_CheckOperationModeStatus_clear,
      os_CheckOperationModeStatus_finish]

theorem check_from_boot (cfg : CONFIG) (env : ENVIRONMENT) (s : SYS)
    (h : s.task_mgr.op_mode = OP_MODE.BOOT) (hp : s.task_mgr.pre_op_mode = OP_MODE.BOOT) :
    (os_CheckOperationModeStatus cfg env s).sys.task_mgr.op_mode = OP_MODE.FIRMWARE_INIT ∧
    (os_CheckOperationModeStatus cfg env s).sys.task_mgr.pre_op_mode
      = OP_MODE.FIRMWARE_INIT := by
  simp [os_CheckOperationModeStatus, os_CheckOperationModeStatus_startup, set_op_mode, h, hp,
    os_CheckOperationModeStatus_switch, load_queue, os_CheckOperationModeStatus_clear,
    os_CheckOperationModeStatus_finish]

theorem check_from_firmware_init (cfg : CONFIG) (env : ENVIRONMENT) (s : SYS)
    (h : s.task_mgr.op_mode = OP_MODE.FIRMWARE_INIT)
    (hp : s.task_mgr.pre_op_mode = OP_MODE.FIRMWARE_INIT) :
    (os_CheckOperationModeStatus cfg env s).sys.task_mgr.op_mode = OP_MODE.STARTUP_SEQUENCE ∧
    (os_CheckOperationModeStatus cfg env s).sys.task_mgr.pre_op_mode
      = OP_MODE.STARTUP_SEQUENCE := by
  simp [os_CheckOperationModeStatus, os_CheckOperationModeStatus_startup, set_op_mode, h, hp,
    os_CheckOperationModeStatus_switch, load_queue, os_CheckOperationModeStatus_clear,
    os_CheckOperationModeStatus_finish]

theorem check_from_startup_sequence (cfg : CONFIG) (env : ENVIRONMENT) (s : SYS)
    (h : s.task_mgr.op_mode = OP_MODE.STARTUP_SEQUENCE)
    (hp : s.task_mgr.pre_op_mode = OP_MODE.STARTUP_SEQUENCE)
    (hk : hooks_keep_mode env) :
    (os_CheckOperationModeStatus cfg env s).sys.task_mgr.op_mode = OP_MODE.IDLE ∧
    (os_CheckOperationModeStatus cfg env s).sys.task_mgr.pre_op_mode = OP_MODE.IDLE ∧
    (os_CheckOperationModeStatus cfg env s).sys.task_mgr.status.startup_sequence_complete
      = true := by
  simp [os_CheckOperationModeStatus, os_CheckOperationModeStatus_startup, set_op_mode, h, hp,
    os_CheckOperationModeStatus_switch, load_queue, os_CheckOperationModeStatus_clear,
    os_CheckOperationModeStatus_finish, (hk _ _).1, (hk _ _).2]

/-- C2. Mode automaton: from every state whose `op_mode` is UNKNOWN (whatever
`pre_op_mode` is), four consecutive calls of `os_CheckOperationModeStatus`,
with switch-over functions that do not write the mode word or the
`startup_sequence_complete` bit and no other writer in between, end with
`op_mode = IDLE` and `startup_sequence_complete = true`. -/
theorem mode_automaton_reaches_idle (cfg : CONFIG) (e1 e2 e3 e4 : ENVIRONMENT) (s : SYS)
    (h : s.task_mgr.op_mode = OP_MODE.UNKNOWN) (hk : hooks_keep_mode e4) :
    (os_CheckOperationModeStatus cfg e4
      (os_CheckOperationModeStatus cfg e3
        (os_CheckOperationModeStatus cfg e2
          (os_CheckOperationModeStatus cfg e1 s).sys).sys).sys).sys.task_mgr.op_mode
      = OP_MODE.IDLE ∧
    (os_CheckOperationModeStatus cfg e4
      (os_CheckOperationModeStatus cfg e3
        (os_CheckOperationModeStatus cfg e2
          (os_CheckOperationModeStatus cfg e1 s).sys).sys).sys).sys.task_mgr.status.startup_sequence_complete
      = true := by
  have h1 := check_from_unknown cfg e1 s h
  have h2 := check_from_boot cfg e2 _ h1.1 h1.2
  have h3 := check_from_firmware_init cfg e3 _ h2.1 h2.2
  have h4 := check_from_startup_sequence cfg e4 _ h3.1 h3.2 hk
  exact ⟨h4.1, h4.2.2⟩

theorem hooks_keep_mode_env0 : hooks_keep_mode env0 := by
  intro f s
  exact ⟨rfl, rfl⟩

/-- The mode automaton started in the all-zero state `sys0`. -/
theorem mode_automaton_reaches_idle_witness :
    sys0.task_mgr.op_mode = OP_MODE.UNKNOWN ∧ hooks_keep_mode env0 ∧
    (os_CheckOperationModeStatus cfg0 env0
      (os_CheckOperationModeStatus cfg0 env0
        (os_CheckOperationModeStatus cfg0 env0
          (os_CheckOperationModeStatus cfg0 env0 sys0).sys).sys).sys).sys.task_mgr.op_mode
      = OP_MODE.IDLE :=
  ⟨rfl, hooks_keep_mode_env0,
    (mode_automaton_reaches_idle cfg0 env0 env0 env0 env0 sys0 rfl hooks_keep_mode_env0).1⟩

/-! ## Queue swap -/

theorem finish_task_mgr (env : ENVIRONMENT) (s : SYS) (hk : hooks_keep_queue env) :
    (os_CheckOperationModeStatus_finish env s).sys.task_mgr.op_mode = s.task_mgr.op_mode ∧
    (os_CheckOperationModeStatus_finish env s).sys.task_mgr.pre_op_mode = s.task_mgr.op_mode ∧
    (os_CheckOperationModeStatus_finish env s).sys.task_mgr.task_queue = s.task_mgr.task_queue ∧
    (os_CheckOperationModeStatus_finish env s).sys.task_mgr.status.queue_switch = true := by
  unfold os_CheckOperationModeStatus_finish
  cases s.task_mgr.op_mode_switch_over_function with
  | none => simp
  | some f => simp [(hk f s).1, (hk f s).2]

theorem switch_named (cfg : CONFIG) (s : SYS) (M : OP_MODE) (hM : named_mode M)
    (hop : s.task_mgr.op_mode = M) :
    (os_CheckOperationModeStatus_switch cfg s).task_mgr.op_mode = M ∧
    (os_CheckOperationModeStatus_switch cfg s).task_mgr.task_queue.active_queue
      = queue_of_mode cfg M ∧
    (os_CheckOperationModeStatus_switch cfg s).task_mgr.task_queue.size = size_of_mode cfg M ∧
    (os_CheckOperationModeStatus_switch cfg s).task_mgr.task_queue.ubound
      = (size_of_mode cfg M + 65535) % 65536 ∧
    (os_CheckOperationModeStatus_switch cfg s).task_mgr.task_queue.active_index = 0 ∧
    (os_CheckOperationModeStatus_switch cfg s).task_mgr.task_queue.active_task_id
      = queue_of_mode cfg M 0 := by
  rcases hM with h | h | h | h | h | h | h <;> subst h <;>
    simp [os_CheckOperationModeStatus_switch, hop, load_queue, queue_of_mode, size_of_mode]

/-- C3. Queue swap on transition: for each of the seven named modes `M`, when
`os_CheckOperationModeStatus` finds, after the start-up progressions,
`op_mode = M` different from `pre_op_mode`, then (the switch-over function
not writing the mode word or the queue selection) it returns with
`active_queue` and `size` those of the queue of `M`, `ubound = size - 1` (in
16-bit arithmetic, which is `size - 1` for every size from 1 to 65535),
`active_index = 0`, `pre_op_mode = op_mode = M` and `queue_switch = true`. -/
theorem queue_swap_on_transition (cfg : CONFIG) (env : ENVIRONMENT) (s : SYS) (M : OP_MODE)
    (hM : named_mode M)
    (hop : (os_CheckOperationModeStatus_startup s).task_mgr.op_mode = M)
    (hne : (os_CheckOperationModeStatus_startup s).task_mgr.pre_op_mode ≠ M)
    (hk : hooks_keep_queue env) :
    (os_CheckOperationModeStatus cfg env s).sys.task_mgr.task_queue.active_queue
      = queue_of_mode cfg M ∧
    (os_CheckOperationModeStatus cfg env s).sys.task_mgr.task_queue.size
      = size_of_mode cfg M ∧
    (os_CheckOperationModeStatus cfg env s).sys.task_mgr.task_queue.ubound
      = (size_of_mode cfg M + 65535) % 65536 ∧
    (0 < size_of_mode cfg M → size_of_mode cfg M < 65536 →
      (os_CheckOperationModeStatus cfg env s).sys.task_mgr.task_queue.ubound
        = size_of_mode cfg M - 1) ∧
    (os_CheckOperationModeStatus cfg env s).sys.task_mgr.task_queue.active_index = 0 ∧
    (os_CheckOperationModeStatus cfg env s).sys.task_mgr.pre_op_mode = M ∧
    (os_CheckOperationModeStatus cfg env s).sys.task_mgr.op_mode = M ∧
    (os_CheckOperationModeStatus cfg env s).sys.task_mgr.status.queue_switch = true := by
  have hne2 : (os_CheckOperationModeStatus_startup s).task_mgr.pre_op_mode
      ≠ (os_CheckOperationModeStatus_startup s).task_mgr.op_mode := by
    rw [hop]; exact hne
  rw [check_task_mgr_of_switch cfg env s hne2]
  obtain ⟨f1, f2, f3, f4⟩ := finish_task_mgr env
    (os_CheckOperationModeStatus_clear
      (os_CheckOperationModeStatus_switch cfg (os_CheckOperationModeStatus_startup s))) hk
  obtain ⟨w1, w2, w3, w4, w5, _⟩ := switch_named cfg _ M hM hop
  have hc : (os_CheckOperationModeStatus_clear
      (os_CheckOperationModeStatus_switch cfg (os_CheckOperationModeStatus_startup s))).task_mgr
      = (os_CheckOperationModeStatus_switch cfg (os_CheckOperationModeStatus_startup s)).task_mgr :=
    rfl
  rw [hc] at f1 f2 f3
  rw [f1, f2, f3, f4, w1, w2, w3, w4, w5]
  refine ⟨rfl, rfl, rfl, ?_, rfl, rfl, rfl, rfl⟩
  intro h0 h1
  omega

theorem hooks_keep_queue_env0 : hooks_keep_queue env0 := by
  intro f s
  exact ⟨rfl, rfl⟩

/-- The queue swap at a concrete request: RUN requested while in BOOT. -/
theorem queue_swap_on_transition_witness :
    (os_CheckOperationModeStatus cfg0 env0 sys_run_request).sys.task_mgr.task_queue.size = 5 ∧
    (os_CheckOperationModeStatus cfg0 env0 sys_run_request).sys.task_mgr.task_queue.ubound = 4 ∧
    (os_CheckOperationModeStatus cfg0 env0 sys_run_request).sys.task_mgr.pre_op_mode
      = OP_MODE.RUN :=
  have h := queue_swap_on_transition cfg0 env0 sys_run_request OP_MODE.RUN
    (Or.inr (Or.inr (Or.inr (Or.inr (Or.inl rfl))))) rfl (by decide) hooks_keep_queue_env0
  ⟨h.2.1, h.2.2.2.1 (by decide) (by decide), h.2.2.2.2.2.1⟩

/-! ## Fallback for unnamed modes -/

/-- C4. Unknown-mode fallback, evaluated on `sys_unnamed_request`: the mode
word holds the unnamed value 255 while `pre_op_mode` is RUN and the RUN queue
(first id 4, size 5, ubound 4) is active. `os_CheckOperationModeStatus`
returns with `op_mode = pre_op_mode = IDLE`, but the active queue, its size
and its ubound are still those of the RUN queue and not those of the IDLE
queue (first id 3, size 4), and the switch-over function left in the pointer
by the previous transition, `task_queue_run_init`, has been called again. -/
theorem unnamed_mode_fallback_keeps_queue :
    sys_unnamed_request.task_mgr.op_mode = OP_MODE.OTHER 255 ∧
    sys_unnamed_request.task_mgr.pre_op_mode = OP_MODE.RUN ∧
    (os_CheckOperationModeStatus cfg0 env0 sys_unnamed_request).sys.task_mgr.op_mode
      = OP_MODE.IDLE ∧
    (os_CheckOperationModeStatus cfg0 env0 sys_unnamed_request).sys.task_mgr.pre_op_mode
      = OP_MODE.IDLE ∧
    (os_CheckOperationModeStatus cfg0 env0 sys_unnamed_request).sys.task_mgr.task_queue.active_queue 0
      = 4 ∧
    queue_of_mode cfg0 OP_MODE.IDLE 0 = 3 ∧
    (os_CheckOperationModeStatus cfg0 env0 sys_unnamed_request).sys.task_mgr.task_queue.size
      = 5 ∧
    size_of_mode cfg0 OP_MODE.IDLE = 4 ∧
    (os_CheckOperationModeStatus cfg0 env0 sys_unnamed_request).sys.task_mgr.task_queue.ubound
      = 4 ∧
    (os_CheckOperationModeStatus cfg0 env0 sys_unnamed_request).trace
      = [EVENT.hook SWITCH_OVER_FUNCTION.task_queue_run_init] := by
  refine ⟨rfl, rfl, rfl, rfl, rfl, rfl, rfl, rfl, rfl, rfl⟩

/-! ## Task selection -/

theorem call_trace (env : ENVIRONMENT) (s : SYS) :
    (os_ProcessTaskQueue_call env s).trace
      = (if (s.tasks s.task_mgr.task_queue.active_task_id).enabled = true
            ∧ (env.Task_Table s.task_mgr.task_queue.active_task_id).isSome = true
         then [EVENT.task s.task_mgr.task_queue.active_task_id] else []) := by
  unfold os_ProcessTaskQueue_call
  split
  · rename_i he
    split
    · rename_i entry ht
      split <;> simp [he, ht]
    · rename_i ht
      simp [ht]
  · rename_i he
    simp [he]

theorem call_skipped (env : ENVIRONMENT) (s : SYS)
    (h : ¬ ((s.tasks s.task_mgr.task_queue.active_task_id).enabled = true
      ∧ (env.Task_Table s.task_mgr.task_queue.active_task_id).isSome = true)) :
    (os_ProcessTaskQueue_call env s).sys = s ∧ (os_ProcessTaskQueue_call env s).ret = 0 := by
  unfold os_ProcessTaskQueue_call
  split
  · rename_i he
    split
    · rename_i entry ht
      simp [he, ht] at h
    · exact ⟨rfl, rfl⟩
  · exact ⟨rfl, rfl⟩

/-- C5. Task selection: `os_ProcessTaskQueue` sets
`active_task_id = active_queue[active_index]` before the call; the calls it
makes are the single call of `Task_Table[active_task_id]` when
`tasks[active_task_id].enabled` is true and that entry is not NULL, and no
call at all otherwise; so at most one task entry is invoked, and when none
is, `active_task_id` still is that id on return. -/
theorem task_selection (cfg : CONFIG) (env : ENVIRONMENT) (s : SYS) :
    (os_ProcessTaskQueue_arm cfg s).task_mgr.task_queue.active_task_id
      = s.task_mgr.task_queue.active_queue s.task_mgr.task_queue.active_index ∧
    (os_ProcessTaskQueue cfg env s).trace
      = (if (s.tasks (s.task_mgr.task_queue.active_queue
              s.task_mgr.task_queue.active_index)).enabled = true
            ∧ (env.Task_Table (s.task_mgr.task_queue.active_queue
              s.task_mgr.task_queue.active_index)).isSome = true
         then [EVENT.task (s.task_mgr.task_queue.active_queue
              s.task_mgr.task_queue.active_index)]
         else []) ∧
    (os_ProcessTaskQueue cfg env s).trace.length ≤ 1 ∧
    (¬ ((s.tasks (s.task_mgr.task_queue.active_queue
              s.task_mgr.task_queue.active_index)).enabled = true
          ∧ (env.Task_Table (s.task_mgr.task_queue.active_queue
              s.task_mgr.task_queue.active_index)).isSome = true) →
      (os_ProcessTaskQueue cfg env s).sys.task_mgr.task_queue.active_task_id
        = s.task_mgr.task_queue.active_queue s.task_mgr.task_queue.active_index) := by
  have harm : (os_ProcessTaskQueue_arm cfg s).task_mgr.task_queue.active_task_id
      = s.task_mgr.task_queue.active_queue s.task_mgr.task_queue.active_index := rfl
  have htasks : (os_ProcessTaskQueue_arm cfg s).tasks = s.tasks := rfl
  have htr := call_trace env (os_ProcessTaskQueue_arm cfg s)
  rw [harm, htasks] at htr
  have hpt : (os_ProcessTaskQueue cfg env s).trace
      = (os_ProcessTaskQueue_call env (os_ProcessTaskQueue_arm cfg s)).trace := rfl
  refine ⟨harm, ?_, ?_, ?_⟩
  · rw [hpt, htr]
  · rw [hpt, htr]
    split <;> simp
  · intro hn
    have hs := call_skipped env (os_ProcessTaskQueue_arm cfg s) (by rw [harm, htasks]; exact hn)
    simp only [os_ProcessTaskQueue, hs.1, os_ProcessTaskQueue_measure]
    exact harm

/-! ## Rescue timer -/

/-- C7. Rescue handler effect: `_RescueTimer_Interrupt` disables the rescue
interrupt, sets `rescue_timer_overrun` and clears `enabled` of the task with
id `active_task_id`; the other fields of that task, every field of every
other task, the two mode words and the member `task_queue` (with the queue
index) are as before. -/
theorem rescue_handler_effect (s : SYS) :
    (_RescueTimer_Interrupt s).cpu.TMR_IE = false ∧
    (_RescueTimer_Interrupt s).task_mgr.status.rescue_timer_overrun = true ∧
    ((_RescueTimer_Interrupt s).tasks s.task_mgr.task_queue.active_task_id).enabled = false ∧
    (_RescueTimer_Interrupt s).tasks s.task_mgr.task_queue.active_task_id
      = { s.tasks s.task_mgr.task_queue.active_task_id with enabled := false } ∧
    (∀ j : Nat, j ≠ s.task_mgr.task_queue.active_task_id →
      (_RescueTimer_Interrupt s).tasks j = s.tasks j) ∧
    (_RescueTimer_Interrupt s).task_mgr.op_mode = s.task_mgr.op_mode ∧
    (_RescueTimer_Interrupt s).task_mgr.pre_op_mode = s.task_mgr.pre_op_mode ∧
    (_RescueTimer_Interrupt s).task_mgr.task_queue = s.task_mgr.task_queue ∧
    (_RescueTimer_Interrupt s).task_mgr.task_queue.active_index
      = s.task_mgr.task_queue.active_index := by
  refine ⟨rfl, rfl, ?_, ?_, ?_, rfl, rfl, rfl, rfl⟩
  · simp [_RescueTimer_Interrupt]
  · simp [_RescueTimer_Interrupt]
  · intro j hj
    simp [_RescueTimer_Interrupt, Function.update, hj]

/-! ## Quarantine -/

theorem isr_keeps_disabled (s : SYS) (T : Nat) (hd : (s.tasks T).enabled = false) :
    ((_RescueTimer_Interrupt s).tasks T).enabled = false := by
  by_cases h : T = s.task_mgr.task_queue.active_task_id
  · subst h
    simp [_RescueTimer_Interrupt]
  · simp [_RescueTimer_Interrupt, Function.update, h, hd]

theorem call_keeps_disabled (env : ENVIRONMENT) (s : SYS) (T : Nat)
    (hk : keeps_disabled T env) (hd : (s.tasks T).enabled = false) :
    ((os_ProcessTaskQueue_call env s).sys.tasks T).enabled = false := by
  unfold os_ProcessTaskQueue_call
  split
  · split
    · rename_i entry ht
      have h := hk.1 _ entry s ht hd
      split
      · rename_i s1 retval hr
        rw [hr] at h
        exact h
      · rename_i s1 hr
        rw [hr] at h
        exact isr_keeps_disabled s1 T h
    · exact hd
  · exact hd

theorem measure_enabled (env : ENVIRONMENT) (s : SYS) (retval j : Nat) :
    ((os_ProcessTaskQueue_measure env s retval).1.tasks j).enabled = (s.tasks j).enabled := by
  by_cases h : j = s.task_mgr.task_queue.active_task_id
  · subst h
    simp [os_ProcessTaskQueue_measure]
  · simp [os_ProcessTaskQueue_measure, Function.update, h]

theorem process_keeps_disabled (cfg : CONFIG) (env : ENVIRONMENT) (s : SYS) (T : Nat)
    (hk : keeps_disabled T env) (hd : (s.tasks T).enabled = false) :
    ((os_ProcessTaskQueue cfg env s).sys.tasks T).enabled = false
    ∧ EVENT.task T ∉ (os_ProcessTaskQueue cfg env s).trace := by
  have harm : ((os_ProcessTaskQueue_arm cfg s).tasks T).enabled = false := hd
  constructor
  · simp only [os_ProcessTaskQueue]
    rw [measure_enabled]
    exact call_keeps_disabled env _ T hk harm
  · have hpt : (os_ProcessTaskQueue cfg env s).trace
        = (os_ProcessTaskQueue_call env (os_ProcessTaskQueue_arm cfg s)).trace := rfl
    rw [hpt, call_trace]
    split
    · rename_i he
      intro hmem
      simp only [List.mem_singleton, EVENT.task.injEq] at hmem
      rw [← hmem, harm] at he
      simp at he
    · simp

theorem startup_tasks (s : SYS) : (os_CheckOperationModeStatus_startup s).tasks = s.tasks := by
  unfold os_CheckOperationModeStatus_startup
  split_ifs <;> rfl

theorem switch_tasks (cfg : CONFIG) (s : SYS) :
    (os_CheckOperationModeStatus_switch cfg s).tasks = s.tasks := by
  unfold os_CheckOperationModeStatus_switch
  split <;> rfl

theorem clear_fold_enabled (q : Nat → Nat) (l : List Nat) :
    ∀ (t : Nat → TASKMGR_TASK_CONTROL) (j : Nat),
      ((l.foldl (fun t i => clear_task_timing t (q i)) t) j).enabled = (t j).enabled := by
  induction l with
  | nil => intro t j; rfl
  | cons i l ih =>
    intro t j
    simp only [List.foldl_cons]
    rw [ih]
    unfold clear_task_timing
    by_cases h : j = q i
    · subst h; simp
    · simp [Function.update, h]

theorem clear_enabled (s : SYS) (j : Nat) :
    ((os_CheckOperationModeStatus_clear s).tasks j).enabled = (s.tasks j).enabled := by
  unfold os_CheckOperationModeStatus_clear
  exact clear_fold_enabled _ _ _ _

theorem finish_keeps_disabled (env : ENVIRONMENT) (s : SYS) (T : Nat)
    (hk : keeps_disabled T env) (hd : (s.tasks T).enabled = false) :
    ((os_CheckOperationModeStatus_finish env s).sys.tasks T).enabled = false
    ∧ ∀ id : Nat, EVENT.task id ∉ (os_CheckOperationModeStatus_finish env s).trace := by
  unfold os_CheckOperationModeStatus_finish
  cases s.task_mgr.op_mode_switch_over_function with
  | none => simp [hd]
  | some f => simp [hk.2.1 f s hd]

theorem check_keeps_disabled (cfg : CONFIG) (env : ENVIRONMENT) (s : SYS) (T : Nat)
    (hk : keeps_disabled T env) (hd : (s.tasks T).enabled = false) :
    ((os_CheckOperationModeStatus cfg env s).sys.tasks T).enabled = false
    ∧ ∀ id : Nat, EVENT.task id ∉ (os_CheckOperationModeStatus cfg env s).trace := by
  have h1 : ((os_CheckOperationModeStatus_startup s).tasks T).enabled = false := by
    rw [startup_tasks]; exact hd
  unfold os_CheckOperationModeStatus
  dsimp only
  split
  · apply finish_keeps_disabled env _ T hk
    rw [clear_enabled, switch_tasks]
    exact h1
  · exact ⟨h1, by simp⟩

theorem advance_keeps_disabled (cfg : CONFIG) (env : ENVIRONMENT) (fres : Nat) (s : SYS)
    (T : Nat) (hk : keeps_disabled T env) (hd : (s.tasks T).enabled = false) :
    ((OS_Execute_advance cfg env fres s).sys.tasks T).enabled = false
    ∧ EVENT.task T ∉ (OS_Execute_advance cfg env fres s).trace := by
  have hc := check_keeps_disabled cfg env s T hk hd
  unfold OS_Execute_advance
  split
  · refine ⟨hc.1, ?_⟩
    simp only [List.mem_cons, not_or]
    exact ⟨by simp, hc.2 T⟩
  · exact ⟨hd, by simp⟩

theorem tail_keeps_disabled (cfg : CONFIG) (env : ENVIRONMENT) (fres : Nat) (s : SYS)
    (T : Nat) (hk : keeps_disabled T env) (hd : (s.tasks T).enabled = false) :
    ((OS_Execute_tail cfg env fres s).sys.tasks T).enabled = false
    ∧ EVENT.task T ∉ (OS_Execute_tail cfg env fres s).trace := by
  unfold OS_Execute_tail
  dsimp only
  apply advance_keeps_disabled cfg env _ _ T hk
  apply hk.2.2.2
  exact hk.2.2.1 s hd

theorem cycle_keeps_disabled (cfg : CONFIG) (env : ENVIRONMENT) (fres : Nat) (s : SYS)
    (T : Nat) (hk : keeps_disabled T env) (hd : (s.tasks T).enabled = false) :
    ((OS_Execute_cycle cfg env fres s).sys.tasks T).enabled = false
    ∧ EVENT.task T ∉ (OS_Execute_cycle cfg env fres s).trace := by
  have h0 : ((OS_Execute_cpu_load cfg env s).tasks T).enabled = false := hd
  have hp := process_keeps_disabled cfg env _ T hk h0
  have ht := tail_keeps_disabled cfg env
    (fres &&& (os_ProcessTaskQueue cfg env (OS_Execute_cpu_load cfg env s)).ret) _ T hk hp.1
  unfold OS_Execute_cycle
  dsimp only
  refine ⟨ht.1, ?_⟩
  simp only [List.mem_append, not_or]
  exact ⟨hp.2, ht.2⟩

theorem loop_keeps_disabled (cfg : CONFIG) (T : Nat) (envs : List ENVIRONMENT) :
    ∀ (fres : Nat) (s : SYS), (∀ env ∈ envs, keeps_disabled T env) →
      (s.tasks T).enabled = false →
      ((OS_Execute_loop cfg envs fres s).sys.tasks T).enabled = false
      ∧ EVENT.task T ∉ (OS_Execute_loop cfg envs fres s).trace := by
  induction envs with
  | nil =>
    intro fres s _ hd
    exact ⟨hd, by simp [OS_Execute_loop]⟩
  | cons env envs ih =>
    intro fres s hk hd
    have hc := cycle_keeps_disabled cfg env fres s T (hk env (List.mem_cons_self _ _)) hd
    have hr := ih (OS_Execute_cycle cfg env fres s).ret (OS_Execute_cycle cfg env fres s).sys
      (fun e he => hk e (List.mem_cons_of_mem _ he)) hc.1
    unfold OS_Execute_loop
    split
    · refine ⟨hr.1, ?_⟩
      simp only [List.mem_append, not_or]
      exact ⟨hc.2, hr.2⟩
    · exact ⟨hd, by simp⟩

theorem call_timed_out (env : ENVIRONMENT) (a : SYS) (entry : SYS → TASK_RESULT) (s1 : SYS)
    (hen : (a.tasks a.task_mgr.task_queue.active_task_id).enabled = true)
    (htab : env.Task_Table a.task_mgr.task_queue.active_task_id = some entry)
    (hto : entry a = TASK_RESULT.timed_out s1) :
    (os_ProcessTaskQueue_call env a).sys = _RescueTimer_Interrupt s1
    ∧ (os_ProcessTaskQueue_call env a).ret = 0 := by
  unfold os_ProcessTaskQueue_call
  simp [hen, htab, hto]

/-- C6. Quarantine: let the rescue handler run in a scheduler cycle while
task id `T` is the active one (the entry called in that cycle ends by the
rescue interrupt, taken in state `s1` with `active_task_id = T`). Then the
handler leaves `tasks[T].enabled = false`, it is still false at the end of
that cycle, and if no code outside the core re-enables `T`, then after any
number of further scheduler cycles `tasks[T].enabled` is false and none of
these cycles has called the entry of `T`. -/
theorem quarantine (cfg : CONFIG) (env : ENVIRONMENT) (envs : List ENVIRONMENT) (fres : Nat)
    (s s1 : SYS) (entry : SYS → TASK_RESULT) (T : Nat)
    (hen : ((dispatch_state cfg env s).tasks
      (dispatch_state cfg env s).task_mgr.task_queue.active_task_id).enabled = true)
    (htab : env.Task_Table (dispatch_state cfg env s).task_mgr.task_queue.active_task_id
      = some entry)
    (hto : entry (dispatch_state cfg env s) = TASK_RESULT.timed_out s1)
    (hT : s1.task_mgr.task_queue.active_task_id = T)
    (hk : keeps_disabled T env) (hks : ∀ e ∈ envs, keeps_disabled T e) :
    ((_RescueTimer_Interrupt s1).tasks T).enabled = false ∧
    ((OS_Execute_cycle cfg env fres s).sys.tasks T).enabled = false ∧
    ((OS_Execute_loop cfg envs (OS_Execute_cycle cfg env fres s).ret
      (OS_Execute_cycle cfg env fres s).sys).sys.tasks T).enabled = false ∧
    EVENT.task T ∉ (OS_Execute_loop cfg envs (OS_Execute_cycle cfg env fres s).ret
      (OS_Execute_cycle cfg env fres s).sys).trace := by
  have hisr : ((_RescueTimer_Interrupt s1).tasks T).enabled = false := by
    subst hT
    simp [_RescueTimer_Interrupt]
  have hcall := call_timed_out env (dispatch_state cfg env s) entry s1 hen htab hto
  have hproc : ((os_ProcessTaskQueue cfg env (OS_Execute_cpu_load cfg env s)).sys.tasks
      T).enabled = false := by
    simp only [os_ProcessTaskQueue]
    rw [measure_enabled]
    have hx : (os_ProcessTaskQueue_call env
        (os_ProcessTaskQueue_arm cfg (OS_Execute_cpu_load cfg env s))).sys
        = _RescueTimer_Interrupt s1 := hcall.1
    rw [hx]
    exact hisr
  have hcyc : ((OS_Execute_cycle cfg env fres s).sys.tasks T).enabled = false := by
    have ht := tail_keeps_disabled cfg env
      (fres &&& (os_ProcessTaskQueue cfg env (OS_Execute_cpu_load cfg env s)).ret) _ T hk hproc
    unfold OS_Execute_cycle
    exact ht.1
  have hloop := loop_keeps_disabled cfg T envs (OS_Execute_cycle cfg env fres s).ret
    (OS_Execute_cycle cfg env fres s).sys hks hcyc
  exact ⟨hisr, hcyc, hloop.1, hloop.2⟩

theorem keeps_disabled_env0 (T : Nat) : keeps_disabled T env0 := by
  refine ⟨?_, fun _ _ hd => hd, fun _ hd => hd, fun _ hd => hd⟩
  intro id entry s ht hd
  have he : entry = fun s => TASK_RESULT.returned s 1 := by
    simp only [env0, Option.some.injEq] at ht
    exact ht.symm
  subst he
  exact hd

theorem keeps_disabled_env_spin (T : Nat) : keeps_disabled T env_spin := by
  refine ⟨?_, fun _ _ hd => hd, fun _ hd => hd, fun _ hd => hd⟩
  intro id entry s ht hd
  have he : entry = fun s => TASK_RESULT.timed_out s := by
    simp only [env_spin, Option.some.injEq] at ht
    exact ht.symm
  subst he
  exact hd

/-- The quarantine of task 0, the only task of the boot queue of `cfg0`,
which spins in the first cycle after initialisation; two more cycles
follow. -/
theorem quarantine_witness :
    ((OS_Execute_cycle cfg0 env_spin 1 (os_TaskManager_Initialize cfg0 sys0)).sys.tasks
      0).enabled = false ∧
    EVENT.task 0 ∉ (OS_Execute_loop cfg0 [env0, env0]
      (OS_Execute_cycle cfg0 env_spin 1 (os_TaskManager_Initialize cfg0 sys0)).ret
      (OS_Execute_cycle cfg0 env_spin 1 (os_TaskManager_Initialize cfg0 sys0)).sys).trace :=
  have h := quarantine cfg0 env_spin [env0, env0] 1 (os_TaskManager_Initialize cfg0 sys0)
    (dispatch_state cfg0 env_spin (os_TaskManager_Initialize cfg0 sys0))
    (fun s => TASK_RESULT.timed_out s) 0 rfl rfl rfl rfl (keeps_disabled_env_spin 0)
    (fun e he => by
      have : e = env0 := by simpa using he
      subst this
      exact keeps_disabled_env0 0)
  ⟨h.2.1, h.2.2.2⟩

/-! ## Task time measurement -/

theorem task_time_no_overrun (period a b : Nat) :
    task_time false period a b = if b > a then (b - a, 1) else (0, 0) := by
  simp [task_time]

theorem task_time_overrun (period a b : Nat) (ha : a < 65536) (hp : period < 65536)
    (hb : b ≤ period) :
    task_time true period a b = (min 65535 (period - b + a), 1) := by
  have h1 : (period + 4294967296 - b) % 4294967296 = period - b := by omega
  have h2 : (period - b + a) % 4294967296 = period - b + a := by omega
  simp only [task_time, if_true, h1, h2]
  by_cases h : period - b + a > 65535
  · simp only [h, if_true]
    congr 1
    omega
  · simp only [h, if_false]
    congr 1
    omega

theorem measure_fields (env : ENVIRONMENT) (s : SYS) (retval : Nat) :
    (os_ProcessTaskQueue_measure env s retval).2
      = (task_time env.tmr_if s.task_mgr.os_timer.master_period
          (env.t_start % 65536) (env.t_stop % 65536)).2 ∧
    (os_ProcessTaskQueue_measure env s retval).1.task_mgr.task_queue.active_task_time
      = (task_time env.tmr_if s.task_mgr.os_timer.master_period
          (env.t_start % 65536) (env.t_stop % 65536)).1 % 65536 ∧
    ((os_ProcessTaskQueue_measure env s retval).1.tasks
        s.task_mgr.task_queue.active_task_id).task_period
      = (os_ProcessTaskQueue_measure env s retval).1.task_mgr.task_queue.active_task_time ∧
    ((os_ProcessTaskQueue_measure env s retval).1.tasks
        s.task_mgr.task_queue.active_task_id).return_value = retval ∧
    (os_ProcessTaskQueue_measure env s retval).1.task_mgr.task_queue.active_retval = retval ∧
    ((os_ProcessTaskQueue_measure env s retval).1.tasks
        s.task_mgr.task_queue.active_task_id).task_period_max
      = max (s.tasks s.task_mgr.task_queue.active_task_id).task_period_max
          (os_ProcessTaskQueue_measure env s retval).1.task_mgr.task_queue.active_task_time ∧
    (os_ProcessTaskQueue_measure env s retval).1.task_mgr.os_timer.task_period_max
      = max s.task_mgr.os_timer.task_period_max
          (os_ProcessTaskQueue_measure env s retval).1.task_mgr.task_queue.active_task_time ∧
    (os_ProcessTaskQueue_measure env s retval).1.task_mgr.status.task_mgr_period_overrun
      = env.tmr_if := by
  refine ⟨rfl, rfl, ?_, ?_, rfl, ?_, ?_, rfl⟩
  · simp [os_ProcessTaskQueue_measure]
  · simp [os_ProcessTaskQueue_measure]
  · simp only [os_ProcessTaskQueue_measure, Function.update_same, Nat.max_def]
    split_ifs <;> omega
  · simp only [os_ProcessTaskQueue_measure, Nat.max_def]
    split_ifs <;> omega

/-- C8, as stated, fails when the two counter reads are equal: with no tick
pending and `t_start = t_stop = 100`, `os_ProcessTaskQueue` returns 0
(failure) although `t_stop < t_start` does not hold. -/
theorem equal_reads_report_failure :
    env_equal_reads.tmr_if = false ∧
    env_equal_reads.t_start < 65536 ∧ env_equal_reads.t_stop < 65536 ∧
    (os_ProcessTaskQueue cfg0 env_equal_reads (os_TaskManager_Initialize cfg0 sys0)).ret = 0 ∧
    ¬ (env_equal_reads.t_stop < env_equal_reads.t_start) := by
  refine ⟨rfl, by decide, by decide, rfl, by decide⟩

/-- C8, amended. Elapsed time without overrun: for all 16-bit counter reads
`t_start` and `t_stop`, when no tick is pending after the task,
`os_ProcessTaskQueue` records `task_period = t_stop - t_start` and returns 1
if `t_stop > t_start`; it records `task_period = 0` and returns 0 if
`t_stop <= t_start`; so it reports failure exactly when `t_stop <= t_start`. -/
theorem elapsed_time_without_overrun (cfg : CONFIG) (env : ENVIRONMENT) (s : SYS)
    (hif : env.tmr_if = false) (h1 : env.t_start < 65536) (h2 : env.t_stop < 65536) :
    (env.t_start < env.t_stop →
      ((os_ProcessTaskQueue cfg env s).sys.tasks
          (at_jump_target cfg env s).sys.task_mgr.task_queue.active_task_id).task_period
        = env.t_stop - env.t_start ∧
      (os_ProcessTaskQueue cfg env s).ret = 1) ∧
    (env.t_stop ≤ env.t_start →
      ((os_ProcessTaskQueue cfg env s).sys.tasks
          (at_jump_target cfg env s).sys.task_mgr.task_queue.active_task_id).task_period = 0 ∧
      (os_ProcessTaskQueue cfg env s).ret = 0) ∧
    ((os_ProcessTaskQueue cfg env s).ret = 0 ↔ env.t_stop ≤ env.t_start) := by
  obtain ⟨m1, m2, m3, -⟩ := measure_fields env (at_jump_target cfg env s).sys
    (at_jump_target cfg env s).ret
  have hret : (os_ProcessTaskQueue cfg env s).ret
      = (os_ProcessTaskQueue_measure env (at_jump_target cfg env s).sys
          (at_jump_target cfg env s).ret).2 := rfl
  have hsys : (os_ProcessTaskQueue cfg env s).sys
      = (os_ProcessTaskQueue_measure env (at_jump_target cfg env s).sys
          (at_jump_target cfg env s).ret).1 := rfl
  have hp : ((os_ProcessTaskQueue cfg env s).sys.tasks
      (at_jump_target cfg env s).sys.task_mgr.task_queue.active_task_id).task_period
      = (if env.t_stop > env.t_start then (env.t_stop - env.t_start, 1) else (0, 0)).1
        % 65536 := by
    rw [hsys, m3, m2, hif, task_time_no_overrun, Nat.mod_eq_of_lt h1, Nat.mod_eq_of_lt h2]
  have hr : (os_ProcessTaskQueue cfg env s).ret
      = (if env.t_stop > env.t_start then (env.t_stop - env.t_start, 1) else (0, 0)).2 := by
    rw [hret, m1, hif, task_time_no_overrun, Nat.mod_eq_of_lt h1, Nat.mod_eq_of_lt h2]
  by_cases h : env.t_stop > env.t_start
  · rw [if_pos h] at hp hr
    have hp2 : (env.t_stop - env.t_start) % 65536 = env.t_stop - env.t_start :=
      Nat.mod_eq_of_lt (by omega)
    simp only [hp2] at hp
    simp only at hr
    refine ⟨fun _ => ⟨hp, hr⟩, fun hle => ?_, ?_⟩
    · omega
    · constructor
      · intro h0; omega
      · intro hle; omega
  · rw [if_neg h] at hp hr
    simp only [Nat.zero_mod] at hp
    simp only at hr
    refine ⟨fun hlt => ?_, fun _ => ⟨hp, hr⟩, ?_⟩
    · omega
    · constructor
      · intro _; omega
      · intro _; exact hr

/-- The amended C8 at the reads 100 and 250 of `env0`: 150 ticks, success. -/
theorem elapsed_time_without_overrun_witness :
    ((os_ProcessTaskQueue cfg0 env0 (os_TaskManager_Initialize cfg0 sys0)).sys.tasks
        (at_jump_target cfg0 env0
          (os_TaskManager_Initialize cfg0 sys0)).sys.task_mgr.task_queue.active_task_id).task_period
      = 250 - 100 ∧
    (os_ProcessTaskQueue cfg0 env0 (os_TaskManager_Initialize cfg0 sys0)).ret = 1 :=
  (elapsed_time_without_overrun cfg0 env0 (os_TaskManager_Initialize cfg0 sys0) rfl
    (by decide) (by decide)).1 (by decide)

/-- C9. Elapsed time with overrun: let `P` be the master period, which
`os_ProcessTaskQueue` restores into the timer period register after the
task, and let `t_start`, `P` be 16-bit values with `t_stop <= P`. When the
timer flag is pending after the task, `task_mgr_period_overrun` is set,
`task_period = min(65535, (P - t_stop) + t_start)` is recorded and 1 is
returned; when the flag is not pending, `task_mgr_period_overrun` is
cleared. -/
theorem elapsed_time_with_overrun (cfg : CONFIG) (env : ENVIRONMENT) (s : SYS)
    (h1 : env.t_start < 65536)
    (hP : (at_jump_target cfg env s).sys.task_mgr.os_timer.master_period < 65536)
    (h2 : env.t_stop ≤ (at_jump_target cfg env s).sys.task_mgr.os_timer.master_period) :
    (os_ProcessTaskQueue cfg env s).sys.cpu.TMR_PERIOD
      = (at_jump_target cfg env s).sys.task_mgr.os_timer.master_period ∧
    (env.tmr_if = true →
      (os_ProcessTaskQueue cfg env s).sys.task_mgr.status.task_mgr_period_overrun = true ∧
      ((os_ProcessTaskQueue cfg env s).sys.tasks
          (at_jump_target cfg env s).sys.task_mgr.task_queue.active_task_id).task_period
        = min 65535
            ((at_jump_target cfg env s).sys.task_mgr.os_timer.master_period - env.t_stop
              + env.t_start) ∧
      (os_ProcessTaskQueue cfg env s).ret = 1) ∧
    (env.tmr_if = false →
      (os_ProcessTaskQueue cfg env s).sys.task_mgr.status.task_mgr_period_overrun = false) := by
  obtain ⟨m1, m2, m3, -, -, -, -, m8⟩ := measure_fields env (at_jump_target cfg env s).sys
    (at_jump_target cfg env s).ret
  have hret : (os_ProcessTaskQueue cfg env s).ret
      = (os_ProcessTaskQueue_measure env (at_jump_target cfg env s).sys
          (at_jump_target cfg env s).ret).2 := rfl
  have hsys : (os_ProcessTaskQueue cfg env s).sys
      = (os_ProcessTaskQueue_measure env (at_jump_target cfg env s).sys
          (at_jump_target cfg env s).ret).1 := rfl
  have hstop : env.t_stop < 65536 := by omega
  refine ⟨rfl, fun hif => ?_, fun hif => ?_⟩
  · rw [hret, hsys, m8, m3, m2, m1, hif, Nat.mod_eq_of_lt h1, Nat.mod_eq_of_lt hstop,
      task_time_overrun _ _ _ h1 hP h2]
    refine ⟨rfl, ?_, rfl⟩
    exact Nat.mod_eq_of_lt (by omega)
  · rw [hsys, m8, hif]

/-- C9 at the reads 6900 and 150 with the master period 7000 of `cfg0`: the
recorded time is (7000 - 150) + 6900 = 13750. -/
theorem elapsed_time_with_overrun_witness :
    (os_ProcessTaskQueue cfg0 env_overrun
      (os_TaskManager_Initialize cfg0 sys0)).sys.task_mgr.status.task_mgr_period_overrun
      = true ∧
    ((os_ProcessTaskQueue cfg0 env_overrun (os_TaskManager_Initialize cfg0 sys0)).sys.tasks
        (at_jump_target cfg0 env_overrun
          (os_TaskManager_Initialize cfg0 sys0)).sys.task_mgr.task_queue.active_task_id).task_period
      = min 65535 (7000 - 150 + 6900) ∧
    (os_ProcessTaskQueue cfg0 env_overrun (os_TaskManager_Initialize cfg0 sys0)).ret = 1 :=
  (elapsed_time_with_overrun cfg0 env_overrun (os_TaskManager_Initialize cfg0 sys0)
    (by decide) (by decide) (by decide)).2.1 rfl

/-! ## Timing bookkeeping -/

theorem call_returned (env : ENVIRONMENT) (a : SYS) (entry : SYS → TASK_RESULT) (s1 : SYS)
    (v : Nat) (hen : (a.tasks a.task_mgr.task_queue.active_task_id).enabled = true)
    (htab : env.Task_Table a.task_mgr.task_queue.active_task_id = some entry)
    (hret : entry a = TASK_RESULT.returned s1 v) :
    (os_ProcessTaskQueue_call env a).sys = s1
    ∧ (os_ProcessTaskQueue_call env a).ret = v % 65536 := by
  unfold os_ProcessTaskQueue_call
  simp [hen, htab, hret]

/-- C10. Timing bookkeeping: write `t` for the measured time (the 16-bit
value of `t_buf`, recorded in `active_task_time`), `r` for the local
`retval` at the jump target and `id` for the active task id there. After
`os_ProcessTaskQueue`, `tasks[id].task_period = active_task_time = t`,
`tasks[id].return_value = active_retval = r`, `tasks[id].task_period_max` is
the maximum of its value before the bookkeeping and `t`, and
`os_timer.task_period_max` is the maximum of its value before the
bookkeeping and `t`; `r` is the 16-bit status of the entry when the entry
was called and returned. -/
theorem timing_bookkeeping (cfg : CONFIG) (env : ENVIRONMENT) (s : SYS) :
    (os_ProcessTaskQueue cfg env s).sys.task_mgr.task_queue.active_task_time
      = (task_time env.tmr_if (at_jump_target cfg env s).sys.task_mgr.os_timer.master_period
          (env.t_start % 65536) (env.t_stop % 65536)).1 % 65536 ∧
    ((os_ProcessTaskQueue cfg env s).sys.tasks
        (at_jump_target cfg env s).sys.task_mgr.task_queue.active_task_id).task_period
      = (os_ProcessTaskQueue cfg env s).sys.task_mgr.task_queue.active_task_time ∧
    ((os_ProcessTaskQueue cfg env s).sys.tasks
        (at_jump_target cfg env s).sys.task_mgr.task_queue.active_task_id).return_value
      = (at_jump_target cfg env s).ret ∧
    (os_ProcessTaskQueue cfg env s).sys.task_mgr.task_queue.active_retval
      = (at_jump_target cfg env s).ret ∧
    ((os_ProcessTaskQueue cfg env s).sys.tasks
        (at_jump_target cfg env s).sys.task_mgr.task_queue.active_task_id).task_period_max
      = max ((at_jump_target cfg env s).sys.tasks
            (at_jump_target cfg env s).sys.task_mgr.task_queue.active_task_id).task_period_max
          (os_ProcessTaskQueue cfg env s).sys.task_mgr.task_queue.active_task_time ∧
    (os_ProcessTaskQueue cfg env s).sys.task_mgr.os_timer.task_period_max
      = max (at_jump_target cfg env s).sys.task_mgr.os_timer.task_period_max
          (os_ProcessTaskQueue cfg env s).sys.task_mgr.task_queue.active_task_time ∧
    (os_ProcessTaskQueue cfg env s).sys.task_mgr.task_queue.active_task_id
      = (at_jump_target cfg env s).sys.task_mgr.task_queue.active_task_id ∧
    (∀ (entry : SYS → TASK_RESULT) (s1 : SYS) (v : Nat),
      (s.tasks (s.task_mgr.task_queue.active_queue
        s.task_mgr.task_queue.active_index)).enabled = true →
      env.Task_Table (s.task_mgr.task_queue.active_queue s.task_mgr.task_queue.active_index)
        = some entry →
      entry (os_ProcessTaskQueue_arm cfg s) = TASK_RESULT.returned s1 v →
      (at_jump_target cfg env s).ret = v % 65536
      ∧ (at_jump_target cfg env s).trace
        = [EVENT.task (s.task_mgr.task_queue.active_queue
            s.task_mgr.task_queue.active_index)]) := by
  obtain ⟨-, m2, m3, m4, m5, m6, m7, -⟩ := measure_fields env (at_jump_target cfg env s).sys
    (at_jump_target cfg env s).ret
  refine ⟨m2, m3, m4, m5, m6, m7, rfl, ?_⟩
  intro entry s1 v hen htab hret
  refine ⟨(call_returned env (os_ProcessTaskQueue_arm cfg s) entry s1 v hen htab hret).2, ?_⟩
  have htr := call_trace env (os_ProcessTaskQueue_arm cfg s)
  have harm : (os_ProcessTaskQueue_arm cfg s).task_mgr.task_queue.active_task_id
      = s.task_mgr.task_queue.active_queue s.task_mgr.task_queue.active_index := rfl
  have htasks : (os_ProcessTaskQueue_arm cfg s).tasks = s.tasks := rfl
  rw [harm, htasks] at htr
  unfold at_jump_target
  rw [htr, if_pos ⟨hen, by rw [htab]; rfl⟩]

/-- The bookkeeping after the first dispatch of `cfg0` with `env0`: task 0
returns 1 after 150 ticks. -/
theorem timing_bookkeeping_witness :
    (at_jump_target cfg0 env0 (os_TaskManager_Initialize cfg0 sys0)).ret = 1 % 65536
    ∧ (at_jump_target cfg0 env0 (os_TaskManager_Initialize cfg0 sys0)).trace
      = [EVENT.task ((os_TaskManager_Initialize cfg0 sys0).task_mgr.task_queue.active_queue
          (os_TaskManager_Initialize cfg0 sys0).task_mgr.task_queue.active_index)] :=
  (timing_bookkeeping cfg0 env0 (os_TaskManager_Initialize cfg0 sys0)).2.2.2.2.2.2.2
    (fun s => TASK_RESULT.returned s 1)
    (os_ProcessTaskQueue_arm cfg0 (os_TaskManager_Initialize cfg0 sys0)) 1 rfl rfl rfl

/-! ## Timing data on a queue switch -/

theorem clear_fold_zero (q : Nat → Nat) (l : List Nat) :
    ∀ (t : Nat → TASKMGR_TASK_CONTROL) (j : Nat),
      ((∃ i ∈ l, q i = j) ∨
        ((t j).return_value = 0 ∧ (t j).task_period = 0 ∧ (t j).task_period_max = 0)) →
      ((l.foldl (fun t i => clear_task_timing t (q i)) t) j).return_value = 0 ∧
      ((l.foldl (fun t i => clear_task_timing t (q i)) t) j).task_period = 0 ∧
      ((l.foldl (fun t i => clear_task_timing t (q i)) t) j).task_period_max = 0 := by
  induction l with
  | nil =>
    intro t j h
    rcases h with ⟨i, hi, _⟩ | h
    · cases hi
    · exact h
  | cons i l ih =>
    intro t j h
    simp only [List.foldl_cons]
    apply ih
    by_cases hq : q i = j
    · right
      subst hq
      simp [clear_task_timing]
    · rcases h with ⟨i2, hi2, hq2⟩ | h
      · left
        rcases List.mem_cons.mp hi2 with h1 | h1
        · subst h1
          exact absurd hq2 hq
        · exact ⟨i2, h1, hq2⟩
      · right
        have hne : j ≠ q i := fun e => hq e.symm
        simpa [clear_task_timing, Function.update, hne] using h

theorem clear_fold_other (q : Nat → Nat) (l : List Nat) :
    ∀ (t : Nat → TASKMGR_TASK_CONTROL) (j : Nat), (∀ i ∈ l, q i ≠ j) →
      (l.foldl (fun t i => clear_task_timing t (q i)) t) j = t j := by
  induction l with
  | nil => intro t j _; rfl
  | cons i l ih =>
    intro t j h
    simp only [List.foldl_cons]
    rw [ih _ _ (fun i2 hi2 => h i2 (List.mem_cons_of_mem _ hi2))]
    have hne : j ≠ q i := fun e => h i (List.mem_cons_self _ _) e.symm
    simp [clear_task_timing, Function.update, hne]

theorem clear_fold_frame (q : Nat → Nat) (l : List Nat) :
    ∀ (t : Nat → TASKMGR_TASK_CONTROL) (j : Nat),
      ((l.foldl (fun t i => clear_task_timing t (q i)) t) j).id = (t j).id ∧
      ((l.foldl (fun t i => clear_task_timing t (q i)) t) j).time_quota = (t j).time_quota := by
  induction l with
  | nil => intro t j; exact ⟨rfl, rfl⟩
  | cons i l ih =>
    intro t j
    simp only [List.foldl_cons]
    rw [(ih _ _).1, (ih _ _).2]
    unfold clear_task_timing
    by_cases h : j = q i
    · subst h; simp
    · simp [Function.update, h]

theorem before_hook_task_mgr (cfg : CONFIG) (s : SYS) :
    (before_hook cfg s).task_mgr
      = (os_CheckOperationModeStatus_switch cfg
          (os_CheckOperationModeStatus_startup s)).task_mgr := rfl

theorem before_hook_tasks (cfg : CONFIG) (s : SYS) :
    (before_hook cfg s).tasks
      = (List.range (before_hook cfg s).task_mgr.task_queue.size).foldl
          (fun t i => clear_task_timing t ((before_hook cfg s).task_mgr.task_queue.active_queue i))
          s.tasks := by
  have h : (os_CheckOperationModeStatus_switch cfg
      (os_CheckOperationModeStatus_startup s)).tasks = s.tasks := by
    rw [switch_tasks, startup_tasks]
  simp only [before_hook, os_CheckOperationModeStatus_clear, h]

/-- C11. Timing cleared on queue switch: when `os_CheckOperationModeStatus`
detects a transition then, in the state before the switch-over function is
called, every task whose id stands at a position `0 .. size-1` of the active
queue has `return_value = 0`, `task_period = 0` and `task_period_max = 0`;
every task whose id stands at none of these positions is as on entry; `id`,
`time_quota` and `enabled` of every task are as on entry; and the task table
on return is that state's, passed through the switch-over function when the
pointer is not NULL. -/
theorem timing_cleared_on_switch (cfg : CONFIG) (env : ENVIRONMENT) (s : SYS)
    (hsw : transition_detected s) :
    (∀ i : Nat, i < (before_hook cfg s).task_mgr.task_queue.size →
      ((before_hook cfg s).tasks
        ((before_hook cfg s).task_mgr.task_queue.active_queue i)).return_value = 0 ∧
      ((before_hook cfg s).tasks
        ((before_hook cfg s).task_mgr.task_queue.active_queue i)).task_period = 0 ∧
      ((before_hook cfg s).tasks
        ((before_hook cfg s).task_mgr.task_queue.active_queue i)).task_period_max = 0) ∧
    (∀ j : Nat,
      (∀ i : Nat, i < (before_hook cfg s).task_mgr.task_queue.size →
        (before_hook cfg s).task_mgr.task_queue.active_queue i ≠ j) →
      (before_hook cfg s).tasks j = s.tasks j) ∧
    (∀ j : Nat,
      ((before_hook cfg s).tasks j).enabled = (s.tasks j).enabled ∧
      ((before_hook cfg s).tasks j).id = (s.tasks j).id ∧
      ((before_hook cfg s).tasks j).time_quota = (s.tasks j).time_quota) ∧
    (os_CheckOperationModeStatus cfg env s).sys.tasks
      = (match (before_hook cfg s).task_mgr.op_mode_switch_over_function with
         | some f => (env.switch_over f (before_hook cfg s)).tasks
         | none => (before_hook cfg s).tasks) := by
  refine ⟨?_, ?_, ?_, ?_⟩
  · intro i hi
    rw [before_hook_tasks]
    exact clear_fold_zero _ _ _ _ (Or.inl ⟨i, List.mem_range.mpr hi, rfl⟩)
  · intro j hj
    rw [before_hook_tasks]
    exact clear_fold_other _ _ _ _ (fun i hi => hj i (List.mem_range.mp hi))
  · intro j
    rw [before_hook_tasks]
    exact ⟨clear_fold_enabled _ _ _ _, (clear_fold_frame _ _ _ _).1,
      (clear_fold_frame _ _ _ _).2⟩
  · rw [check_task_mgr_of_switch cfg env s hsw]
    show (os_CheckOperationModeStatus_finish env (before_hook cfg s)).sys.tasks = _
    unfold os_CheckOperationModeStatus_finish
    cases (before_hook cfg s).task_mgr.op_mode_switch_over_function <;> rfl

/-- The clearing at the RUN request of `sys_run_request`: task 6 stands at
position 2 of the RUN queue of `cfg0`. -/
theorem timing_cleared_on_switch_witness :
    ((before_hook cfg0 sys_run_request).tasks
      ((before_hook cfg0 sys_run_request).task_mgr.task_queue.active_queue 2)).task_period_max
      = 0 :=
  ((timing_cleared_on_switch cfg0 env0 sys_run_request (by decide)).1 2 (by decide)).2.2

/-! ## Switch-over functions -/

theorem finish_trace (env : ENVIRONMENT) (s : SYS) :
    (os_CheckOperationModeStatus_finish env s).trace
      = hook_calls s.task_mgr.op_mode_switch_over_function := by
  unfold os_CheckOperationModeStatus_finish
  cases s.task_mgr.op_mode_switch_over_function <;> rfl

theorem switch_named_hook (cfg : CONFIG) (s : SYS) (M : OP_MODE) (hM : named_mode M)
    (hop : s.task_mgr.op_mode = M) :
    (os_CheckOperationModeStatus_switch cfg s).task_mgr.op_mode_switch_over_function
      = hook_of_mode M := by
  rcases hM with h | h | h | h | h | h | h <;> subst h <;>
    simp [os_CheckOperationModeStatus_switch, hop, load_queue, hook_of_mode]

theorem check_trace_named (cfg : CONFIG) (env : ENVIRONMENT) (s : SYS) (M : OP_MODE)
    (hM : named_mode M)
    (hop : (os_CheckOperationModeStatus_startup s).task_mgr.op_mode = M)
    (hne : (os_CheckOperationModeStatus_startup s).task_mgr.pre_op_mode ≠ M) :
    (os_CheckOperationModeStatus cfg env s).trace = hook_calls (hook_of_mode M) := by
  have hne2 : (os_CheckOperationModeStatus_startup s).task_mgr.pre_op_mode
      ≠ (os_CheckOperationModeStatus_startup s).task_mgr.op_mode := by
    rw [hop]; exact hne
  rw [check_task_mgr_of_switch cfg env s hne2, finish_trace]
  have hc : (os_CheckOperationModeStatus_clear
      (os_CheckOperationModeStatus_switch cfg (os_CheckOperationModeStatus_startup s))).task_mgr
      = (os_CheckOperationModeStatus_switch cfg (os_CheckOperationModeStatus_startup s)).task_mgr :=
    rfl
  rw [hc, switch_named_hook cfg _ M hM hop]

theorem check_trace_stable (cfg : CONFIG) (env : ENVIRONMENT) (s : SYS)
    (h : ¬ transition_detected s) :
    (os_CheckOperationModeStatus cfg env s).trace = [] := by
  unfold transition_detected at h
  unfold os_CheckOperationModeStatus
  dsimp only
  rw [if_neg h]

/-- C12. Switch-over hook, evaluated where it fails. In
`sys_unnamed_from_boot` (mode word 255, `pre_op_mode` BOOT, pointer NULL) the
check detects a transition and returns with `op_mode = pre_op_mode = IDLE`
and `queue_switch` set, and has called no switch-over function, so IDLE is
entered without `task_queue_idle_init`. In `sys_unnamed_request` (mode word
255, `pre_op_mode` RUN) it returns with `op_mode = IDLE` as well and has
called `task_queue_run_init`, the function of the mode that is left. -/
theorem unnamed_mode_hook_mismatch :
    transition_detected sys_unnamed_from_boot ∧
    (os_CheckOperationModeStatus cfg0 env0 sys_unnamed_from_boot).sys.task_mgr.op_mode
      = OP_MODE.IDLE ∧
    (os_CheckOperationModeStatus cfg0 env0 sys_unnamed_from_boot).sys.task_mgr.pre_op_mode
      = OP_MODE.IDLE ∧
    (os_CheckOperationModeStatus cfg0 env0
      sys_unnamed_from_boot).sys.task_mgr.status.queue_switch = true ∧
    (os_CheckOperationModeStatus cfg0 env0 sys_unnamed_from_boot).trace = [] ∧
    hook_calls (hook_of_mode OP_MODE.IDLE)
      = [EVENT.hook SWITCH_OVER_FUNCTION.task_queue_idle_init] ∧
    transition_detected sys_unnamed_request ∧
    (os_CheckOperationModeStatus cfg0 env0 sys_unnamed_request).sys.task_mgr.op_mode
      = OP_MODE.IDLE ∧
    (os_CheckOperationModeStatus cfg0 env0 sys_unnamed_request).trace
      = [EVENT.hook SWITCH_OVER_FUNCTION.task_queue_run_init] := by
  refine ⟨by decide, rfl, rfl, rfl, rfl, rfl, by decide, rfl, rfl⟩

/-! ## Mode request at the queue-advance step -/

theorem startup_of_request (s : SYS) (h1 : s.task_mgr.op_mode ≠ OP_MODE.UNKNOWN)
    (h2 : s.task_mgr.pre_op_mode ≠ s.task_mgr.op_mode) :
    os_CheckOperationModeStatus_startup s = s := by
  unfold os_CheckOperationModeStatus_startup
  rw [if_neg h1]
  split_ifs with a b c
  · exact absurd (a.1.trans a.2.symm) h2
  · exact absurd (b.1.trans b.2.symm) h2
  · exact absurd (c.1.trans c.2.symm) h2
  · rfl

theorem named_ne_unknown (M : OP_MODE) (hM : named_mode M) : M ≠ OP_MODE.UNKNOWN := by
  rcases hM with h | h | h | h | h | h | h <;> subst h <;> decide

theorem check_named_request (cfg : CONFIG) (env : ENVIRONMENT) (s : SYS)
    (hM : named_mode s.task_mgr.op_mode)
    (hne : s.task_mgr.pre_op_mode ≠ s.task_mgr.op_mode) (hk : hooks_keep_queue env) :
    (os_CheckOperationModeStatus cfg env s).sys.task_mgr.task_queue.active_queue
      = queue_of_mode cfg s.task_mgr.op_mode ∧
    (os_CheckOperationModeStatus cfg env s).sys.task_mgr.op_mode = s.task_mgr.op_mode ∧
    (os_CheckOperationModeStatus cfg env s).sys.task_mgr.pre_op_mode = s.task_mgr.op_mode ∧
    (os_CheckOperationModeStatus cfg env s).trace
      = hook_calls (hook_of_mode s.task_mgr.op_mode) := by
  have hst := startup_of_request s (named_ne_unknown _ hM) hne
  have hop : (os_CheckOperationModeStatus_startup s).task_mgr.op_mode = s.task_mgr.op_mode := by
    rw [hst]
  have hpre : (os_CheckOperationModeStatus_startup s).task_mgr.pre_op_mode
      ≠ s.task_mgr.op_mode := by
    rw [hst]; exact hne
  have hne2 : (os_CheckOperationModeStatus_startup s).task_mgr.pre_op_mode
      ≠ (os_CheckOperationModeStatus_startup s).task_mgr.op_mode := by
    rw [hst]; exact hne
  refine ⟨?_, ?_, ?_, check_trace_named cfg env s _ hM hop hpre⟩
  all_goals
    rw [check_task_mgr_of_switch cfg env s hne2]
    obtain ⟨f1, f2, f3, -⟩ := finish_task_mgr env
      (os_CheckOperationModeStatus_clear
        (os_CheckOperationModeStatus_switch cfg (os_CheckOperationModeStatus_startup s))) hk
    obtain ⟨w1, w2, -⟩ := switch_named cfg _ _ hM hop
    have hc : (os_CheckOperationModeStatus_clear
        (os_CheckOperationModeStatus_switch cfg
          (os_CheckOperationModeStatus_startup s))).task_mgr
        = (os_CheckOperationModeStatus_switch cfg
          (os_CheckOperationModeStatus_startup s)).task_mgr := rfl
    rw [hc] at f1 f2 f3
  · rw [f3, w2]
  · rw [f1, w1]
  · rw [f2, w1]

/-- C13. Mode request takes effect at the observing cycle: if at the
queue-advance step `op_mode` is a named mode different from `pre_op_mode`,
then whatever `active_index` is, the step calls the mode check once and
leaves `active_index = 0` with the queue of the requested mode active (the
switch-over function not writing the mode word or the queue selection), so
that the next dispatch selects element 0 of that queue; if the two mode
words are equal and `active_index + 1 <= ubound` (a 16-bit value), the mode
check is not called and `active_index` is incremented by exactly 1. -/
theorem mode_request_observed (cfg : CONFIG) (env : ENVIRONMENT) (fres : Nat) (s : SYS) :
    (named_mode s.task_mgr.op_mode → s.task_mgr.pre_op_mode ≠ s.task_mgr.op_mode →
      hooks_keep_queue env →
      (OS_Execute_advance cfg env fres s).trace
        = EVENT.mode_check :: hook_calls (hook_of_mode s.task_mgr.op_mode) ∧
      (OS_Execute_advance cfg env fres s).sys.task_mgr.op_mode = s.task_mgr.op_mode ∧
      (OS_Execute_advance cfg env fres s).sys.task_mgr.task_queue.active_index = 0 ∧
      (OS_Execute_advance cfg env fres s).sys.task_mgr.task_queue.active_queue
        = queue_of_mode cfg s.task_mgr.op_mode ∧
      (∀ env2 : ENVIRONMENT,
        (dispatch_state cfg env2
          (OS_Execute_advance cfg env fres s).sys).task_mgr.task_queue.active_task_id
          = queue_of_mode cfg s.task_mgr.op_mode 0)) ∧
    (s.task_mgr.pre_op_mode = s.task_mgr.op_mode →
      s.task_mgr.task_queue.active_index + 1 ≤ s.task_mgr.task_queue.ubound →
      s.task_mgr.task_queue.ubound < 65536 →
      (OS_Execute_advance cfg env fres s).trace = [] ∧
      (OS_Execute_advance cfg env fres s).sys.task_mgr.task_queue.active_index
        = s.task_mgr.task_queue.active_index + 1 ∧
      (OS_Execute_advance cfg env fres s).sys.task_mgr.task_queue.active_queue
        = s.task_mgr.task_queue.active_queue) := by
  constructor
  · intro hM hne hk
    obtain ⟨c1, c2, -, c4⟩ := check_named_request cfg env s hM hne hk
    have hcond : (s.task_mgr.task_queue.active_index + 1) % 65536 > s.task_mgr.task_queue.ubound
        ∨ s.task_mgr.pre_op_mode ≠ s.task_mgr.op_mode := Or.inr hne
    unfold OS_Execute_advance
    rw [if_pos hcond]
    dsimp only
    refine ⟨by rw [c4], c2, rfl, c1, ?_⟩
    intro env2
    simp only [dispatch_state, os_ProcessTaskQueue_arm, OS_Execute_cpu_load]
    rw [c1]
  · intro heq hle hub
    have hcond : ¬ ((s.task_mgr.task_queue.active_index + 1) % 65536
          > s.task_mgr.task_queue.ubound
        ∨ s.task_mgr.pre_op_mode ≠ s.task_mgr.op_mode) := by
      rw [Nat.mod_eq_of_lt (by omega)]
      intro h
      rcases h with h | h
      · omega
      · exact h heq
    unfold OS_Execute_advance
    rw [if_neg hcond]
    dsimp only
    exact ⟨rfl, Nat.mod_eq_of_lt (by omega), rfl⟩

/-- A RUN request observed at index 3 of 10, and the same state without a
request. -/
theorem mode_request_observed_witness :
    (OS_Execute_advance cfg0 env0 1 sys_run_request_mid).sys.task_mgr.task_queue.active_index
      = 0 ∧
    (dispatch_state cfg0 env0
      (OS_Execute_advance cfg0 env0 1 sys_run_request_mid).sys).task_mgr.task_queue.active_task_id
      = queue_of_mode cfg0 OP_MODE.RUN 0 ∧
    (OS_Execute_advance cfg0 env0 1 sys_mid_queue).sys.task_mgr.task_queue.active_index
      = 3 + 1 :=
  have h := (mode_request_observed cfg0 env0 1 sys_run_request_mid).1
    (Or.inr (Or.inr (Or.inr (Or.inr (Or.inl rfl))))) (by decide) hooks_keep_queue_env0
  ⟨h.2.2.1, h.2.2.2.2 env0,
    ((mode_request_observed cfg0 env0 1 sys_mid_queue).2 rfl (by decide) (by decide)).2.1⟩

/-! ## Start-up trace -/

theorem check_complete_kept (cfg : CONFIG) (env : ENVIRONMENT) (s : SYS)
    (h : s.task_mgr.op_mode = OP_MODE.BOOT ∨ s.task_mgr.op_mode = OP_MODE.FIRMWARE_INIT)
    (hp : s.task_mgr.pre_op_mode = s.task_mgr.op_mode) :
    (os_CheckOperationModeStatus cfg env s).sys.task_mgr.status.startup_sequence_complete
      = s.task_mgr.status.startup_sequence_complete := by
  rcases h with h | h <;> rw [h] at hp <;>
    simp [os_CheckOperationModeStatus, os_CheckOperationModeStatus_startup, set_op_mode, h, hp,
      os_CheckOperationModeStatus_switch, load_queue, os_CheckOperationModeStatus_clear,
      os_CheckOperationModeStatus_finish]

theorem check_idle_stable (cfg : CONFIG) (env : ENVIRONMENT) (s : SYS)
    (h : s.task_mgr.op_mode = OP_MODE.IDLE) (hp : s.task_mgr.pre_op_mode = OP_MODE.IDLE) :
    (os_CheckOperationModeStatus cfg env s).sys.task_mgr.op_mode = OP_MODE.IDLE ∧
    (os_CheckOperationModeStatus cfg env s).sys.task_mgr.pre_op_mode = OP_MODE.IDLE ∧
    (os_CheckOperationModeStatus cfg env s).sys.task_mgr.status.startup_sequence_complete
      = s.task_mgr.status.startup_sequence_complete := by
  simp [os_CheckOperationModeStatus, os_CheckOperationModeStatus_startup, h, hp]

theorem mode_checks_idle_stable (cfg : CONFIG) (envs : List ENVIRONMENT) :
    ∀ s : SYS, s.task_mgr.op_mode = OP_MODE.IDLE → s.task_mgr.pre_op_mode = OP_MODE.IDLE →
      (mode_checks cfg envs s).task_mgr.op_mode = OP_MODE.IDLE ∧
      (mode_checks cfg envs s).task_mgr.status.startup_sequence_complete
        = s.task_mgr.status.startup_sequence_complete := by
  induction envs with
  | nil => intro s h _; exact ⟨h, rfl⟩
  | cons env envs ih =>
    intro s h hp
    obtain ⟨c1, c2, c3⟩ := check_idle_stable cfg env s h hp
    obtain ⟨i1, i2⟩ := ih _ c1 c2
    simp only [mode_checks]
    exact ⟨i1, i2.trans c3⟩

/-- C14. Start-up trace: from the state produced by
`os_TaskManager_Initialize`, consecutive mode checks (one per queue rollover,
no other writer of the mode word, the switch-over function called on entry
to IDLE not writing the mode word or the `startup_sequence_complete` bit)
give the modes BOOT, FIRMWARE_INIT, STARTUP_SEQUENCE, IDLE in this order;
`startup_sequence_complete` is false in the states with the first three
modes and true in the first IDLE state and after any number of further
checks, which all leave the mode at IDLE. -/
theorem startup_trace (cfg : CONFIG) (e1 e2 e3 : ENVIRONMENT) (envs : List ENVIRONMENT)
    (s : SYS) (hk : hooks_keep_mode e3) :
    (mode_checks cfg [] (os_TaskManager_Initialize cfg s)).task_mgr.op_mode = OP_MODE.BOOT ∧
    (mode_checks cfg [] (os_TaskManager_Initialize cfg s)).task_mgr.status.startup_sequence_complete
      = false ∧
    (mode_checks cfg [e1] (os_TaskManager_Initialize cfg s)).task_mgr.op_mode
      = OP_MODE.FIRMWARE_INIT ∧
    (mode_checks cfg [e1]
      (os_TaskManager_Initialize cfg s)).task_mgr.status.startup_sequence_complete = false ∧
    (mode_checks cfg [e1, e2] (os_TaskManager_Initialize cfg s)).task_mgr.op_mode
      = OP_MODE.STARTUP_SEQUENCE ∧
    (mode_checks cfg [e1, e2]
      (os_TaskManager_Initialize cfg s)).task_mgr.status.startup_sequence_complete = false ∧
    (mode_checks cfg [e1, e2, e3] (os_TaskManager_Initialize cfg s)).task_mgr.op_mode
      = OP_MODE.IDLE ∧
    (mode_checks cfg [e1, e2, e3]
      (os_TaskManager_Initialize cfg s)).task_mgr.status.startup_sequence_complete = true ∧
    (mode_checks cfg (e1 :: e2 :: e3 :: envs)
      (os_TaskManager_Initialize cfg s)).task_mgr.op_mode = OP_MODE.IDLE ∧
    (mode_checks cfg (e1 :: e2 :: e3 :: envs)
      (os_TaskManager_Initialize cfg s)).task_mgr.status.startup_sequence_complete = true := by
  have h0 : (os_TaskManager_Initialize cfg s).task_mgr.op_mode = OP_MODE.BOOT := rfl
  have p0 : (os_TaskManager_Initialize cfg s).task_mgr.pre_op_mode = OP_MODE.BOOT := rfl
  have c0 : (os_TaskManager_Initialize cfg s).task_mgr.status.startup_sequence_complete
      = false := rfl
  have h1 := check_from_boot cfg e1 _ h0 p0
  have c1 := check_complete_kept cfg e1 _ (Or.inl h0) (p0.trans h0.symm)
  have h2 := check_from_firmware_init cfg e2 _ h1.1 h1.2
  have c2 := check_complete_kept cfg e2 _ (Or.inr h1.1) (h1.2.trans h1.1.symm)
  have h3 := check_from_startup_sequence cfg e3 _ h2.1 h2.2 hk
  have h4 := mode_checks_idle_stable cfg envs _ h3.1 h3.2.1
  simp only [mode_checks]
  exact ⟨h0, c0, h1.1, c1.trans c0, h2.1, c2.trans (c1.trans c0), h3.1, h3.2.2, h4.1,
    h4.2.trans h3.2.2⟩

/-- The start-up trace of `cfg0` from the all-zero state, with two further
checks after IDLE is reached. -/
theorem startup_trace_witness :
    hooks_keep_mode env0 ∧
    (mode_checks cfg0 [env0, env0, env0, env0, env0]
      (os_TaskManager_Initialize cfg0 sys0)).task_mgr.op_mode = OP_MODE.IDLE ∧
    (mode_checks cfg0 [env0, env0, env0, env0, env0]
      (os_TaskManager_Initialize cfg0 sys0)).task_mgr.status.startup_sequence_complete
      = true :=
  have h := startup_trace cfg0 env0 env0 env0 [env0, env0] sys0 hooks_keep_mode_env0
  ⟨hooks_keep_mode_env0, h.2.2.2.2.2.2.2.2.1, h.2.2.2.2.2.2.2.2.2⟩

/-! ## Rescue timer programming -/

/-- C15. Timer restored after dispatch: after every call of
`os_ProcessTaskQueue` (the environment decides whether the task returns, is
skipped or is ended by the rescue handler) the rescue interrupt is disabled
and the timer period register holds `master_period`; the state in which a
task entry is called, and which it starts from, has the period register at
`rescue_period` and the interrupt enabled. -/
theorem timer_restored_after_dispatch (cfg : CONFIG) (env : ENVIRONMENT) (s : SYS) :
    (os_ProcessTaskQueue cfg env s).sys.cpu.TMR_IE = false ∧
    (os_ProcessTaskQueue cfg env s).sys.cpu.TMR_PERIOD
      = (os_ProcessTaskQueue cfg env s).sys.task_mgr.os_timer.master_period ∧
    (os_ProcessTaskQueue_arm cfg s).cpu.TMR_PERIOD = s.task_mgr.os_timer.rescue_period ∧
    (os_ProcessTaskQueue_arm cfg s).cpu.TMR_IE = true ∧
    (∀ entry : SYS → TASK_RESULT,
      ((os_ProcessTaskQueue_arm cfg s).tasks
        (os_ProcessTaskQueue_arm cfg s).task_mgr.task_queue.active_task_id).enabled = true →
      env.Task_Table (os_ProcessTaskQueue_arm cfg s).task_mgr.task_queue.active_task_id
        = some entry →
      (at_jump_target cfg env s).sys
        = (match entry (os_ProcessTaskQueue_arm cfg s) with
           | TASK_RESULT.returned s1 _ => s1
           | TASK_RESULT.timed_out s1 => _RescueTimer_Interrupt s1)) := by
  refine ⟨rfl, rfl, rfl, rfl, ?_⟩
  intro entry hen htab
  unfold at_jump_target os_ProcessTaskQueue_call
  rw [if_pos hen]
  simp only [htab]
  cases entry (os_ProcessTaskQueue_arm cfg s) <;> rfl

/-- The timer registers around the first dispatch of `cfg0`, for a task that
returns (`env0`) and for one that is ended by the rescue handler
(`env_spin`). -/
theorem timer_restored_after_dispatch_witness :
    (os_ProcessTaskQueue cfg0 env0 (os_TaskManager_Initialize cfg0 sys0)).sys.cpu.TMR_PERIOD
      = 7000 ∧
    (os_ProcessTaskQueue cfg0 env_spin
      (os_TaskManager_Initialize cfg0 sys0)).sys.cpu.TMR_PERIOD = 7000 ∧
    (os_ProcessTaskQueue cfg0 env_spin
      (os_TaskManager_Initialize cfg0 sys0)).sys.cpu.TMR_IE = false ∧
    (os_ProcessTaskQueue_arm cfg0 (os_TaskManager_Initialize cfg0 sys0)).cpu.TMR_PERIOD
      = 60000 :=
  ⟨(timer_restored_after_dispatch cfg0 env0 (os_TaskManager_Initialize cfg0 sys0)).2.1,
    (timer_restored_after_dispatch cfg0 env_spin (os_TaskManager_Initialize cfg0 sys0)).2.1,
    (timer_restored_after_dispatch cfg0 env_spin (os_TaskManager_Initialize cfg0 sys0)).1,
    (timer_restored_after_dispatch cfg0 env0 (os_TaskManager_Initialize cfg0 sys0)).2.2.1⟩

/-! ## CPU load -/

theorem cpu_load_eq (cfg : CONFIG) (env : ENVIRONMENT) (s : SYS) :
    (OS_Execute_cpu_load cfg env s).task_mgr.cpu_load.load
      = (1000 + 65536 - idle_share cfg env s) % 65536 := rfl

theorem idle_share_lt (cfg : CONFIG) (env : ENVIRONMENT) (s : SYS) :
    idle_share cfg env s < 65536 := by
  unfold idle_share
  exact Nat.mod_lt _ (by decide)

theorem idle_share_no_overflow (cfg : CONFIG) (env : ENVIRONMENT) (s : SYS)
    (hN : env.idle_ticks < 2 ^ cfg.ticks_bits)
    (h1 : env.idle_ticks * s.task_mgr.cpu_load.loop_nomblk < 2 ^ cfg.ticks_bits)
    (h2 : env.idle_ticks * s.task_mgr.cpu_load.loop_nomblk * s.task_mgr.cpu_load.load_factor
      < 2 ^ cfg.ticks_bits) :
    idle_share cfg env s
      = ((env.idle_ticks * s.task_mgr.cpu_load.loop_nomblk * s.task_mgr.cpu_load.load_factor)
          >>> 16) % 65536 := by
  unfold idle_share
  rw [Nat.mod_eq_of_lt hN, Nat.mod_eq_of_lt h1, Nat.mod_eq_of_lt h2]

theorem wrap_sub_cast (y : Nat) :
    (((1000 + 65536 - y % 65536) % 65536 : Nat) : Int) = (1000 - (y : Int)) % 65536 := by
  omega

/-- C16. CPU-load formula: for an idle tick count `N` and values
`loop_nomblk`, `load_factor` such that `N`, `N * loop_nomblk` and
`N * loop_nomblk * load_factor` fit the width of the tick accumulator, the
scheduler cycle computes `load = (1000 - ((N * loop_nomblk * load_factor) >>
16))` modulo 2^16; with `load_factor = 65536 * K` this is
`1000 - N * loop_nomblk * K` modulo 2^16, which is the number
`1000 - N * loop_nomblk * K` itself when `N * loop_nomblk * K <= 1000`. -/
theorem cpu_load_formula (cfg : CONFIG) (env : ENVIRONMENT) (s : SYS)
    (hN : env.idle_ticks < 2 ^ cfg.ticks_bits)
    (h1 : env.idle_ticks * s.task_mgr.cpu_load.loop_nomblk < 2 ^ cfg.ticks_bits)
    (h2 : env.idle_ticks * s.task_mgr.cpu_load.loop_nomblk * s.task_mgr.cpu_load.load_factor
      < 2 ^ cfg.ticks_bits) :
    (((OS_Execute_cpu_load cfg env s).task_mgr.cpu_load.load : Nat) : Int)
      = (1000 - ((((env.idle_ticks * s.task_mgr.cpu_load.loop_nomblk
          * s.task_mgr.cpu_load.load_factor) >>> 16) : Nat) : Int)) % 65536 ∧
    (∀ K : Nat, s.task_mgr.cpu_load.load_factor = 65536 * K →
      (((OS_Execute_cpu_load cfg env s).task_mgr.cpu_load.load : Nat) : Int)
        = (1000 - ((env.idle_ticks * s.task_mgr.cpu_load.loop_nomblk * K : Nat) : Int))
          % 65536 ∧
      (env.idle_ticks * s.task_mgr.cpu_load.loop_nomblk * K ≤ 1000 →
        (OS_Execute_cpu_load cfg env s).task_mgr.cpu_load.load
          = 1000 - env.idle_ticks * s.task_mgr.cpu_load.loop_nomblk * K)) := by
  have hl : (((OS_Execute_cpu_load cfg env s).task_mgr.cpu_load.load : Nat) : Int)
      = (1000 - ((((env.idle_ticks * s.task_mgr.cpu_load.loop_nomblk
          * s.task_mgr.cpu_load.load_factor) >>> 16) : Nat) : Int)) % 65536 := by
    rw [cpu_load_eq, idle_share_no_overflow cfg env s hN h1 h2]
    exact wrap_sub_cast _
  refine ⟨hl, ?_⟩
  intro K hK
  have hs : (env.idle_ticks * s.task_mgr.cpu_load.loop_nomblk
      * s.task_mgr.cpu_load.load_factor) >>> 16
      = env.idle_ticks * s.task_mgr.cpu_load.loop_nomblk * K := by
    have e : env.idle_ticks * s.task_mgr.cpu_load.loop_nomblk * (65536 * K)
        = (env.idle_ticks * s.task_mgr.cpu_load.loop_nomblk * K) * 2 ^ 16 := by ring
    rw [hK, Nat.shiftRight_eq_div_pow, e, Nat.mul_div_cancel _ (by positivity)]
  rw [hs] at hl
  refine ⟨hl, ?_⟩
  intro hle
  omega

/-- The load formula at `env0` and the initialised state of `cfg0`: 10 idle
ticks, `loop_nomblk = 4`, `load_factor = 65536 * 1` give the load 960. -/
theorem cpu_load_formula_witness :
    (OS_Execute_cpu_load cfg0 env0 (os_TaskManager_Initialize cfg0 sys0)).task_mgr.cpu_load.load
      = 1000 - 10 * 4 * 1 :=
  ((cpu_load_formula cfg0 env0 (os_TaskManager_Initialize cfg0 sys0) (by decide) (by decide)
    (by decide)).2 1 rfl).2 (by decide)

/-- C17, as stated, fails when the idle share exceeds 1000: with 300 idle
ticks, `loop_nomblk = 4` and `load_factor = 65536` the subtraction
`1000 - 1200` wraps and the load is 65336. -/
theorem load_exceeds_per_mille :
    (OS_Execute_cpu_load cfg0 env_long_idle
      (os_TaskManager_Initialize cfg0 sys0)).task_mgr.cpu_load.load = 65336 ∧
    ¬ ((OS_Execute_cpu_load cfg0 env_long_idle
      (os_TaskManager_Initialize cfg0 sys0)).task_mgr.cpu_load.load ≤ 1000) := by
  constructor
  · decide
  · decide

/-- C17, amended. Load is a per-mille value whenever the idle share is: for
every idle tick count and configured `loop_nomblk`, `load_factor` for which
the 16-bit value `(ticks * loop_nomblk * load_factor) >> 16` subtracted in
line 107 is at most 1000, the load is `1000` minus that value and satisfies
`0 <= load <= 1000`. -/
theorem load_per_mille (cfg : CONFIG) (env : ENVIRONMENT) (s : SYS)
    (h : idle_share cfg env s ≤ 1000) :
    (OS_Execute_cpu_load cfg env s).task_mgr.cpu_load.load = 1000 - idle_share cfg env s ∧
    0 ≤ (OS_Execute_cpu_load cfg env s).task_mgr.cpu_load.load ∧
    (OS_Execute_cpu_load cfg env s).task_mgr.cpu_load.load ≤ 1000 := by
  rw [cpu_load_eq]
  omega

/-- The amended C17 at `env0`: idle share 40, load 960. -/
theorem load_per_mille_witness :
    idle_share cfg0 env0 (os_TaskManager_Initialize cfg0 sys0) ≤ 1000 ∧
    (OS_Execute_cpu_load cfg0 env0
      (os_TaskManager_Initialize cfg0 sys0)).task_mgr.cpu_load.load ≤ 1000 :=
  ⟨by decide, (load_per_mille cfg0 env0 (os_TaskManager_Initialize cfg0 sys0) (by decide)).2.2⟩

/-! ## Shutdown and restarts -/

/-- C18. Shutdown decision: the code after the main loop sets the `sw_reset`
flag, increments the persistent reset counter by one (as a 16-bit counter;
by exactly one below 65535), and issues the warm CPU reset if and only if
the incremented counter is below `TASK_MGR_CPU_RESET_LIMIT`; if the
incremented counter is greater than or equal to the limit it ends in the
endless loop. -/
theorem shutdown_decision (L : Nat) (capture : TRAPLOG → TRAPLOG) (t : TRAPLOG) :
    (OS_Execute_shutdown L capture t).1.sw_reset = true ∧
    (OS_Execute_shutdown L capture t).1.reset_count = ((capture t).reset_count + 1) % 65536 ∧
    ((capture t).reset_count < 65535 →
      (OS_Execute_shutdown L capture t).1.reset_count = (capture t).reset_count + 1) ∧
    ((OS_Execute_shutdown L capture t).2 = SHUTDOWN.CPU_RESET
      ↔ (OS_Execute_shutdown L capture t).1.reset_count < L) ∧
    (L ≤ (OS_Execute_shutdown L capture t).1.reset_count →
      (OS_Execute_shutdown L capture t).2 = SHUTDOWN.STALL) := by
  unfold OS_Execute_shutdown
  split
  · rename_i h
    refine ⟨rfl, rfl, ?_, ?_, ?_⟩
    · intro hlt
      exact Nat.mod_eq_of_lt (by omega)
    · exact ⟨fun _ => h, fun _ => rfl⟩
    · intro hle
      exact absurd h (Nat.not_lt.mpr hle)
  · rename_i h
    refine ⟨rfl, rfl, ?_, ?_, ?_⟩
    · intro hlt
      exact Nat.mod_eq_of_lt (by omega)
    · constructor
      · intro hc; cases hc
      · intro hlt; exact absurd hlt h
    · intro _; rfl

/-- The shutdown with the counter at 2 and the limit 5: counter 3, warm
reset. -/
theorem shutdown_decision_witness :
    (OS_Execute_shutdown 5 id traplog2).1.reset_count = 2 + 1 ∧
    (OS_Execute_shutdown 5 id traplog2).2 = SHUTDOWN.CPU_RESET :=
  ⟨(shutdown_decision 5 id traplog2).2.2.1 (by decide),
    (shutdown_decision 5 id traplog2).2.2.2.1.mpr (by decide)⟩

theorem restarts_spec (L : Nat) (capture : TRAPLOG → TRAPLOG) (hL : L ≤ 65535)
    (hcap : ∀ u : TRAPLOG, (capture u).reset_count = u.reset_count) :
    ∀ (n : Nat) (t : TRAPLOG), t.reset_count < L →
      OS_Execute_restarts L capture n t
        = if n < L - t.reset_count then List.replicate n SHUTDOWN.CPU_RESET
          else List.replicate (L - 1 - t.reset_count) SHUTDOWN.CPU_RESET ++ [SHUTDOWN.STALL] := by
  intro n
  induction n with
  | zero =>
    intro t hc
    have h0 : 0 < L - t.reset_count := by omega
    simp [OS_Execute_restarts, h0]
  | succ n ih =>
    intro t hc
    have hmod : ((capture t).reset_count + 1) % 65536 = t.reset_count + 1 := by
      rw [hcap t]
      exact Nat.mod_eq_of_lt (by omega)
    by_cases h : t.reset_count + 1 < L
    · have hs : OS_Execute_shutdown L capture t
          = ({ capture t with sw_reset := true, reset_count := t.reset_count + 1 },
              SHUTDOWN.CPU_RESET) := by
        unfold OS_Execute_shutdown
        rw [hmod, if_pos h]
      simp only [OS_Execute_restarts, hs]
      rw [ih _ h]
      by_cases h2 : n < L - (t.reset_count + 1)
      · have h3 : n + 1 < L - t.reset_count := by omega
        simp only [h2, h3, if_true, List.replicate_succ]
      · have h3 : ¬ (n + 1 < L - t.reset_count) := by omega
        have h4 : L - 1 - t.reset_count = (L - 1 - (t.reset_count + 1)) + 1 := by omega
        simp only [h2, h3, if_false]
        rw [h4, List.replicate_succ]
        rfl
    · have hs : OS_Execute_shutdown L capture t
          = ({ capture t with sw_reset := true, reset_count := t.reset_count + 1 },
              SHUTDOWN.STALL) := by
        unfold OS_Execute_shutdown
        rw [hmod, if_neg h]
      have h3 : ¬ (n + 1 < L - t.reset_count) := by omega
      have h4 : L - 1 - t.reset_count = 0 := by omega
      simp only [OS_Execute_restarts, hs, h3, if_false, h4, List.replicate_zero, List.nil_append]

/-- C19, as stated, fails for a limit the 16-bit counter cannot reach: with
the limit 65536 and the counter at 65534 the claim allows
`65536 - 1 - 65534 = 1` warm reset before the halt, but the first three
terminations all issue a warm reset (the counter wraps from 65535 to 0). -/
theorem restarts_unbounded_above_counter_range :
    traplog_high.reset_count < 65536 ∧
    65536 - 1 - traplog_high.reset_count = 1 ∧
    OS_Execute_restarts 65536 id 3 traplog_high
      = [SHUTDOWN.CPU_RESET, SHUTDOWN.CPU_RESET, SHUTDOWN.CPU_RESET] := by
  refine ⟨by decide, by decide, by decide⟩

/-- C19, amended. Bounded restarts: for every limit `L` with
`1 <= L <= 65535` and a persistent reset counter starting at `c < L`, if
only the shutdown sequence writes the counter, then exactly `L - 1 - c`
consecutive terminations issue a warm reset and the next one halts, however
many terminations are allowed for; so at most `L - 1 - c` warm resets are
ever issued, at most `L - 1` from `c = 0`. -/
theorem bounded_restarts (L : Nat) (capture : TRAPLOG → TRAPLOG) (t : TRAPLOG)
    (hL1 : 1 ≤ L) (hL : L ≤ 65535) (hc : t.reset_count < L)
    (hcap : ∀ u : TRAPLOG, (capture u).reset_count = u.reset_count) :
    (∀ n : Nat, L - t.reset_count ≤ n →
      OS_Execute_restarts L capture n t
        = List.replicate (L - 1 - t.reset_count) SHUTDOWN.CPU_RESET ++ [SHUTDOWN.STALL]) ∧
    (∀ n : Nat,
      (OS_Execute_restarts L capture n t).count SHUTDOWN.CPU_RESET ≤ L - 1 - t.reset_count) ∧
    (t.reset_count = 0 →
      ∀ n : Nat, (OS_Execute_restarts L capture n t).count SHUTDOWN.CPU_RESET ≤ L - 1) := by
  have hspec := restarts_spec L capture hL hcap
  have hcount : ∀ n : Nat,
      (OS_Execute_restarts L capture n t).count SHUTDOWN.CPU_RESET ≤ L - 1 - t.reset_count := by
    intro n
    rw [hspec n t hc]
    by_cases h : n < L - t.reset_count
    · simp only [h, if_true, List.count_replicate_self]
      omega
    · simp only [h, if_false, List.count_append, List.count_replicate_self]
      simp
  refine ⟨?_, hcount, ?_⟩
  · intro n hn
    rw [hspec n t hc, if_neg (by omega)]
  · intro h0 n
    have := hcount n
    omega

/-- The amended C19 with the limit 5 and the counter at 2: two warm resets,
then the halt. -/
theorem bounded_restarts_witness :
    OS_Execute_restarts 5 id 10 traplog2
      = List.replicate (5 - 1 - traplog2.reset_count) SHUTDOWN.CPU_RESET ++ [SHUTDOWN.STALL] :=
  (bounded_restarts 5 id traplog2 (by decide) (by decide) (by decide) (fun _ => rfl)).1 10
    (by decide)

/-! ## Component-check bit -/

theorem process_ret_bit (cfg : CONFIG) (env : ENVIRONMENT) (s : SYS) :
    (os_ProcessTaskQueue cfg env s).ret = 0 ∨ (os_ProcessTaskQueue cfg env s).ret = 1 := by
  have h : (os_ProcessTaskQueue cfg env s).ret
      = (task_time env.tmr_if (at_jump_target cfg env s).sys.task_mgr.os_timer.master_period
          (env.t_start % 65536) (env.t_stop % 65536)).2 := rfl
  rw [h]
  unfold task_time
  split_ifs <;> simp

theorem cycle_after_component_check (cfg : CONFIG) (env : ENVIRONMENT) (fres : Nat) (s : SYS) :
    (OS_Execute_cycle cfg env fres s).sys
      = (OS_Execute_advance cfg env
          ((fres &&& (os_ProcessTaskQueue cfg env (OS_Execute_cpu_load cfg env s)).ret)
            &&& ((env.APPLICATION_CaptureSystemStatus
              (os_ProcessTaskQueue cfg env (OS_Execute_cpu_load cfg env s)).sys).2 % 65536)
            &&& ((env.exec_FaultCheckAll (at_component_check cfg env fres s)).2 % 65536))
          (env.exec_FaultCheckAll (at_component_check cfg env fres s)).1).sys := rfl

/-- C20, as stated, fails in a cycle that follows a failed one. Cycle 1 of
`cfg0` runs with equal counter reads, so the dispatch returns 0 and clears
`fres`; in cycle 2 the dispatch and the status capture both return 1, yet
the bit `os_component_check` written before the fault scan is 0. -/
theorem component_check_sticky :
    (os_ProcessTaskQueue cfg0 env0 (OS_Execute_cpu_load cfg0 env0
      (OS_Execute_cycle cfg0 env_equal_reads 1
        (os_TaskManager_Initialize cfg0 sys0)).sys)).ret = 1 ∧
    (env0.APPLICATION_CaptureSystemStatus
      (os_ProcessTaskQueue cfg0 env0 (OS_Execute_cpu_load cfg0 env0
        (OS_Execute_cycle cfg0 env_equal_reads 1
          (os_TaskManager_Initialize cfg0 sys0)).sys)).sys).2 = 1 ∧
    (at_component_check cfg0 env0
      (OS_Execute_cycle cfg0 env_equal_reads 1 (os_TaskManager_Initialize cfg0 sys0)).ret
      (OS_Execute_cycle cfg0 env_equal_reads 1
        (os_TaskManager_Initialize cfg0 sys0)).sys).task_mgr.status.os_component_check
      = false := by
  refine ⟨by decide, rfl, by decide⟩

/-- C20, amended. Component-check bit: in every scheduler cycle the bit
`os_component_check` written before the fault scan is 1 exactly when bit 0
of the accumulator `fres` is still 1 at the start of the cycle,
`os_ProcessTaskQueue` returned 1 and the application status capture returned
a value with bit 0 set; it is 0 exactly when `fres` enters the cycle with
bit 0 clear, or the dispatch returned 0, or the status capture returned a
value with bit 0 clear. The fault scan and the queue advance of the cycle
start from the state with that bit. -/
theorem component_check_bit (cfg : CONFIG) (env : ENVIRONMENT) (fres : Nat) (s : SYS) :
    ((at_component_check cfg env fres s).task_mgr.status.os_component_check = true ↔
      fres % 2 = 1 ∧
      (os_ProcessTaskQueue cfg env (OS_Execute_cpu_load cfg env s)).ret = 1 ∧
      (env.APPLICATION_CaptureSystemStatus
        (os_ProcessTaskQueue cfg env (OS_Execute_cpu_load cfg env s)).sys).2 % 2 = 1) ∧
    ((at_component_check cfg env fres s).task_mgr.status.os_component_check = false ↔
      fres % 2 = 0 ∨
      (os_ProcessTaskQueue cfg env (OS_Execute_cpu_load cfg env s)).ret = 0 ∨
      (env.APPLICATION_CaptureSystemStatus
        (os_ProcessTaskQueue cfg env (OS_Execute_cpu_load cfg env s)).sys).2 % 2 = 0) ∧
    (OS_Execute_cycle cfg env fres s).sys
      = (OS_Execute_advance cfg env
          ((fres &&& (os_ProcessTaskQueue cfg env (OS_Execute_cpu_load cfg env s)).ret)
            &&& ((env.APPLICATION_CaptureSystemStatus
              (os_ProcessTaskQueue cfg env (OS_Execute_cpu_load cfg env s)).sys).2 % 65536)
            &&& ((env.exec_FaultCheckAll (at_component_check cfg env fres s)).2 % 65536))
          (env.exec_FaultCheckAll (at_component_check cfg env fres s)).1).sys := by
  have hbit : (at_component_check cfg env fres s).task_mgr.status.os_component_check
      = decide (((fres &&& (os_ProcessTaskQueue cfg env (OS_Execute_cpu_load cfg env s)).ret)
        &&& ((env.APPLICATION_CaptureSystemStatus
          (os_ProcessTaskQueue cfg env (OS_Execute_cpu_load cfg env s)).sys).2 % 65536))
        % 2 = 1) := rfl
  have hp := process_ret_bit cfg env (OS_Execute_cpu_load cfg env s)
  have hmod : ∀ x : Nat, x % 65536 % 2 = x % 2 := fun x => by omega
  have key : (((fres &&& (os_ProcessTaskQueue cfg env (OS_Execute_cpu_load cfg env s)).ret)
        &&& ((env.APPLICATION_CaptureSystemStatus
          (os_ProcessTaskQueue cfg env (OS_Execute_cpu_load cfg env s)).sys).2 % 65536))
        % 2 = 1) ↔
      (fres % 2 = 1 ∧
      (os_ProcessTaskQueue cfg env (OS_Execute_cpu_load cfg env s)).ret = 1 ∧
      (env.APPLICATION_CaptureSystemStatus
        (os_ProcessTaskQueue cfg env (OS_Execute_cpu_load cfg env s)).sys).2 % 2 = 1) := by
    rw [Nat.and_mod_two_eq_one, Nat.and_mod_two_eq_one, hmod]
    constructor
    · rintro ⟨⟨a, b⟩, c⟩
      exact ⟨a, by omega, c⟩
    · rintro ⟨a, b, c⟩
      exact ⟨⟨a, by omega⟩, c⟩
  refine ⟨?_, ?_, cycle_after_component_check cfg env fres s⟩
  · rw [hbit, decide_eq_true_iff]
    exact key
  · rw [hbit, decide_eq_false_iff_not, key]
    constructor
    · intro h
      by_contra hn
      apply h
      refine ⟨by omega, by omega, by omega⟩
    · intro h hn
      omega

/-- The amended C20 in the first cycle of `cfg0` with `env0`: `fres` is 1,
both steps return 1, the bit is set. -/
theorem component_check_bit_witness :
    (at_component_check cfg0 env0 1
      (os_TaskManager_Initialize cfg0 sys0)).task_mgr.status.os_component_check = true :=
  (component_check_bit cfg0 env0 1 (os_TaskManager_Initialize cfg0 sys0)).1.mpr
    ⟨by decide, by decide, by decide⟩

/-! ## Stable modes -/

/-- C27. Stable modes: when `pre_op_mode = op_mode` and the mode is IDLE,
RUN, FAULT or STANDBY, `os_CheckOperationModeStatus` returns 1, calls no
switch-over function and changes nothing but `queue_switch`, which it
clears: both mode words, the member `task_queue` (active queue, size,
ubound) and the whole task table are as on entry. -/
theorem stable_mode_check (cfg : CONFIG) (env : ENVIRONMENT) (s : SYS)
    (hM : s.task_mgr.op_mode = OP_MODE.IDLE ∨ s.task_mgr.op_mode = OP_MODE.RUN ∨
      s.task_mgr.op_mode = OP_MODE.FAULT ∨ s.task_mgr.op_mode = OP_MODE.STANDBY)
    (hp : s.task_mgr.pre_op_mode = s.task_mgr.op_mode) :
    (os_CheckOperationModeStatus cfg env s).sys
      = { s with task_mgr := { s.task_mgr with
            status := { s.task_mgr.status with queue_switch := false } } } ∧
    (os_CheckOperationModeStatus cfg env s).ret = 1 ∧
    (os_CheckOperationModeStatus cfg env s).trace = [] ∧
    (os_CheckOperationModeStatus cfg env s).sys.task_mgr.op_mode = s.task_mgr.op_mode ∧
    (os_CheckOperationModeStatus cfg env s).sys.task_mgr.pre_op_mode = s.task_mgr.pre_op_mode ∧
    (os_CheckOperationModeStatus cfg env s).sys.task_mgr.task_queue = s.task_mgr.task_queue ∧
    (os_CheckOperationModeStatus cfg env s).sys.tasks = s.tasks ∧
    (os_CheckOperationModeStatus cfg env s).sys.task_mgr.status.queue_switch = false := by
  have hst : os_CheckOperationModeStatus_startup s = s := by
    unfold os_CheckOperationModeStatus_startup
    rcases hM with h | h | h | h <;> rw [h] at hp <;> simp [h, hp]
  have hr : os_CheckOperationModeStatus cfg env s
      = { sys := { s with task_mgr := { s.task_mgr with
            status := { s.task_mgr.status with queue_switch := false } } }
          ret := 1
          trace := [] } := by
    unfold os_CheckOperationModeStatus
    dsimp only
    rw [hst, if_neg (by simp [hp])]
  rw [hr]
  exact ⟨rfl, rfl, rfl, rfl, rfl, rfl, rfl, rfl⟩

/-- A mode check at the end of the RUN queue of `cfg0`, nothing requested. -/
theorem stable_mode_check_witness :
    (os_CheckOperationModeStatus cfg0 env0 sys_run_end).trace = [] ∧
    (os_CheckOperationModeStatus cfg0 env0 sys_run_end).sys.task_mgr.task_queue
      = sys_run_end.task_mgr.task_queue :=
  have h := stable_mode_check cfg0 env0 sys_run_end (Or.inr (Or.inl rfl)) rfl
  ⟨h.2.2.1, h.2.2.2.2.2.1⟩

/-! ## Task id after a rollover -/

/-- C30. Task id after rollover, evaluated where it fails. With the queues
of `cfg0` (RUN queue: ids 4, 5, 6, 7, 8; task table ids equal to the index),
the advance step that switches to RUN and the advance step that rolls over
at the end of the RUN queue both end with `active_index = 0` and
`active_queue[0] = 4`, but with `active_task_id = 0`, the `id` field of
`tasks[0]`; the mode check inside the switching step had set
`active_task_id = 4`. -/
theorem rollover_task_id_from_task_table :
    (OS_Execute_advance cfg0 env0 1 sys_run_request).sys.task_mgr.task_queue.active_index = 0 ∧
    (OS_Execute_advance cfg0 env0 1 sys_run_request).sys.task_mgr.task_queue.active_queue 0
      = 4 ∧
    (OS_Execute_advance cfg0 env0 1 sys_run_request).sys.task_mgr.task_queue.active_task_id
      = 0 ∧
    (os_CheckOperationModeStatus cfg0 env0 sys_run_request).sys.task_mgr.task_queue.active_task_id
      = 4 ∧
    (OS_Execute_advance cfg0 env0 1 sys_run_end).trace = [EVENT.mode_check] ∧
    (OS_Execute_advance cfg0 env0 1 sys_run_end).sys.task_mgr.task_queue.active_index = 0 ∧
    (OS_Execute_advance cfg0 env0 1 sys_run_end).sys.task_mgr.task_queue.active_queue 0 = 4 ∧
    (OS_Execute_advance cfg0 env0 1 sys_run_end).sys.task_mgr.task_queue.active_task_id = 0 := by
  refine ⟨rfl, rfl, rfl, rfl, rfl, rfl, rfl, rfl⟩

/-! ## Elapsed time after a timer overrun -/

/-- C29. Overrun time, evaluated where it fails. With the master period
7000, the counter read 6900 before the task and 150 after it, and the timer
flag pending (one wrap), the ticks elapsed are `(7000 - 6900) + 150 = 250`,
but `os_ProcessTaskQueue` records `(7000 - 150) + 6900 = 13750`. -/
theorem overrun_time_not_elapsed :
    env_overrun.tmr_if = true ∧ env_overrun.t_start = 6900 ∧ env_overrun.t_stop = 150 ∧
    (os_ProcessTaskQueue cfg0 env_overrun
      (os_TaskManager_Initialize cfg0 sys0)).sys.task_mgr.os_timer.master_period = 7000 ∧
    (os_ProcessTaskQueue cfg0 env_overrun
      (os_TaskManager_Initialize cfg0 sys0)).sys.task_mgr.task_queue.active_task_time = 13750 ∧
    ((os_ProcessTaskQueue cfg0 env_overrun (os_TaskManager_Initialize cfg0 sys0)).sys.tasks
      (os_ProcessTaskQueue cfg0 env_overrun
        (os_TaskManager_Initialize cfg0 sys0)).sys.task_mgr.task_queue.active_task_id).task_period
      = 13750 ∧
    min 65535 ((7000 - 6900) + 150) = 250 := by
  refine ⟨rfl, rfl, rfl, rfl, by decide, by decide, by decide⟩

/-! ## Rescue safety -/

/-- C25. Rescue safety: `os_ProcessTaskQueue` captures `w14`, `w15` into
`rescue_state` right before the task call; when the call is ended by the
rescue interrupt (taken in state `s1`, the task not having written
`rescue_state`), the handler leaves in `w14` and `w15` the captured values,
the function continues at the jump target in the state the handler left,
with `retval` still 0, and returns with these `w14`, `w15` and with the
captured `SR`. -/
theorem rescue_safety (cfg : CONFIG) (env : ENVIRONMENT) (s s1 : SYS)
    (entry : SYS → TASK_RESULT)
    (hen : ((os_ProcessTaskQueue_arm cfg s).tasks
      (os_ProcessTaskQueue_arm cfg s).task_mgr.task_queue.active_task_id).enabled = true)
    (htab : env.Task_Table (os_ProcessTaskQueue_arm cfg s).task_mgr.task_queue.active_task_id
      = some entry)
    (hto : entry (os_ProcessTaskQueue_arm cfg s) = TASK_RESULT.timed_out s1)
    (hrs : s1.rescue_state = (os_ProcessTaskQueue_arm cfg s).rescue_state) :
    (os_ProcessTaskQueue_arm cfg s).rescue_state.wreg14 = s.cpu.W14 ∧
    (os_ProcessTaskQueue_arm cfg s).rescue_state.wreg15 = s.cpu.W15 ∧
    (os_ProcessTaskQueue_arm cfg s).rescue_state.cpu_stat = s.cpu.SR ∧
    (_RescueTimer_Interrupt s1).cpu.W14 = s.cpu.W14 ∧
    (_RescueTimer_Interrupt s1).cpu.W15 = s.cpu.W15 ∧
    (at_jump_target cfg env s).sys = _RescueTimer_Interrupt s1 ∧
    (at_jump_target cfg env s).ret = 0 ∧
    (os_ProcessTaskQueue cfg env s).sys
      = (os_ProcessTaskQueue_measure env (_RescueTimer_Interrupt s1) 0).1 ∧
    (os_ProcessTaskQueue cfg env s).sys.cpu.W14 = s.cpu.W14 ∧
    (os_ProcessTaskQueue cfg env s).sys.cpu.W15 = s.cpu.W15 ∧
    (os_ProcessTaskQueue cfg env s).sys.cpu.SR = s.cpu.SR := by
  have hc := call_timed_out env (os_ProcessTaskQueue_arm cfg s) entry s1 hen htab hto
  have h14 : (_RescueTimer_Interrupt s1).cpu.W14 = s.cpu.W14 := by
    show s1.rescue_state.wreg14 = s.cpu.W14
    rw [hrs]; rfl
  have h15 : (_RescueTimer_Interrupt s1).cpu.W15 = s.cpu.W15 := by
    show s1.rescue_state.wreg15 = s.cpu.W15
    rw [hrs]; rfl
  have hsys : (os_ProcessTaskQueue cfg env s).sys
      = (os_ProcessTaskQueue_measure env (_RescueTimer_Interrupt s1) 0).1 := by
    show (os_ProcessTaskQueue_measure env
      (os_ProcessTaskQueue_call env (os_ProcessTaskQueue_arm cfg s)).sys
      (os_ProcessTaskQueue_call env (os_ProcessTaskQueue_arm cfg s)).ret).1 = _
    rw [hc.1, hc.2]
  refine ⟨rfl, rfl, rfl, h14, h15, hc.1, hc.2, hsys, ?_, ?_, ?_⟩
  · rw [hsys]; exact h14
  · rw [hsys]; exact h15
  · rw [hsys]
    show s1.rescue_state.cpu_stat = s.cpu.SR
    rw [hrs]; rfl

/-- A state like the initialised state of `cfg0` with the frame pointer at
2048, the stack pointer at 2080 and `SR` at 3. -/
theorem rescue_safety_witness :
    (os_ProcessTaskQueue cfg0 env_spin
      { os_TaskManager_Initialize cfg0 sys0 with
        cpu := { W14 := 2048, W15 := 2080, SR := 3, TMR_PERIOD := 7000,
                 TMR_IE := false } }).sys.cpu.W14 = 2048 ∧
    (os_ProcessTaskQueue cfg0 env_spin
      { os_TaskManager_Initialize cfg0 sys0 with
        cpu := { W14 := 2048, W15 := 2080, SR := 3, TMR_PERIOD := 7000,
                 TMR_IE := false } }).sys.cpu.W15 = 2080 :=
  have h := rescue_safety cfg0 env_spin
    { os_TaskManager_Initialize cfg0 sys0 with
      cpu := { W14 := 2048, W15 := 2080, SR := 3, TMR_PERIOD := 7000, TMR_IE := false } }
    (os_ProcessTaskQueue_arm cfg0
      { os_TaskManager_Initialize cfg0 sys0 with
        cpu := { W14 := 2048, W15 := 2080, SR := 3, TMR_PERIOD := 7000, TMR_IE := false } })
    (fun s => TASK_RESULT.timed_out s) rfl rfl rfl rfl
  ⟨h.2.2.2.2.2.2.2.2.1, h.2.2.2.2.2.2.2.2.2.1⟩

/-! ## Load maximum buffer -/

theorem or_ge_left (a b : Nat) : a ≤ a ||| b :=
  Nat.le_of_testBit (fun i h => by rw [Nat.testBit_or, h]; rfl)

theorem or_ge_right (a b : Nat) : b ≤ a ||| b :=
  Nat.le_of_testBit (fun i h => by rw [Nat.testBit_or, h, Bool.or_true])

theorem call_load_max_buffer (env : ENVIRONMENT) (s : SYS) (hk : keeps_load_max_buffer env) :
    (os_ProcessTaskQueue_call env s).sys.task_mgr.cpu_load.load_max_buffer
      = s.task_mgr.cpu_load.load_max_buffer := by
  unfold os_ProcessTaskQueue_call
  split
  · split
    · rename_i entry ht
      have h := hk.1 _ entry s ht
      split
      · rename_i s1 retval hr
        rw [hr] at h
        exact h
      · rename_i s1 hr
        rw [hr] at h
        exact h
    · rfl
  · rfl

theorem check_load_max_buffer (cfg : CONFIG) (env : ENVIRONMENT) (s : SYS)
    (hk : keeps_load_max_buffer env) :
    (os_CheckOperationModeStatus cfg env s).sys.task_mgr.cpu_load.load_max_buffer
      = s.task_mgr.cpu_load.load_max_buffer := by
  have h1 : (os_CheckOperationModeStatus_startup s).task_mgr.cpu_load
      = s.task_mgr.cpu_load := by
    unfold os_CheckOperationModeStatus_startup
    split_ifs <;> rfl
  have h2 : ∀ u : SYS, (os_CheckOperationModeStatus_switch cfg u).task_mgr.cpu_load
      = u.task_mgr.cpu_load := by
    intro u
    unfold os_CheckOperationModeStatus_switch
    split <;> rfl
  have h3 : ∀ u : SYS,
      (os_CheckOperationModeStatus_finish env u).sys.task_mgr.cpu_load.load_max_buffer
        = u.task_mgr.cpu_load.load_max_buffer := by
    intro u
    unfold os_CheckOperationModeStatus_finish
    cases u.task_mgr.op_mode_switch_over_function with
    | none => rfl
    | some f => exact hk.2.1 f u
  unfold os_CheckOperationModeStatus
  dsimp only
  split
  · rw [h3]
    show (os_CheckOperationModeStatus_switch cfg
      (os_CheckOperationModeStatus_startup s)).task_mgr.cpu_load.load_max_buffer = _
    rw [h2, h1]
  · show (os_CheckOperationModeStatus_startup s).task_mgr.cpu_load.load_max_buffer = _
    rw [h1]

theorem advance_load_max_buffer (cfg : CONFIG) (env : ENVIRONMENT) (fres : Nat) (s : SYS)
    (hk : keeps_load_max_buffer env) :
    (OS_Execute_advance cfg env fres s).sys.task_mgr.cpu_load.load_max_buffer
      = s.task_mgr.cpu_load.load_max_buffer := by
  unfold OS_Execute_advance
  split
  · exact check_load_max_buffer cfg env s hk
  · rfl

theorem cycle_load_max_buffer (cfg : CONFIG) (env : ENVIRONMENT) (fres : Nat) (s : SYS)
    (hk : keeps_load_max_buffer env) :
    (OS_Execute_cycle cfg env fres s).sys.task_mgr.cpu_load.load_max_buffer
      = (OS_Execute_cpu_load cfg env s).task_mgr.cpu_load.load_max_buffer := by
  unfold OS_Execute_cycle OS_Execute_tail
  dsimp only
  rw [advance_load_max_buffer _ _ _ _ hk, hk.2.2.2]
  show (env.APPLICATION_CaptureSystemStatus _).1.task_mgr.cpu_load.load_max_buffer = _
  rw [hk.2.2.1]
  show (os_ProcessTaskQueue_call env
    (os_ProcessTaskQueue_arm cfg (OS_Execute_cpu_load cfg env s))).sys.task_mgr.cpu_load.load_max_buffer
    = _
  rw [call_load_max_buffer _ _ hk]
  rfl

/-- C28. Sticky OR accumulation: in every scheduler cycle `load_max_buffer`
becomes the bitwise OR of its old value and the load of the cycle; every
bit set before is set afterwards, and the new value is greater than or equal
to the old value and to the load. The rest of the cycle does not write it
(the code outside the core not writing it either), so this is its value at
the end of the cycle. -/
theorem load_max_buffer_accumulates (cfg : CONFIG) (env : ENVIRONMENT) (fres : Nat) (s : SYS) :
    (OS_Execute_cpu_load cfg env s).task_mgr.cpu_load.load_max_buffer
      = s.task_mgr.cpu_load.load_max_buffer
        ||| (OS_Execute_cpu_load cfg env s).task_mgr.cpu_load.load ∧
    (∀ i : Nat, s.task_mgr.cpu_load.load_max_buffer.testBit i = true →
      (OS_Execute_cpu_load cfg env s).task_mgr.cpu_load.load_max_buffer.testBit i = true) ∧
    s.task_mgr.cpu_load.load_max_buffer
      ≤ (OS_Execute_cpu_load cfg env s).task_mgr.cpu_load.load_max_buffer ∧
    (OS_Execute_cpu_load cfg env s).task_mgr.cpu_load.load
      ≤ (OS_Execute_cpu_load cfg env s).task_mgr.cpu_load.load_max_buffer ∧
    (keeps_load_max_buffer env →
      (OS_Execute_cycle cfg env fres s).sys.task_mgr.cpu_load.load_max_buffer
        = s.task_mgr.cpu_load.load_max_buffer
          ||| (OS_Execute_cpu_load cfg env s).task_mgr.cpu_load.load ∧
      s.task_mgr.cpu_load.load_max_buffer
        ≤ (OS_Execute_cycle cfg env fres s).sys.task_mgr.cpu_load.load_max_buffer) := by
  have h1 : (OS_Execute_cpu_load cfg env s).task_mgr.cpu_load.load_max_buffer
      = s.task_mgr.cpu_load.load_max_buffer
        ||| (OS_Execute_cpu_load cfg env s).task_mgr.cpu_load.load := rfl
  refine ⟨h1, ?_, ?_, ?_, ?_⟩
  · intro i hi
    rw [h1, Nat.testBit_or, hi]
    rfl
  · rw [h1]; exact or_ge_left _ _
  · rw [h1]; exact or_ge_right _ _
  · intro hk
    rw [cycle_load_max_buffer cfg env fres s hk, h1]
    exact ⟨rfl, or_ge_left _ _⟩

theorem keeps_load_max_buffer_env0 : keeps_load_max_buffer env0 := by
  refine ⟨?_, fun _ _ => rfl, fun _ => rfl, fun _ => rfl⟩
  intro id entry s ht
  have he : entry = fun s => TASK_RESULT.returned s 1 := by
    simp only [env0, Option.some.injEq] at ht
    exact ht.symm
  subst he
  rfl

/-- The accumulation over the first cycle of `cfg0` with `env0`: the buffer
0 takes the load 960. -/
theorem load_max_buffer_accumulates_witness :
    (OS_Execute_cycle cfg0 env0 1
      (os_TaskManager_Initialize cfg0 sys0)).sys.task_mgr.cpu_load.load_max_buffer
      = (os_TaskManager_Initialize cfg0 sys0).task_mgr.cpu_load.load_max_buffer
        ||| (OS_Execute_cpu_load cfg0 env0
          (os_TaskManager_Initialize cfg0 sys0)).task_mgr.cpu_load.load :=
  ((load_max_buffer_accumulates cfg0 env0 1 (os_TaskManager_Initialize cfg0 sys0)).2.2.2.2
    keeps_load_max_buffer_env0).1

/-! ## One queue element per cycle -/

theorem cycle_eq_advance (cfg : CONFIG) (env : ENVIRONMENT) (fres : Nat) (s : SYS) :
    ∃ fres3 : Nat,
      (OS_Execute_cycle cfg env fres s).sys
        = (OS_Execute_advance cfg env fres3 (before_advance cfg env fres s)).sys ∧
      (OS_Execute_cycle cfg env fres s).trace
        = (os_ProcessTaskQueue cfg env (OS_Execute_cpu_load cfg env s)).trace
          ++ (OS_Execute_advance cfg env fres3 (before_advance cfg env fres s)).trace :=
  ⟨_, rfl, rfl⟩

theorem mask_default (x : Nat) : (x % 65536) &&& FLTOBJ_BIT_MASK_DEFAULT = x % 65536 := by
  have h : FLTOBJ_BIT_MASK_DEFAULT = 2 ^ 16 - 1 := rfl
  rw [h, Nat.and_pow_two_sub_one_eq_mod]
  exact Nat.mod_mod _ _

theorem call_ret_lt (env : ENVIRONMENT) (a : SYS) :
    (os_ProcessTaskQueue_call env a).ret < 65536 := by
  unfold os_ProcessTaskQueue_call
  split
  · split
    · split
      · exact Nat.mod_lt _ (by decide)
      · show 0 < 65536
        decide
    · show 0 < 65536
      decide
  · show 0 < 65536
    decide

theorem task_execution_trips (fc : FAULT_CONFIG) (traplog_status_value : Nat) (s : SYS) :
    object_trips (TaskExecutionFaultObject_Initialize fc).1
      (source_value fc traplog_status_value s)
      = decide (s.task_mgr.task_queue.active_retval % 65536 ≠ 1) := by
  show decide ((s.task_mgr.task_queue.active_retval % 65536) &&& FLTOBJ_BIT_MASK_DEFAULT ≠ 1) = _
  rw [mask_default]

theorem task_execution_resets (fc : FAULT_CONFIG) (traplog_status_value : Nat) (s : SYS) :
    object_resets (TaskExecutionFaultObject_Initialize fc).1
      (source_value fc traplog_status_value s)
      = decide (s.task_mgr.task_queue.active_retval % 65536 = 1) := by
  show decide ((s.task_mgr.task_queue.active_retval % 65536) &&& FLTOBJ_BIT_MASK_DEFAULT = 1) = _
  rw [mask_default]

/-- C21, as stated, fails for a nonzero status other than 1. In the first
cycle of `cfg0` the task returns 2; `os_ProcessTaskQueue` records
`active_retval = 2`, and the trip condition of the object configured by
`TaskExecutionFaultObject_Initialize` (NOT_EQUAL, trip level 1) is true for
it. -/
theorem nonzero_status_trips :
    (os_ProcessTaskQueue cfg0 env_returns_two
      (os_TaskManager_Initialize cfg0 sys0)).sys.task_mgr.task_queue.active_retval = 2 ∧
    object_trips (TaskExecutionFaultObject_Initialize fc0).1
      (source_value fc0 0 (os_ProcessTaskQueue cfg0 env_returns_two
        (os_TaskManager_Initialize cfg0 sys0)).sys) = true := by
  refine ⟨rfl, ?_⟩
  rw [task_execution_trips]
  rfl

/-- C21, amended. The object configured by `TaskExecutionFaultObject_Initialize`
observes `task_mgr.task_queue.active_retval` with all 16 bits, compares
NOT_EQUAL against the trip level 1 and the reset level 1. Under the
comparison table its trip condition is true exactly when the recorded
return value differs from 1, so for 0 and for every other value but 1, and
its reset condition is true exactly when the value is 1. After
`os_ProcessTaskQueue` the recorded value is the local `retval` at the jump
target, so the object trips exactly when that is not 1. -/
theorem task_failure_trips_unless_one (fc : FAULT_CONFIG) (traplog_status_value : Nat) :
    (TaskExecutionFaultObject_Initialize fc).1.criteria.source_object
      = some SOURCE_OBJECT.task_queue_active_retval ∧
    (TaskExecutionFaultObject_Initialize fc).1.criteria.source_bit_mask = 65535 ∧
    (TaskExecutionFaultObject_Initialize fc).1.criteria.compare_type
      = FLTOBJ_COMPARE_TYPE.FAULT_LEVEL_NOT_EQUAL ∧
    (TaskExecutionFaultObject_Initialize fc).1.criteria.trip_level = 1 ∧
    (TaskExecutionFaultObject_Initialize fc).1.criteria.reset_level = 1 ∧
    (∀ s : SYS, s.task_mgr.task_queue.active_retval < 65536 →
      ((object_trips (TaskExecutionFaultObject_Initialize fc).1
          (source_value fc traplog_status_value s) = true
        ↔ s.task_mgr.task_queue.active_retval ≠ 1) ∧
       (object_resets (TaskExecutionFaultObject_Initialize fc).1
          (source_value fc traplog_status_value s) = true
        ↔ s.task_mgr.task_queue.active_retval = 1))) ∧
    (∀ s : SYS, s.task_mgr.task_queue.active_retval = 0 →
      object_trips (TaskExecutionFaultObject_Initialize fc).1
        (source_value fc traplog_status_value s) = true) ∧
    (∀ (cfg : CONFIG) (env : ENVIRONMENT) (s : SYS),
      (os_ProcessTaskQueue cfg env s).sys.task_mgr.task_queue.active_retval
        = (at_jump_target cfg env s).ret ∧
      (object_trips (TaskExecutionFaultObject_Initialize fc).1
          (source_value fc traplog_status_value (os_ProcessTaskQueue cfg env s).sys) = true
        ↔ (at_jump_target cfg env s).ret ≠ 1)) := by
  refine ⟨rfl, rfl, rfl, rfl, rfl, ?_, ?_, ?_⟩
  · intro s hs
    rw [task_execution_trips, task_execution_resets, Nat.mod_eq_of_lt hs]
    simp
  · intro s hs
    rw [task_execution_trips, hs]
    rfl
  · intro cfg env s
    have hr : (os_ProcessTaskQueue cfg env s).sys.task_mgr.task_queue.active_retval
        = (at_jump_target cfg env s).ret := rfl
    have hlt : (at_jump_target cfg env s).ret < 65536 :=
      call_ret_lt env (os_ProcessTaskQueue_arm cfg s)
    refine ⟨hr, ?_⟩
    rw [task_execution_trips, hr, Nat.mod_eq_of_lt hlt]
    simp

/-! ## The fault object of the component check -/

theorem status_word_selects (st : TASK_MGR_STATUS) :
    (status_word st % 65536) &&& 32 = if st.os_component_check then 32 else 0 := by
  obtain ⟨a, b, c, d, e, f⟩ := st
  cases a <;> cases b <;> cases c <;> cases d <;> cases e <;> cases f <;> rfl

theorem os_component_trips (fc : FAULT_CONFIG) (traplog_status_value : Nat) (s : SYS) :
    object_trips (OSComponentFailureFaultObject_Initialize fc).1
      (source_value fc traplog_status_value s)
      = decide ((fc.status_value s.task_mgr.status % 65536)
          &&& (fc.EXEC_STAT_OS_COMP_CHECK % 65536) ≠ 0) := rfl

theorem os_component_resets (fc : FAULT_CONFIG) (traplog_status_value : Nat) (s : SYS) :
    object_resets (OSComponentFailureFaultObject_Initialize fc).1
      (source_value fc traplog_status_value s)
      = decide ((fc.status_value s.task_mgr.status % 65536)
          &&& (fc.EXEC_STAT_OS_COMP_CHECK % 65536) = 0) := rfl

theorem os_component_trips_fc0 (traplog_status_value : Nat) (s : SYS) :
    object_trips (OSComponentFailureFaultObject_Initialize fc0).1
      (source_value fc0 traplog_status_value s) = s.task_mgr.status.os_component_check := by
  rw [os_component_trips]
  have h := status_word_selects s.task_mgr.status
  show decide ((status_word s.task_mgr.status % 65536) &&& 32 ≠ 0) = _
  rw [h]
  cases s.task_mgr.status.os_component_check <;> rfl

/-- C22, evaluated where it fails. In the first cycle of `cfg0` with `env0`
the dispatch and the status capture both return 1, line 141 writes
`os_component_check = 1`, and the trip condition of the object configured
by `OSComponentFailureFaultObject_Initialize` (BOOLEAN on the bit selected
by `EXEC_STAT_OS_COMP_CHECK`) is true although no step failed. With a
status capture that returns 0 the bit is written as 0, the trip condition
is false and the reset condition is true although a step failed. -/
theorem os_component_failure_trips_on_success :
    (os_ProcessTaskQueue cfg0 env0
      (OS_Execute_cpu_load cfg0 env0 (os_TaskManager_Initialize cfg0 sys0))).ret = 1 ∧
    (env0.APPLICATION_CaptureSystemStatus (os_ProcessTaskQueue cfg0 env0
      (OS_Execute_cpu_load cfg0 env0 (os_TaskManager_Initialize cfg0 sys0))).sys).2 = 1 ∧
    (at_component_check cfg0 env0 1
      (os_TaskManager_Initialize cfg0 sys0)).task_mgr.status.os_component_check = true ∧
    object_trips (OSComponentFailureFaultObject_Initialize fc0).1
      (source_value fc0 0 (at_component_check cfg0 env0 1
        (os_TaskManager_Initialize cfg0 sys0))) = true ∧
    (env_capture_fails.APPLICATION_CaptureSystemStatus (os_ProcessTaskQueue cfg0
      env_capture_fails (OS_Execute_cpu_load cfg0 env_capture_fails
        (os_TaskManager_Initialize cfg0 sys0))).sys).2 = 0 ∧
    (at_component_check cfg0 env_capture_fails 1
      (os_TaskManager_Initialize cfg0 sys0)).task_mgr.status.os_component_check = false ∧
    object_trips (OSComponentFailureFaultObject_Initialize fc0).1
      (source_value fc0 0 (at_component_check cfg0 env_capture_fails 1
        (os_TaskManager_Initialize cfg0 sys0))) = false ∧
    object_resets (OSComponentFailureFaultObject_Initialize fc0).1
      (source_value fc0 0 (at_component_check cfg0 env_capture_fails 1
        (os_TaskManager_Initialize cfg0 sys0))) = true := by
  refine ⟨by decide, rfl, by decide, ?_, rfl, by decide, ?_, ?_⟩
  · rw [os_component_trips_fc0]; decide
  · rw [os_component_trips_fc0]; decide
  · rw [os_component_resets]
    have h := status_word_selects (at_component_check cfg0 env_capture_fails 1
      (os_TaskManager_Initialize cfg0 sys0)).task_mgr.status
    have hb : (at_component_check cfg0 env_capture_fails 1
      (os_TaskManager_Initialize cfg0 sys0)).task_mgr.status.os_component_check = false := by
      decide
    rw [hb] at h
    show decide ((status_word (at_component_check cfg0 env_capture_fails 1
      (os_TaskManager_Initialize cfg0 sys0)).task_mgr.status % 65536) &&& 32 = 0) = true
    rw [h]
    rfl

/-! ## Class precedence of the fault scan -/

theorem scan_classes (filter : FAULT_OBJECT → Bool → Bool → FAULT_OBJECT × FAULT_EDGE)
    (read : SOURCE_OBJECT → Nat) (p : FAULT_OBJECT_CLASS → Bool)
    (hp : ∀ a b : FAULT_OBJECT_CLASS, p (class_or a b) = (p a || p b)) :
    ∀ (l : List FAULT_OBJECT) (acc : FAULT_SCAN),
      p (l.foldl (scan_object filter read) acc).classes
        = (p acc.classes
          || l.any (fun o => decide ((fault_check filter o read).2.1 = FAULT_EDGE.TRIP)
              && p o.flt_class)) := by
  intro l
  induction l with
  | nil => intro acc; simp
  | cons o l ih =>
    intro acc
    rw [List.foldl_cons, ih, List.any_cons]
    have h : p (scan_object filter read acc o).classes
        = (p acc.classes
          || (decide ((fault_check filter o read).2.1 = FAULT_EDGE.TRIP) && p o.flt_class)) := by
      unfold scan_object
      dsimp only
      split_ifs with he
      · rw [hp]; simp [he]
      · simp [he]
    rw [h, Bool.or_assoc]

theorem scan_bit_iff (filter : FAULT_OBJECT → Bool → Bool → FAULT_OBJECT × FAULT_EDGE)
    (read : SOURCE_OBJECT → Nat) (p : FAULT_OBJECT_CLASS → Bool)
    (hp : ∀ a b : FAULT_OBJECT_CLASS, p (class_or a b) = (p a || p b))
    (os_list user_list : List FAULT_OBJECT)
    (h0 : p FLT_CLASS_NONE = false) :
    p (scan_all filter read os_list user_list).classes = true
      ↔ trips_with filter read (os_list ++ user_list) p := by
  unfold scan_all trips_with
  rw [scan_classes filter read p hp]
  show (p FLT_CLASS_NONE || _) = true ↔ _
  rw [h0, Bool.false_or, List.any_eq_true]
  constructor
  · rintro ⟨o, ho, h⟩
    rw [Bool.and_eq_true, decide_eq_true_eq] at h
    exact ⟨o, ho, h.1, h.2⟩
  · rintro ⟨o, ho, h1, h2⟩
    refine ⟨o, ho, ?_⟩
    rw [Bool.and_eq_true, decide_eq_true_eq]
    exact ⟨h1, h2⟩

theorem scan_catastrophic (filter : FAULT_OBJECT → Bool → Bool → FAULT_OBJECT × FAULT_EDGE)
    (read : SOURCE_OBJECT → Nat) (os_list user_list : List FAULT_OBJECT) :
    (scan_all filter read os_list user_list).classes.catastrophic = true
      ↔ trips_with filter read (os_list ++ user_list) FAULT_OBJECT_CLASS.catastrophic :=
  scan_bit_iff filter read FAULT_OBJECT_CLASS.catastrophic (fun _ _ => rfl) os_list user_list rfl

theorem scan_critical (filter : FAULT_OBJECT → Bool → Bool → FAULT_OBJECT × FAULT_EDGE)
    (read : SOURCE_OBJECT → Nat) (os_list user_list : List FAULT_OBJECT) :
    (scan_all filter read os_list user_list).classes.critical = true
      ↔ trips_with filter read (os_list ++ user_list) FAULT_OBJECT_CLASS.critical :=
  scan_bit_iff filter read FAULT_OBJECT_CLASS.critical (fun _ _ => rfl) os_list user_list rfl

theorem scan_warning (filter : FAULT_OBJECT → Bool → Bool → FAULT_OBJECT × FAULT_EDGE)
    (read : SOURCE_OBJECT → Nat) (os_list user_list : List FAULT_OBJECT) :
    (scan_all filter read os_list user_list).classes.warning = true
      ↔ trips_with filter read (os_list ++ user_list) FAULT_OBJECT_CLASS.warning :=
  scan_bit_iff filter read FAULT_OBJECT_CLASS.warning (fun _ _ => rfl) os_list user_list rfl

theorem scan_flag (filter : FAULT_OBJECT → Bool → Bool → FAULT_OBJECT × FAULT_EDGE)
    (read : SOURCE_OBJECT → Nat) (os_list user_list : List FAULT_OBJECT) :
    (scan_all filter read os_list user_list).classes.flag = true
      ↔ trips_with filter read (os_list ++ user_list) FAULT_OBJECT_CLASS.flag :=
  scan_bit_iff filter read FAULT_OBJECT_CLASS.flag (fun _ _ => rfl) os_list user_list rfl

/-- C24. Class precedence: in one scan of `exec_FaultCheckAll` over the two
lists, whatever the hysteresis `filter` of the evaluations is, with the
fault objects that have a trip edge in this scan: if one of them has the
class bit catastrophic, `run_scheduler` is cleared and nothing else is done
(mode and global flags as before); else, if one has critical, the mode FAULT
is requested and nothing else; else, if one has warning, the global warning
flag is set and nothing else; else, if one has flag, only the global
notification flag is set; and if none trips with one of these bits, state
and flags are left as they are. -/
theorem class_precedence (filter : FAULT_OBJECT → Bool → Bool → FAULT_OBJECT × FAULT_EDGE)
    (fc : FAULT_CONFIG) (traplog_status_value : Nat)
    (os_list user_list : List FAULT_OBJECT) (g : GLOBAL_FLAGS) (s : SYS) :
    (trips_with filter (source_value fc traplog_status_value s) (os_list ++ user_list)
        FAULT_OBJECT_CLASS.catastrophic →
      (exec_FaultCheckAll filter fc traplog_status_value os_list user_list g s).sys
        = { s with run_scheduler := false } ∧
      (exec_FaultCheckAll filter fc traplog_status_value os_list user_list g s).flags = g) ∧
    (¬ trips_with filter (source_value fc traplog_status_value s) (os_list ++ user_list)
        FAULT_OBJECT_CLASS.catastrophic →
      trips_with filter (source_value fc traplog_status_value s) (os_list ++ user_list)
        FAULT_OBJECT_CLASS.critical →
      (exec_FaultCheckAll filter fc traplog_status_value os_list user_list g s).sys
        = set_op_mode s OP_MODE.FAULT ∧
      (exec_FaultCheckAll filter fc traplog_status_value os_list user_list g s).flags = g) ∧
    (¬ trips_with filter (source_value fc traplog_status_value s) (os_list ++ user_list)
        FAULT_OBJECT_CLASS.catastrophic →
      ¬ trips_with filter (source_value fc traplog_status_value s) (os_list ++ user_list)
        FAULT_OBJECT_CLASS.critical →
      trips_with filter (source_value fc traplog_status_value s) (os_list ++ user_list)
        FAULT_OBJECT_CLASS.warning →
      (exec_FaultCheckAll filter fc traplog_status_value os_list user_list g s).sys = s ∧
      (exec_FaultCheckAll filter fc traplog_status_value os_list user_list g s).flags
        = { g with warning_flag := true }) ∧
    (¬ trips_with filter (source_value fc traplog_status_value s) (os_list ++ user_list)
        FAULT_OBJECT_CLASS.catastrophic →
      ¬ trips_with filter (source_value fc traplog_status_value s) (os_list ++ user_list)
        FAULT_OBJECT_CLASS.critical →
      ¬ trips_with filter (source_value fc traplog_status_value s) (os_list ++ user_list)
        FAULT_OBJECT_CLASS.warning →
      trips_with filter (source_value fc traplog_status_value s) (os_list ++ user_list)
        FAULT_OBJECT_CLASS.flag →
      (exec_FaultCheckAll filter fc traplog_status_value os_list user_list g s).sys = s ∧
      (exec_FaultCheckAll filter fc traplog_status_value os_list user_list g s).flags
        = { g with fault_flag := true }) ∧
    (¬ trips_with filter (source_value fc traplog_status_value s) (os_list ++ user_list)
        FAULT_OBJECT_CLASS.catastrophic →
      ¬ trips_with filter (source_value fc traplog_status_value s) (os_list ++ user_list)
        FAULT_OBJECT_CLASS.critical →
      ¬ trips_with filter (source_value fc traplog_status_value s) (os_list ++ user_list)
        FAULT_OBJECT_CLASS.warning →
      ¬ trips_with filter (source_value fc traplog_status_value s) (os_list ++ user_list)
        FAULT_OBJECT_CLASS.flag →
      (exec_FaultCheckAll filter fc traplog_status_value os_list user_list g s).sys = s ∧
      (exec_FaultCheckAll filter fc traplog_status_value os_list user_list g s).flags = g) := by
  have hsys : (exec_FaultCheckAll filter fc traplog_status_value os_list user_list g s).sys
      = (class_action (scan_all filter (source_value fc traplog_status_value s) os_list
          user_list).classes s g).1 := rfl
  have hfl : (exec_FaultCheckAll filter fc traplog_status_value os_list user_list g s).flags
      = (class_action (scan_all filter (source_value fc traplog_status_value s) os_list
          user_list).classes s g).2 := rfl
  rw [hsys, hfl, ← scan_catastrophic, ← scan_critical, ← scan_warning, ← scan_flag]
  unfold class_action
  refine ⟨?_, ?_, ?_, ?_, ?_⟩
  · intro h1
    rw [if_pos h1]
    exact ⟨rfl, rfl⟩
  · intro h1 h2
    rw [if_neg h1, if_pos h2]
    exact ⟨rfl, rfl⟩
  · intro h1 h2 h3
    rw [if_neg h1, if_neg h2, if_pos h3]
    exact ⟨rfl, rfl⟩
  · intro h1 h2 h3 h4
    rw [if_neg h1, if_neg h2, if_neg h3, if_pos h4]
    exact ⟨rfl, rfl⟩
  · intro h1 h2 h3 h4
    rw [if_neg h1, if_neg h2, if_neg h3, if_neg h4]
    exact ⟨rfl, rfl⟩

/-- A scan, with the hysteresis `filter_threshold_one`, in which a warning
object, a catastrophic object and a critical object trip together:
`run_scheduler` is cleared, the mode BOOT and the global flags are left
alone; and a scan in which a flag object and a warning object trip: only the
warning flag is set. -/
theorem class_precedence_witness :
    ((exec_FaultCheckAll filter_threshold_one fc0 0
        [fltobj_class FLT_CLASS_WARNING, fltobj_class FLT_CLASS_CATASTROPHIC]
        [fltobj_class FLT_CLASS_CRITICAL] flags0 sys_period_one).sys
        = { sys_period_one with run_scheduler := false } ∧
      (exec_FaultCheckAll filter_threshold_one fc0 0
        [fltobj_class FLT_CLASS_WARNING, fltobj_class FLT_CLASS_CATASTROPHIC]
        [fltobj_class FLT_CLASS_CRITICAL] flags0 sys_period_one).flags = flags0) ∧
    (exec_FaultCheckAll filter_threshold_one fc0 0
      [fltobj_class FLT_CLASS_FLAG] [fltobj_class FLT_CLASS_WARNING]
      flags0 sys_period_one).flags = { fault_flag := false, warning_flag := true } :=
  ⟨(class_precedence filter_threshold_one fc0 0
      [fltobj_class FLT_CLASS_WARNING, fltobj_class FLT_CLASS_CATASTROPHIC]
      [fltobj_class FLT_CLASS_CRITICAL] flags0 sys_period_one).1
      ⟨fltobj_class FLT_CLASS_CATASTROPHIC, by simp, by decide, rfl⟩,
    by decide⟩

/-! ## Initial state of the fault objects -/

/-- C31. Initial fault-object state: each of the five initializers of
`os_fault_object_init_functions[]` and the user initializer
`MyFaultObject_Initialize` returns 1 and leaves its object with
`fltchk_enabled = 1`, `fault_status = 1`, `fault_active = 1`, `counter = 0`,
`trip_cnt_threshold >= 1` and `reset_cnt_threshold >= 1`; the thresholds are
1/1 for four of the objects, 1/10 for the time-quota object and 1/100 for
the component-check object. -/
theorem initial_fault_object_state (fc : FAULT_CONFIG) (scaled_period : Nat) (s : SYS) :
    (∀ r ∈ os_fault_object_init_functions fc scaled_period s
        ++ user_fault_object_init_functions fc,
      r.2 = 1 ∧ r.1.status.fltchk_enabled = true ∧ r.1.status.fault_status = true ∧
      r.1.status.fault_active = true ∧ r.1.criteria.counter = 0 ∧
      1 ≤ r.1.criteria.trip_cnt_threshold ∧ 1 ≤ r.1.criteria.reset_cnt_threshold) ∧
    (os_fault_object_init_functions fc scaled_period s).length = 5 ∧
    (user_fault_object_init_functions fc).length = 1 ∧
    (os_fault_object_init_functions fc scaled_period s).map
      (fun r => (r.1.criteria.trip_cnt_threshold, r.1.criteria.reset_cnt_threshold))
      = [(1, 1), (1, 1), (1, 1), (1, 10), (1, 100)] ∧
    (user_fault_object_init_functions fc).map
      (fun r => (r.1.criteria.trip_cnt_threshold, r.1.criteria.reset_cnt_threshold))
      = [(1, 1)] ∧
    os_fault_object_list fc scaled_period s
      = (os_fault_object_init_functions fc scaled_period s).map Prod.fst ∧
    user_fault_object_list fc = (user_fault_object_init_functions fc).map Prod.fst := by
  refine ⟨?_, rfl, rfl, rfl, rfl, rfl, rfl⟩
  intro r hr
  simp only [os_fault_object_init_functions, user_fault_object_init_functions,
    List.cons_append, List.nil_append, List.mem_cons, List.mem_singleton, List.not_mem_nil,
    or_false] at hr
  rcases hr with h | h | h | h | h | h <;> subst h <;>
    refine ⟨rfl, rfl, rfl, rfl, rfl, Nat.le_refl 1, ?_⟩ <;>
    first
      | exact Nat.le_refl 1
      | exact (by decide : 1 ≤ 10)
      | exact (by decide : 1 ≤ 100)

/-! ## Identifiers of the fault objects -/

/-- C32, evaluated where it fails. For every value of the constants, the
object `fltobj_MyFaultObject` of the user list gets the same `id` and the
same `error_code` as the object `fltobj_CPUFailure`, the first of the
operating-system list: both initializers assign `FLTOBJ_CPU_FAILURE_ERROR`.
The identifiers of the six objects are therefore not pairwise distinct; with
the constants of `fc0` they are 1, 2, 3, 4, 5 and 1. -/
theorem user_object_shares_identifier :
    (∀ fc : FAULT_CONFIG,
      (MyFaultObject_Initialize fc).1.id = (CPUFailureObject_Initialize fc).1.id ∧
      (MyFaultObject_Initialize fc).1.error_code
        = (CPUFailureObject_Initialize fc).1.error_code) ∧
    (∀ (fc : FAULT_CONFIG) (scaled_period : Nat) (s : SYS),
      (os_fault_object_list fc scaled_period s).head? = some (CPUFailureObject_Initialize fc).1 ∧
      user_fault_object_list fc = [(MyFaultObject_Initialize fc).1] ∧
      ¬ ((os_fault_object_list fc scaled_period s ++ user_fault_object_list fc).map
          FAULT_OBJECT.id).Nodup ∧
      ¬ ((os_fault_object_list fc scaled_period s ++ user_fault_object_list fc).map
          FAULT_OBJECT.error_code).Nodup) ∧
    (os_fault_object_list fc0 0 sys0 ++ user_fault_object_list fc0).map FAULT_OBJECT.id
      = [1, 2, 3, 4, 5, 1] ∧
    (os_fault_object_list fc0 0 sys0 ++ user_fault_object_list fc0).map FAULT_OBJECT.error_code
      = [1, 2, 3, 4, 5, 1] := by
  refine ⟨fun fc => ⟨rfl, rfl⟩, ?_, rfl, rfl⟩
  intro fc scaled_period s
  refine ⟨rfl, rfl, ?_, ?_⟩
  · intro h
    simp only [os_fault_object_list, user_fault_object_list, List.cons_append, List.nil_append,
      List.map_cons, List.map_nil, List.nodup_cons] at h
    apply h.1
    simp only [List.mem_cons]
    right; right; right; right; left
    rfl
  · intro h
    simp only [os_fault_object_list, user_fault_object_list, List.cons_append, List.nil_append,
      List.map_cons, List.map_nil, List.nodup_cons] at h
    apply h.1
    simp only [List.mem_cons]
    right; right; right; right; left
    rfl

/-! ## Task-manager initialization -/

/-- C33. Task-manager initialization: after `os_TaskManager_Initialize`,
`op_mode = pre_op_mode = BOOT`, the boot queue is active with
`size = task_queue_boot_size`, `ubound = size - 1` (in 16-bit arithmetic;
the integer `size - 1` for sizes from 1 on), `active_index = 0` and
`active_task_id = task_queue_boot[0]`; `queue_switch`,
`startup_sequence_complete` and `fault_override` are false; every task
`i < task_table_size` has `id = i`, `enabled = true`, `time_quota` equal to
the master period and `task_period = task_period_max = return_value = 0`;
the function returns 1. -/
theorem task_manager_initialization (cfg : CONFIG) (s : SYS) :
    (os_TaskManager_Initialize cfg s).task_mgr.op_mode = OP_MODE.BOOT ∧
    (os_TaskManager_Initialize cfg s).task_mgr.pre_op_mode = OP_MODE.BOOT ∧
    (os_TaskManager_Initialize cfg s).task_mgr.task_queue.active_queue = cfg.task_queue_boot ∧
    (os_TaskManager_Initialize cfg s).task_mgr.task_queue.size = cfg.task_queue_boot_size ∧
    (os_TaskManager_Initialize cfg s).task_mgr.task_queue.ubound
      = ((os_TaskManager_Initialize cfg s).task_mgr.task_queue.size + 65535) % 65536 ∧
    (1 ≤ cfg.task_queue_boot_size → cfg.task_queue_boot_size ≤ 65535 →
      (os_TaskManager_Initialize cfg s).task_mgr.task_queue.ubound
        = (os_TaskManager_Initialize cfg s).task_mgr.task_queue.size - 1) ∧
    (os_TaskManager_Initialize cfg s).task_mgr.task_queue.active_index = 0 ∧
    (os_TaskManager_Initialize cfg s).task_mgr.task_queue.active_task_id
      = cfg.task_queue_boot 0 ∧
    (os_TaskManager_Initialize cfg s).task_mgr.status.queue_switch = false ∧
    (os_TaskManager_Initialize cfg s).task_mgr.status.startup_sequence_complete = false ∧
    (os_TaskManager_Initialize cfg s).task_mgr.status.fault_override = false ∧
    (os_TaskManager_Initialize cfg s).task_mgr.os_timer.master_period
      = cfg.TASK_MGR_MASTER_PERIOD ∧
    (∀ i : Nat, i < cfg.task_table_size →
      ((os_TaskManager_Initialize cfg s).tasks i).id = i ∧
      ((os_TaskManager_Initialize cfg s).tasks i).enabled = true ∧
      ((os_TaskManager_Initialize cfg s).tasks i).time_quota
        = (os_TaskManager_Initialize cfg s).task_mgr.os_timer.master_period ∧
      ((os_TaskManager_Initialize cfg s).tasks i).task_period = 0 ∧
      ((os_TaskManager_Initialize cfg s).tasks i).task_period_max = 0 ∧
      ((os_TaskManager_Initialize cfg s).tasks i).return_value = 0) ∧
    os_TaskManager_Initialize_fres = 1 := by
  refine ⟨rfl, rfl, rfl, rfl, rfl, ?_, rfl, rfl, rfl, rfl, rfl, rfl, ?_, rfl⟩
  · intro h1 h2
    show (cfg.task_queue_boot_size + 65535) % 65536 = cfg.task_queue_boot_size - 1
    omega
  · intro i hi
    have ht : (os_TaskManager_Initialize cfg s).tasks i = init_task i cfg (s.tasks i) := by
      show (if i < cfg.task_table_size then init_task i cfg (s.tasks i) else s.tasks i) = _
      rw [if_pos hi]
    rw [ht]
    exact ⟨rfl, rfl, rfl, rfl, rfl, rfl⟩

/-! ## Mode words after a mode check -/

theorem finish_synchronised (env : ENVIRONMENT) (s : SYS) :
    (os_CheckOperationModeStatus_finish env s).sys.task_mgr.pre_op_mode
      = (os_CheckOperationModeStatus_finish env s).sys.task_mgr.op_mode ∧
    (os_CheckOperationModeStatus_finish env s).ret = 1 ∧
    (os_CheckOperationModeStatus_finish env s).sys.task_mgr.status.queue_switch = true :=
  ⟨rfl, rfl, rfl⟩

/-- C34. Modes are synchronised after every check: for every input state,
whatever the two mode words hold, `os_CheckOperationModeStatus` returns 1
and leaves `pre_op_mode = op_mode` (the assignment of line 353 follows the
call of the switch-over function, so this holds even if that function writes
the mode); `queue_switch` is true afterwards exactly when the two mode words
differed after the start-up progressions. -/
theorem modes_synchronised (cfg : CONFIG) (env : ENVIRONMENT) (s : SYS) :
    (os_CheckOperationModeStatus cfg env s).sys.task_mgr.pre_op_mode
      = (os_CheckOperationModeStatus cfg env s).sys.task_mgr.op_mode ∧
    (os_CheckOperationModeStatus cfg env s).ret = 1 ∧
    ((os_CheckOperationModeStatus cfg env s).sys.task_mgr.status.queue_switch = true
      ↔ transition_detected s) := by
  unfold os_CheckOperationModeStatus transition_detected
  dsimp only
  split
  · rename_i h
    obtain ⟨f1, f2, f3⟩ := finish_synchronised env
      (os_CheckOperationModeStatus_clear (os_CheckOperationModeStatus_switch cfg
        (os_CheckOperationModeStatus_startup s)))
    exact ⟨f1, f2, ⟨fun _ => h, fun _ => f3⟩⟩
  · rename_i h
    have he : (os_CheckOperationModeStatus_startup s).task_mgr.pre_op_mode
        = (os_CheckOperationModeStatus_startup s).task_mgr.op_mode := not_not.mp h
    refine ⟨he, rfl, ?_⟩
    constructor
    · intro hq
      exact absurd hq (by simp)
    · intro ht
      exact absurd ht h

/-! ## Ordering of the timing fields -/

theorem isr_timing_ordered (n : Nat) (s : SYS) (h : timing_ordered n s) :
    timing_ordered n (_RescueTimer_Interrupt s) := by
  intro i hi
  have hp : ((_RescueTimer_Interrupt s).tasks i).task_period = (s.tasks i).task_period
      ∧ ((_RescueTimer_Interrupt s).tasks i).task_period_max = (s.tasks i).task_period_max := by
    unfold _RescueTimer_Interrupt
    by_cases e : i = s.task_mgr.task_queue.active_task_id
    · subst e; simp
    · simp [Function.update, e]
  rw [hp.1, hp.2]
  exact h i hi

theorem call_timing_ordered (n : Nat) (env : ENVIRONMENT) (s : SYS)
    (hk : keeps_timing_ordered n env) (h : timing_ordered n s) :
    timing_ordered n (os_ProcessTaskQueue_call env s).sys := by
  unfold os_ProcessTaskQueue_call
  split
  · split
    · rename_i entry ht
      have he := hk.1 _ entry s ht h
      split
      · rename_i s1 retval hr
        rw [hr] at he
        exact he
      · rename_i s1 hr
        rw [hr] at he
        exact isr_timing_ordered n s1 he
    · exact h
  · exact h

theorem measure_timing_ordered (n : Nat) (env : ENVIRONMENT) (s : SYS) (retval : Nat)
    (h : timing_ordered n s) :
    timing_ordered n (os_ProcessTaskQueue_measure env s retval).1 := by
  intro i hi
  obtain ⟨h1, h2⟩ := h i hi
  unfold os_ProcessTaskQueue_measure
  dsimp only
  by_cases e : i = s.task_mgr.task_queue.active_task_id
  · subst e
    simp only [Function.update_same]
    constructor
    · split_ifs <;> omega
    · split_ifs <;> omega
  · simp only [Function.update, e, dite_false]
    constructor
    · exact h1
    · split_ifs <;> omega

theorem process_timing_ordered (n : Nat) (cfg : CONFIG) (env : ENVIRONMENT) (s : SYS)
    (hk : keeps_timing_ordered n env) (h : timing_ordered n s) :
    timing_ordered n (os_ProcessTaskQueue cfg env s).sys := by
  have ha : timing_ordered n (os_ProcessTaskQueue_arm cfg s) := h
  exact measure_timing_ordered n env _ _ (call_timing_ordered n env _ hk ha)

theorem startup_os_timer (s : SYS) :
    (os_CheckOperationModeStatus_startup s).task_mgr.os_timer = s.task_mgr.os_timer := by
  unfold os_CheckOperationModeStatus_startup
  split_ifs <;> rfl

theorem switch_os_timer (cfg : CONFIG) (s : SYS) :
    (os_CheckOperationModeStatus_switch cfg s).task_mgr.os_timer = s.task_mgr.os_timer := by
  unfold os_CheckOperationModeStatus_switch
  split <;> rfl

theorem clear_timing_ordered (n : Nat) (s : SYS) (h : timing_ordered n s) :
    timing_ordered n (os_CheckOperationModeStatus_clear s) := by
  intro i hi
  show ((List.range s.task_mgr.task_queue.size).foldl
      (fun t k => clear_task_timing t (s.task_mgr.task_queue.active_queue k)) s.tasks i).task_period
      ≤ ((List.range s.task_mgr.task_queue.size).foldl
      (fun t k => clear_task_timing t (s.task_mgr.task_queue.active_queue k)) s.tasks
        i).task_period_max ∧
    ((List.range s.task_mgr.task_queue.size).foldl
      (fun t k => clear_task_timing t (s.task_mgr.task_queue.active_queue k)) s.tasks
        i).task_period_max ≤ s.task_mgr.os_timer.task_period_max
  by_cases e : ∃ k ∈ List.range s.task_mgr.task_queue.size,
      s.task_mgr.task_queue.active_queue k = i
  · obtain ⟨-, z2, z3⟩ := clear_fold_zero s.task_mgr.task_queue.active_queue
      (List.range s.task_mgr.task_queue.size) s.tasks i (Or.inl e)
    rw [z2, z3]
    exact ⟨Nat.le_refl 0, Nat.zero_le _⟩
  · have hne : ∀ k ∈ List.range s.task_mgr.task_queue.size,
        s.task_mgr.task_queue.active_queue k ≠ i := by
      intro k hk he
      exact e ⟨k, hk, he⟩
    rw [clear_fold_other s.task_mgr.task_queue.active_queue
      (List.range s.task_mgr.task_queue.size) s.tasks i hne]
    exact h i hi

theorem finish_timing_ordered (n : Nat) (env : ENVIRONMENT) (s : SYS)
    (hk : keeps_timing_ordered n env) (h : timing_ordered n s) :
    timing_ordered n (os_CheckOperationModeStatus_finish env s).sys := by
  unfold os_CheckOperationModeStatus_finish
  cases s.task_mgr.op_mode_switch_over_function with
  | none => exact h
  | some f => exact hk.2 f s h

theorem check_timing_ordered (n : Nat) (cfg : CONFIG) (env : ENVIRONMENT) (s : SYS)
    (hk : keeps_timing_ordered n env) (h : timing_ordered n s) :
    timing_ordered n (os_CheckOperationModeStatus cfg env s).sys := by
  have h1 : timing_ordered n (os_CheckOperationModeStatus_startup s) := by
    intro i hi
    rw [startup_tasks, startup_os_timer]
    exact h i hi
  have h2 : timing_ordered n (os_CheckOperationModeStatus_switch cfg
      (os_CheckOperationModeStatus_startup s)) := by
    intro i hi
    rw [switch_tasks, switch_os_timer]
    exact h1 i hi
  unfold os_CheckOperationModeStatus
  dsimp only
  split
  · exact finish_timing_ordered n env _ hk (clear_timing_ordered n _ h2)
  · exact h1

theorem initialize_timing_ordered (cfg : CONFIG) (s : SYS) :
    timing_ordered cfg.task_table_size (os_TaskManager_Initialize cfg s) := by
  intro i hi
  have ht : (os_TaskManager_Initialize cfg s).tasks i = init_task i cfg (s.tasks i) := by
    show (if i < cfg.task_table_size then init_task i cfg (s.tasks i) else s.tasks i) = _
    rw [if_pos hi]
  rw [ht]
  exact ⟨Nat.le_refl 0, Nat.le_refl 0⟩

theorem keeps_timing_ordered_env0 (n : Nat) : keeps_timing_ordered n env0 := by
  refine ⟨?_, fun _ _ h => h⟩
  intro id entry s ht h
  have he : entry = fun s => TASK_RESULT.returned s 1 := by
    simp only [env0, Option.some.injEq] at ht
    exact ht.symm
  subst he
  exact h

/-- C35. Timing-field ordering invariant: the predicate `for every task i of
the task table, tasks[i].task_period <= tasks[i].task_period_max <=
os_timer.task_period_max` is established by `os_TaskManager_Initialize` and
preserved by `os_ProcessTaskQueue` and by `os_CheckOperationModeStatus`, the
task entries and switch-over functions preserving it. -/
theorem timing_fields_ordered (cfg : CONFIG) (env : ENVIRONMENT) (s0 s : SYS)
    (hk : keeps_timing_ordered cfg.task_table_size env) :
    timing_ordered cfg.task_table_size (os_TaskManager_Initialize cfg s0) ∧
    (timing_ordered cfg.task_table_size s →
      timing_ordered cfg.task_table_size (os_ProcessTaskQueue cfg env s).sys) ∧
    (timing_ordered cfg.task_table_size s →
      timing_ordered cfg.task_table_size (os_CheckOperationModeStatus cfg env s).sys) :=
  ⟨initialize_timing_ordered cfg s0,
    process_timing_ordered cfg.task_table_size cfg env s hk,
    check_timing_ordered cfg.task_table_size cfg env s hk⟩

/-- The invariant after initialisation of `cfg0`, after the first dispatch
and after the mode check that follows. -/
theorem timing_fields_ordered_witness :
    timing_ordered cfg0.task_table_size (os_TaskManager_Initialize cfg0 sys0) ∧
    timing_ordered cfg0.task_table_size
      (os_ProcessTaskQueue cfg0 env0 (os_TaskManager_Initialize cfg0 sys0)).sys ∧
    timing_ordered cfg0.task_table_size
      (os_CheckOperationModeStatus cfg0 env0
        (os_ProcessTaskQueue cfg0 env0 (os_TaskManager_Initialize cfg0 sys0)).sys).sys :=
  ⟨(timing_fields_ordered cfg0 env0 sys0 sys0 (keeps_timing_ordered_env0 _)).1,
    (timing_fields_ordered cfg0 env0 sys0 (os_TaskManager_Initialize cfg0 sys0)
      (keeps_timing_ordered_env0 _)).2.1
      (timing_fields_ordered cfg0 env0 sys0 sys0 (keeps_timing_ordered_env0 _)).1,
    (timing_fields_ordered cfg0 env0 sys0
      (os_ProcessTaskQueue cfg0 env0 (os_TaskManager_Initialize cfg0 sys0)).sys
      (keeps_timing_ordered_env0 _)).2.2
      ((timing_fields_ordered cfg0 env0 sys0 (os_TaskManager_Initialize cfg0 sys0)
        (keeps_timing_ordered_env0 _)).2.1
        (timing_fields_ordered cfg0 env0 sys0 sys0 (keeps_timing_ordered_env0 _)).1)⟩

/-! ## The global maximum of the task time -/

theorem period_max_grows_refl (a : SYS) : period_max_grows a a :=
  ⟨Nat.le_refl _, fun h => h⟩

theorem period_max_grows_trans {a b c : SYS} (h1 : period_max_grows a b)
    (h2 : period_max_grows b c) : period_max_grows a c :=
  ⟨Nat.le_trans h1.1 h2.1, fun h => h2.2 (h1.2 h)⟩

theorem period_max_grows_of_eq {a b : SYS}
    (h : b.task_mgr.os_timer.task_period_max = a.task_mgr.os_timer.task_period_max) :
    period_max_grows a b := by
  unfold period_max_grows
  rw [h]
  exact ⟨Nat.le_refl _, fun h => h⟩

theorem call_period_max (env : ENVIRONMENT) (s : SYS) (hk : keeps_period_max env) :
    period_max_grows s (os_ProcessTaskQueue_call env s).sys := by
  unfold os_ProcessTaskQueue_call
  split
  · split
    · rename_i entry ht
      have he := hk.1 _ entry s ht
      split
      · rename_i s1 retval hr
        rw [hr] at he
        exact he
      · rename_i s1 hr
        rw [hr] at he
        exact period_max_grows_trans he (period_max_grows_of_eq rfl)
    · exact period_max_grows_refl s
  · exact period_max_grows_refl s

theorem measure_period_max (env : ENVIRONMENT) (s : SYS) (retval : Nat) :
    period_max_grows s (os_ProcessTaskQueue_measure env s retval).1 := by
  have hm := (measure_fields env s retval).2.2.2.2.2.2.1
  have ht : (os_ProcessTaskQueue_measure env s retval).1.task_mgr.task_queue.active_task_time
      < 65536 := by
    rw [(measure_fields env s retval).2.1]
    exact Nat.mod_lt _ (by decide)
  unfold period_max_grows
  rw [hm]
  exact ⟨Nat.le_max_left _ _, fun h => max_lt h ht⟩

theorem process_period_max (cfg : CONFIG) (env : ENVIRONMENT) (s : SYS)
    (hk : keeps_period_max env) :
    period_max_grows s (os_ProcessTaskQueue cfg env s).sys := by
  have ha : period_max_grows s (os_ProcessTaskQueue_arm cfg s) := period_max_grows_of_eq rfl
  exact period_max_grows_trans ha
    (period_max_grows_trans (call_period_max env _ hk) (measure_period_max env _ _))

theorem finish_period_max (env : ENVIRONMENT) (s : SYS) (hk : keeps_period_max env) :
    period_max_grows s (os_CheckOperationModeStatus_finish env s).sys := by
  unfold os_CheckOperationModeStatus_finish
  cases s.task_mgr.op_mode_switch_over_function with
  | none => exact period_max_grows_refl s
  | some f => exact period_max_grows_trans (hk.2.1 f s) (period_max_grows_of_eq rfl)

theorem check_period_max (cfg : CONFIG) (env : ENVIRONMENT) (s : SYS)
    (hk : keeps_period_max env) :
    period_max_grows s (os_CheckOperationModeStatus cfg env s).sys := by
  have h1 : period_max_grows s (os_CheckOperationModeStatus_startup s) :=
    period_max_grows_of_eq (congrArg OS_TIMER.task_period_max (startup_os_timer s))
  have h2 : period_max_grows (os_CheckOperationModeStatus_startup s)
      (os_CheckOperationModeStatus_clear (os_CheckOperationModeStatus_switch cfg
        (os_CheckOperationModeStatus_startup s))) :=
    period_max_grows_of_eq (congrArg OS_TIMER.task_period_max (switch_os_timer cfg _))
  unfold os_CheckOperationModeStatus
  dsimp only
  split
  · exact period_max_grows_trans h1 (period_max_grows_trans h2 (finish_period_max env _ hk))
  · exact period_max_grows_trans h1 (period_max_grows_of_eq rfl)

theorem advance_period_max (cfg : CONFIG) (env : ENVIRONMENT) (fres : Nat) (s : SYS)
    (hk : keeps_period_max env) :
    period_max_grows s (OS_Execute_advance cfg env fres s).sys := by
  unfold OS_Execute_advance
  split
  · exact period_max_grows_trans (check_period_max cfg env s hk) (period_max_grows_of_eq rfl)
  · exact period_max_grows_of_eq rfl

theorem component_check_period_max (cfg : CONFIG) (env : ENVIRONMENT) (fres : Nat) (s : SYS)
    (hk : keeps_period_max env) :
    period_max_grows s (at_component_check cfg env fres s) := by
  have h1 : period_max_grows s (OS_Execute_cpu_load cfg env s) := period_max_grows_of_eq rfl
  have h2 := process_period_max cfg env (OS_Execute_cpu_load cfg env s) hk
  have h3 := hk.2.2.1 (os_ProcessTaskQueue cfg env (OS_Execute_cpu_load cfg env s)).sys
  have h4 : period_max_grows
      (env.APPLICATION_CaptureSystemStatus
        (os_ProcessTaskQueue cfg env (OS_Execute_cpu_load cfg env s)).sys).1
      (at_component_check cfg env fres s) := period_max_grows_of_eq rfl
  exact period_max_grows_trans h1 (period_max_grows_trans h2 (period_max_grows_trans h3 h4))

theorem cycle_period_max (cfg : CONFIG) (env : ENVIRONMENT) (fres : Nat) (s : SYS)
    (hk : keeps_period_max env) :
    period_max_grows s (OS_Execute_cycle cfg env fres s).sys := by
  obtain ⟨fres3, hs, -⟩ := cycle_eq_advance cfg env fres s
  rw [hs]
  exact period_max_grows_trans (component_check_period_max cfg env fres s hk)
    (period_max_grows_trans (hk.2.2.2 _) (advance_period_max cfg env fres3 _ hk))

theorem loop_period_max (cfg : CONFIG) (envs : List ENVIRONMENT) :
    ∀ (fres : Nat) (s : SYS), (∀ e ∈ envs, keeps_period_max e) →
      period_max_grows s (OS_Execute_loop cfg envs fres s).sys := by
  induction envs with
  | nil => intro fres s _; exact period_max_grows_refl s
  | cons env envs ih =>
    intro fres s hk
    unfold OS_Execute_loop
    split
    · exact period_max_grows_trans
        (cycle_period_max cfg env fres s (hk env (List.mem_cons_self _ _)))
        (ih _ _ (fun e he => hk e (List.mem_cons_of_mem _ he)))
    · exact period_max_grows_refl s

theorem quota_trips (fc : FAULT_CONFIG) (scaled_period traplog_status_value : Nat)
    (s0 s : SYS) :
    object_trips (TaskTimeQuotaViolationFaultObject_Initialize fc scaled_period s0).1
      (source_value fc traplog_status_value s)
      = decide (s.task_mgr.os_timer.task_period_max % 65536
          > s0.task_mgr.os_timer.master_period % 65536) := by
  show decide ((s.task_mgr.os_timer.task_period_max % 65536) &&& FLTOBJ_BIT_MASK_DEFAULT
    > s0.task_mgr.os_timer.master_period % 65536) = _
  rw [mask_default]

theorem quota_resets (fc : FAULT_CONFIG) (scaled_period traplog_status_value : Nat)
    (s0 s : SYS) :
    object_resets (TaskTimeQuotaViolationFaultObject_Initialize fc scaled_period s0).1
      (source_value fc traplog_status_value s)
      = decide (s.task_mgr.os_timer.task_period_max % 65536 ≤ scaled_period % 65536) := by
  show decide ((s.task_mgr.os_timer.task_period_max % 65536) &&& FLTOBJ_BIT_MASK_DEFAULT
    ≤ scaled_period % 65536) = _
  rw [mask_default]

theorem keeps_period_max_env0 : keeps_period_max env0 := by
  refine ⟨?_, fun _ s => period_max_grows_refl s, fun s => period_max_grows_refl s,
    fun s => period_max_grows_refl s⟩
  intro id entry s ht
  have he : entry = fun s => TASK_RESULT.returned s 1 := by
    simp only [env0, Option.some.injEq] at ht
    exact ht.symm
  subst he
  exact period_max_grows_refl s

/-- C36. Global maximum never decreases: `os_timer.task_period_max` does not
decrease across `os_ProcessTaskQueue`, across `os_CheckOperationModeStatus`
(which clears per-task maxima only) and across any number of scheduler
cycles, the code outside the core not decreasing it. Hence, for the object
configured by `TaskTimeQuotaViolationFaultObject_Initialize` (GREATER_THAN,
trip level = master period) with `reset_level <= master period`: once its
trip condition holds in a state `s` with a 16-bit maximum, then in the state
every later cycle hands to the fault scan the trip condition holds and the
reset condition does not. -/
theorem global_maximum_never_decreases (cfg : CONFIG) (fc : FAULT_CONFIG)
    (scaled_period traplog_status_value fres f : Nat) (envs : List ENVIRONMENT)
    (e : ENVIRONMENT) (s0 s : SYS)
    (hk : ∀ x ∈ envs, keeps_period_max x) (hke : keeps_period_max e)
    (h16 : s.task_mgr.os_timer.task_period_max < 65536)
    (hrl : (TaskTimeQuotaViolationFaultObject_Initialize fc scaled_period s0).1.criteria.reset_level
      ≤ s0.task_mgr.os_timer.master_period % 65536)
    (htrip : object_trips (TaskTimeQuotaViolationFaultObject_Initialize fc scaled_period s0).1
      (source_value fc traplog_status_value s) = true) :
    s.task_mgr.os_timer.task_period_max
      ≤ (os_ProcessTaskQueue cfg e s).sys.task_mgr.os_timer.task_period_max ∧
    s.task_mgr.os_timer.task_period_max
      ≤ (os_CheckOperationModeStatus cfg e s).sys.task_mgr.os_timer.task_period_max ∧
    s.task_mgr.os_timer.task_period_max
      ≤ (OS_Execute_loop cfg envs fres s).sys.task_mgr.os_timer.task_period_max ∧
    s.task_mgr.os_timer.task_period_max
      ≤ (at_component_check cfg e f
          (OS_Execute_loop cfg envs fres s).sys).task_mgr.os_timer.task_period_max ∧
    (TaskTimeQuotaViolationFaultObject_Initialize fc scaled_period s0).1.criteria.trip_level
      = s0.task_mgr.os_timer.master_period % 65536 ∧
    object_trips (TaskTimeQuotaViolationFaultObject_Initialize fc scaled_period s0).1
      (source_value fc traplog_status_value
        (at_component_check cfg e f (OS_Execute_loop cfg envs fres s).sys)) = true ∧
    object_resets (TaskTimeQuotaViolationFaultObject_Initialize fc scaled_period s0).1
      (source_value fc traplog_status_value
        (at_component_check cfg e f (OS_Execute_loop cfg envs fres s).sys)) = false := by
  have hl := loop_period_max cfg envs fres s hk
  have hc := period_max_grows_trans hl
    (component_check_period_max cfg e f (OS_Execute_loop cfg envs fres s).sys hke)
  have hc16 := hc.2 h16
  have hr : scaled_period % 65536 ≤ s0.task_mgr.os_timer.master_period % 65536 := hrl
  rw [quota_trips, decide_eq_true_eq, Nat.mod_eq_of_lt h16] at htrip
  refine ⟨(process_period_max cfg e s hke).1, (check_period_max cfg e s hke).1, hl.1, hc.1, rfl,
    ?_, ?_⟩
  · rw [quota_trips, decide_eq_true_eq, Nat.mod_eq_of_lt hc16]
    exact Nat.lt_of_lt_of_le htrip hc.1
  · rw [quota_resets, decide_eq_false_iff_not, Nat.mod_eq_of_lt hc16]
    have := hc.1
    omega

/-- The maximum 13750 recorded by the overrun dispatch of `cfg0` (master
period 7000, reset level 6300) stays through two more cycles, and the
time-quota object still trips in the third. -/
theorem global_maximum_never_decreases_witness :
    sys_quota_exceeded.task_mgr.os_timer.task_period_max = 13750 ∧
    13750 ≤ (at_component_check cfg0 env0 1
      (OS_Execute_loop cfg0 [env0, env0] 1
        sys_quota_exceeded).sys).task_mgr.os_timer.task_period_max ∧
    object_trips (TaskTimeQuotaViolationFaultObject_Initialize fc0 6300
        (os_TaskManager_Initialize cfg0 sys0)).1
      (source_value fc0 0 (at_component_check cfg0 env0 1
        (OS_Execute_loop cfg0 [env0, env0] 1 sys_quota_exceeded).sys)) = true ∧
    object_resets (TaskTimeQuotaViolationFaultObject_Initialize fc0 6300
        (os_TaskManager_Initialize cfg0 sys0)).1
      (source_value fc0 0 (at_component_check cfg0 env0 1
        (OS_Execute_loop cfg0 [env0, env0] 1 sys_quota_exceeded).sys)) = false :=
  have h := global_maximum_never_decreases cfg0 fc0 6300 0 1 1 [env0, env0] env0
    (os_TaskManager_Initialize cfg0 sys0) sys_quota_exceeded
    (by
      intro x hx
      simp only [List.mem_cons, List.mem_singleton, List.not_mem_nil, or_false] at hx
      rcases hx with h | h <;> rw [h] <;> exact keeps_period_max_env0)
    keeps_period_max_env0 (by decide) (by decide) (by decide)
  ⟨by decide, h.2.2.2.1, h.2.2.2.2.2.1, h.2.2.2.2.2.2⟩

/-! ## Frame of the dispatch -/

/-- C37. Frame of dispatch: when the guarded task call leaves the state as
it was armed (the task is skipped, or its body has no effect on the state;
not the rescue path), `os_ProcessTaskQueue` leaves `active_index`,
`op_mode`, `pre_op_mode`, the active queue, `size` and `ubound` as they
were, sets `active_task_id = active_queue[active_index]`, leaves `enabled`,
`id` and `time_quota` of every task as they were, and leaves every task
descriptor other than that of the task `active_queue[active_index]`
unchanged, so `return_value`, `task_period` and `task_period_max` are
written for that task only. -/
theorem dispatch_frame (cfg : CONFIG) (env : ENVIRONMENT) (s : SYS)
    (hn : (at_jump_target cfg env s).sys = os_ProcessTaskQueue_arm cfg s) :
    (os_ProcessTaskQueue cfg env s).sys.task_mgr.task_queue.active_index
      = s.task_mgr.task_queue.active_index ∧
    (os_ProcessTaskQueue cfg env s).sys.task_mgr.op_mode = s.task_mgr.op_mode ∧
    (os_ProcessTaskQueue cfg env s).sys.task_mgr.pre_op_mode = s.task_mgr.pre_op_mode ∧
    (os_ProcessTaskQueue cfg env s).sys.task_mgr.task_queue.active_queue
      = s.task_mgr.task_queue.active_queue ∧
    (os_ProcessTaskQueue cfg env s).sys.task_mgr.task_queue.size
      = s.task_mgr.task_queue.size ∧
    (os_ProcessTaskQueue cfg env s).sys.task_mgr.task_queue.ubound
      = s.task_mgr.task_queue.ubound ∧
    (os_ProcessTaskQueue cfg env s).sys.task_mgr.task_queue.active_task_id
      = s.task_mgr.task_queue.active_queue s.task_mgr.task_queue.active_index ∧
    (∀ i : Nat,
      ((os_ProcessTaskQueue cfg env s).sys.tasks i).enabled = (s.tasks i).enabled ∧
      ((os_ProcessTaskQueue cfg env s).sys.tasks i).id = (s.tasks i).id ∧
      ((os_ProcessTaskQueue cfg env s).sys.tasks i).time_quota = (s.tasks i).time_quota) ∧
    (∀ i : Nat, i ≠ s.task_mgr.task_queue.active_queue s.task_mgr.task_queue.active_index →
      (os_ProcessTaskQueue cfg env s).sys.tasks i = s.tasks i) := by
  have hr : (os_ProcessTaskQueue cfg env s).sys
      = (os_ProcessTaskQueue_measure env (os_ProcessTaskQueue_arm cfg s)
          (at_jump_target cfg env s).ret).1 := by
    show (os_ProcessTaskQueue_measure env (at_jump_target cfg env s).sys
      (at_jump_target cfg env s).ret).1 = _
    rw [hn]
  rw [hr]
  refine ⟨rfl, rfl, rfl, rfl, rfl, rfl, rfl, ?_, ?_⟩
  · intro i
    unfold os_ProcessTaskQueue_measure
    dsimp only
    by_cases e : i = (os_ProcessTaskQueue_arm cfg s).task_mgr.task_queue.active_task_id
    · subst e
      simp only [Function.update_same]
      exact ⟨rfl, rfl, rfl⟩
    · simp only [Function.update, e, dite_false]
      exact ⟨rfl, rfl, rfl⟩
  · intro i hi
    unfold os_ProcessTaskQueue_measure
    dsimp only
    have e : i ≠ (os_ProcessTaskQueue_arm cfg s).task_mgr.task_queue.active_task_id := hi
    simp only [Function.update, e, dite_false]
    rfl

/-- The first dispatch of `cfg0` with `env0` (task 0 returns 1 and changes
nothing): the descriptor of task 3 is untouched and the queue index is
still 0. -/
theorem dispatch_frame_witness :
    (os_ProcessTaskQueue cfg0 env0 (os_TaskManager_Initialize cfg0 sys0)).sys.tasks 3
      = (os_TaskManager_Initialize cfg0 sys0).tasks 3 ∧
    (os_ProcessTaskQueue cfg0 env0
      (os_TaskManager_Initialize cfg0 sys0)).sys.task_mgr.task_queue.active_index = 0 :=
  have h := dispatch_frame cfg0 env0 (os_TaskManager_Initialize cfg0 sys0) rfl
  ⟨h.2.2.2.2.2.2.2.2 3 (by decide), h.1⟩

/-! ## The accumulator of return values -/

theorem check_ret_one (cfg : CONFIG) (env : ENVIRONMENT) (s : SYS) :
    (os_CheckOperationModeStatus cfg env s).ret = 1 := by
  unfold os_CheckOperationModeStatus
  dsimp only
  split <;> rfl

theorem advance_ret (cfg : CONFIG) (env : ENVIRONMENT) (fres : Nat) (s : SYS) :
    (OS_Execute_advance cfg env fres s).ret ≤ fres ∧
    (OS_Execute_advance cfg env fres s).ret % 2 = fres % 2 := by
  unfold OS_Execute_advance
  split
  · show fres &&& (os_CheckOperationModeStatus cfg env s).ret ≤ fres
      ∧ (fres &&& (os_CheckOperationModeStatus cfg env s).ret) % 2 = fres % 2
    rw [check_ret_one]
    refine ⟨Nat.and_le_left, ?_⟩
    have h := Nat.and_mod_two_eq_one (a := fres) (b := 1)
    have h2 := Nat.mod_two_eq_zero_or_one (fres &&& 1)
    have h3 := Nat.mod_two_eq_zero_or_one fres
    rcases h3 with h3 | h3
    · rcases h2 with h2 | h2
      · omega
      · have := h.mp h2
        omega
    · have := h.mpr ⟨h3, rfl⟩
      omega
  · exact ⟨Nat.le_refl _, rfl⟩

theorem cycle_ret_eq (cfg : CONFIG) (env : ENVIRONMENT) (fres : Nat) (s : SYS) :
    (OS_Execute_cycle cfg env fres s).ret
      = (OS_Execute_advance cfg env
          (((fres &&& (os_ProcessTaskQueue cfg env (OS_Execute_cpu_load cfg env s)).ret)
            &&& ((env.APPLICATION_CaptureSystemStatus
              (os_ProcessTaskQueue cfg env (OS_Execute_cpu_load cfg env s)).sys).2 % 65536))
            &&& ((env.exec_FaultCheckAll (at_component_check cfg env fres s)).2 % 65536))
          (before_advance cfg env fres s)).ret := rfl

theorem cycle_ret_le (cfg : CONFIG) (env : ENVIRONMENT) (fres : Nat) (s : SYS) :
    (OS_Execute_cycle cfg env fres s).ret ≤ fres := by
  rw [cycle_ret_eq]
  exact Nat.le_trans (advance_ret cfg env _ _).1
    (Nat.le_trans Nat.and_le_left (Nat.le_trans Nat.and_le_left Nat.and_le_left))

theorem cycle_ret_odd (cfg : CONFIG) (env : ENVIRONMENT) (fres : Nat) (s : SYS) :
    (OS_Execute_cycle cfg env fres s).ret % 2 = 1 ↔
      fres % 2 = 1 ∧
      (os_ProcessTaskQueue cfg env (OS_Execute_cpu_load cfg env s)).ret % 2 = 1 ∧
      (env.APPLICATION_CaptureSystemStatus
        (os_ProcessTaskQueue cfg env (OS_Execute_cpu_load cfg env s)).sys).2 % 2 = 1 ∧
      (env.exec_FaultCheckAll (at_component_check cfg env fres s)).2 % 2 = 1 := by
  have hmod : ∀ x : Nat, x % 65536 % 2 = x % 2 := fun x => by omega
  rw [cycle_ret_eq, (advance_ret cfg env _ _).2, Nat.and_mod_two_eq_one,
    Nat.and_mod_two_eq_one, Nat.and_mod_two_eq_one, hmod, hmod]
  constructor
  · rintro ⟨⟨⟨a, b⟩, c⟩, d⟩
    exact ⟨a, b, c, d⟩
  · rintro ⟨a, b, c, d⟩
    exact ⟨⟨⟨a, b⟩, c⟩, d⟩

theorem component_check_written (cfg : CONFIG) (env : ENVIRONMENT) (fres : Nat) (s : SYS) :
    (at_component_check cfg env fres s).task_mgr.status.os_component_check = true ↔
      fres % 2 = 1 ∧
      (os_ProcessTaskQueue cfg env (OS_Execute_cpu_load cfg env s)).ret % 2 = 1 ∧
      (env.APPLICATION_CaptureSystemStatus
        (os_ProcessTaskQueue cfg env (OS_Execute_cpu_load cfg env s)).sys).2 % 2 = 1 := by
  have hbit : (at_component_check cfg env fres s).task_mgr.status.os_component_check
      = decide (((fres &&& (os_ProcessTaskQueue cfg env (OS_Execute_cpu_load cfg env s)).ret)
        &&& ((env.APPLICATION_CaptureSystemStatus
          (os_ProcessTaskQueue cfg env (OS_Execute_cpu_load cfg env s)).sys).2 % 65536))
        % 2 = 1) := rfl
  have hmod : ∀ x : Nat, x % 65536 % 2 = x % 2 := fun x => by omega
  rw [hbit, decide_eq_true_iff, Nat.and_mod_two_eq_one, Nat.and_mod_two_eq_one, hmod]
  constructor
  · rintro ⟨⟨a, b⟩, c⟩
    exact ⟨a, b, c⟩
  · rintro ⟨a, b, c⟩
    exact ⟨⟨a, b⟩, c⟩

theorem loop_ret (cfg : CONFIG) (envs : List ENVIRONMENT) :
    ∀ (fres : Nat) (s : SYS),
      (OS_Execute_loop cfg envs fres s).ret ≤ fres ∧
      (fres % 2 = 0 → (OS_Execute_loop cfg envs fres s).ret % 2 = 0) := by
  induction envs with
  | nil => intro fres s; exact ⟨Nat.le_refl _, fun h => h⟩
  | cons env envs ih =>
    intro fres s
    unfold OS_Execute_loop
    split
    · obtain ⟨i1, i2⟩ := ih (OS_Execute_cycle cfg env fres s).ret
        (OS_Execute_cycle cfg env fres s).sys
      refine ⟨Nat.le_trans i1 (cycle_ret_le cfg env fres s), ?_⟩
      intro h0
      apply i2
      have hodd := cycle_ret_odd cfg env fres s
      have := Nat.mod_two_eq_zero_or_one (OS_Execute_cycle cfg env fres s).ret
      rcases this with h | h
      · exact h
      · have := (hodd.mp h).1
        omega
    · exact ⟨Nat.le_refl _, fun h => h⟩

theorem init_ret (rets : List Nat) :
    ∀ fres : Nat,
      rets.foldl (fun fres r => fres &&& (r % 65536)) fres ≤ fres ∧
      ((fres % 2 = 0 ∨ ∃ r ∈ rets, r % 2 = 0) →
        rets.foldl (fun fres r => fres &&& (r % 65536)) fres % 2 = 0) := by
  induction rets with
  | nil =>
    intro fres
    refine ⟨Nat.le_refl _, ?_⟩
    rintro (h | ⟨r, hr, -⟩)
    · exact h
    · cases hr
  | cons r rets ih =>
    intro fres
    rw [List.foldl_cons]
    obtain ⟨i1, i2⟩ := ih (fres &&& (r % 65536))
    refine ⟨Nat.le_trans i1 Nat.and_le_left, ?_⟩
    intro h
    apply i2
    have hodd := Nat.and_mod_two_eq_one (a := fres) (b := r % 65536)
    have hcases := Nat.mod_two_eq_zero_or_one (fres &&& (r % 65536))
    rcases h with h | ⟨x, hx, hx0⟩
    · left
      rcases hcases with hc | hc
      · exact hc
      · have := (hodd.mp hc).1
        omega
    · rcases List.mem_cons.mp hx with e | e
      · left
        subst e
        rcases hcases with hc | hc
        · exact hc
        · have := (hodd.mp hc).2
          omega
      · right
        exact ⟨x, e, hx0⟩

/-- C38, as stated, fails for the fault scan. In the first cycle of `cfg0`
the dispatch and the status capture return 1 and the fault scan returns 0:
line 141 has written `os_component_check = 1` before the scan, and that is
the value of the bit until the end of this cycle; the accumulator leaves the
cycle as 0, and the bit is written as 0 in the next cycle. -/
theorem scan_failure_shows_one_cycle_later :
    (env_scan_fails.exec_FaultCheckAll
      (at_component_check cfg0 env_scan_fails 1 (os_TaskManager_Initialize cfg0 sys0))).2 = 0 ∧
    (at_component_check cfg0 env_scan_fails 1
      (os_TaskManager_Initialize cfg0 sys0)).task_mgr.status.os_component_check = true ∧
    (OS_Execute_cycle cfg0 env_scan_fails 1
      (os_TaskManager_Initialize cfg0 sys0)).sys.task_mgr.status.os_component_check = true ∧
    (OS_Execute_cycle cfg0 env_scan_fails 1 (os_TaskManager_Initialize cfg0 sys0)).ret = 0 ∧
    (at_component_check cfg0 env0
      (OS_Execute_cycle cfg0 env_scan_fails 1 (os_TaskManager_Initialize cfg0 sys0)).ret
      (OS_Execute_cycle cfg0 env_scan_fails 1
        (os_TaskManager_Initialize cfg0 sys0)).sys).task_mgr.status.os_component_check
      = false := by
  refine ⟨rfl, by decide, by decide, by decide, by decide⟩

/-- C38, amended. Failure accumulator is sticky: `fres` is only ever ANDed
with return values, so it never increases, neither over the initialization
steps nor over a cycle nor over any number of cycles, and bit 0, once
clear, stays clear. Bit 0 of `fres` leaves a cycle set exactly when it
entered the cycle set and dispatch, status capture and fault scan all
returned a value with bit 0 set (the mode check always returns 1). The bit
`os_component_check` is written as 0 in the cycle itself when an
initialization step or an earlier cycle cleared bit 0, or when the dispatch
or the status capture of this cycle returns a value with bit 0 clear (an
even nonzero value included); a fault scan that returns such a value clears
bit 0 of `fres` after the bit of its own cycle has been written, so the bit
is written as 0 from the next cycle on. -/
theorem failure_accumulator_sticky (cfg : CONFIG) (env : ENVIRONMENT) (fres : Nat) (s : SYS) :
    (∀ rets : List Nat, OS_Execute_init rets ≤ 1 ∧
      ((∃ r ∈ rets, r % 2 = 0) → OS_Execute_init rets % 2 = 0)) ∧
    (OS_Execute_cycle cfg env fres s).ret ≤ fres ∧
    (∀ envs : List ENVIRONMENT, (OS_Execute_loop cfg envs fres s).ret ≤ fres) ∧
    (∀ u : SYS, (os_CheckOperationModeStatus cfg env u).ret = 1) ∧
    ((OS_Execute_cycle cfg env fres s).ret % 2 = 1 ↔
      fres % 2 = 1 ∧
      (os_ProcessTaskQueue cfg env (OS_Execute_cpu_load cfg env s)).ret % 2 = 1 ∧
      (env.APPLICATION_CaptureSystemStatus
        (os_ProcessTaskQueue cfg env (OS_Execute_cpu_load cfg env s)).sys).2 % 2 = 1 ∧
      (env.exec_FaultCheckAll (at_component_check cfg env fres s)).2 % 2 = 1) ∧
    ((fres % 2 = 0 ∨
      (os_ProcessTaskQueue cfg env (OS_Execute_cpu_load cfg env s)).ret % 2 = 0 ∨
      (env.APPLICATION_CaptureSystemStatus
        (os_ProcessTaskQueue cfg env (OS_Execute_cpu_load cfg env s)).sys).2 % 2 = 0) →
      (at_component_check cfg env fres s).task_mgr.status.os_component_check = false) ∧
    (fres % 2 = 0 → ∀ (envs : List ENVIRONMENT) (e : ENVIRONMENT),
      (OS_Execute_loop cfg envs fres s).ret % 2 = 0 ∧
      (at_component_check cfg e (OS_Execute_loop cfg envs fres s).ret
        (OS_Execute_loop cfg envs fres s).sys).task_mgr.status.os_component_check = false) ∧
    ((env.exec_FaultCheckAll (at_component_check cfg env fres s)).2 % 2 = 0 →
      ∀ (envs : List ENVIRONMENT) (e : ENVIRONMENT),
        (at_component_check cfg e
          (OS_Execute_loop cfg envs (OS_Execute_cycle cfg env fres s).ret
            (OS_Execute_cycle cfg env fres s).sys).ret
          (OS_Execute_loop cfg envs (OS_Execute_cycle cfg env fres s).ret
            (OS_Execute_cycle cfg env fres s).sys).sys).task_mgr.status.os_component_check
          = false) := by
  have later : ∀ (f : Nat) (u : SYS), f % 2 = 0 → ∀ (envs : List ENVIRONMENT) (e : ENVIRONMENT),
      (OS_Execute_loop cfg envs f u).ret % 2 = 0 ∧
      (at_component_check cfg e (OS_Execute_loop cfg envs f u).ret
        (OS_Execute_loop cfg envs f u).sys).task_mgr.status.os_component_check = false := by
    intro f u hf envs e
    have h0 := (loop_ret cfg envs f u).2 hf
    refine ⟨h0, ?_⟩
    cases hb : (at_component_check cfg e (OS_Execute_loop cfg envs f u).ret
        (OS_Execute_loop cfg envs f u).sys).task_mgr.status.os_component_check
    · rfl
    · have := ((component_check_written cfg e _ _).mp hb).1
      omega
  refine ⟨?_, cycle_ret_le cfg env fres s, fun envs => (loop_ret cfg envs fres s).1,
    check_ret_one cfg env, cycle_ret_odd cfg env fres s, ?_, later fres s, ?_⟩
  · intro rets
    exact ⟨(init_ret rets 1).1, fun h => (init_ret rets 1).2 (Or.inr h)⟩
  · intro h
    cases hb : (at_component_check cfg env fres s).task_mgr.status.os_component_check
    · rfl
    · obtain ⟨a, b, c⟩ := (component_check_written cfg env fres s).mp hb
      omega
  · intro h envs e
    have hc : (OS_Execute_cycle cfg env fres s).ret % 2 = 0 := by
      rcases Nat.mod_two_eq_zero_or_one (OS_Execute_cycle cfg env fres s).ret with h0 | h1
      · exact h0
      · have := ((cycle_ret_odd cfg env fres s).mp h1).2.2.2
        omega
    exact (later _ _ hc envs e).2

/-! ## Status bits that are never cleared -/

theorem sticky_kept_refl (a : SYS) : sticky_kept a a :=
  ⟨fun h => h, fun h => h, fun h => h⟩

theorem sticky_kept_trans {a b c : SYS} (h1 : sticky_kept a b) (h2 : sticky_kept b c) :
    sticky_kept a c :=
  ⟨fun h => h2.1 (h1.1 h), fun h => h2.2.1 (h1.2.1 h), fun h => h2.2.2 (h1.2.2 h)⟩

theorem isr_sticky (s : SYS) : sticky_kept s (_RescueTimer_Interrupt s) :=
  ⟨fun _ => rfl, fun h => h, fun h => h⟩

theorem call_sticky (env : ENVIRONMENT) (s : SYS) (hk : keeps_sticky env) :
    sticky_kept s (os_ProcessTaskQueue_call env s).sys := by
  unfold os_ProcessTaskQueue_call
  split
  · split
    · rename_i entry ht
      have he := hk.1 _ entry s ht
      split
      · rename_i s1 retval hr
        rw [hr] at he
        exact he
      · rename_i s1 hr
        rw [hr] at he
        exact sticky_kept_trans he (isr_sticky s1)
    · exact sticky_kept_refl s
  · exact sticky_kept_refl s

theorem process_sticky (cfg : CONFIG) (env : ENVIRONMENT) (s : SYS) (hk : keeps_sticky env) :
    sticky_kept s (os_ProcessTaskQueue cfg env s).sys := by
  have ha : sticky_kept s (os_ProcessTaskQueue_arm cfg s) := ⟨fun h => h, fun h => h, fun h => h⟩
  have hm : sticky_kept (os_ProcessTaskQueue_call env (os_ProcessTaskQueue_arm cfg s)).sys
      (os_ProcessTaskQueue cfg env s).sys := ⟨fun h => h, fun h => h, fun h => h⟩
  exact sticky_kept_trans ha (sticky_kept_trans (call_sticky env _ hk) hm)

theorem startup_sticky (s : SYS) : sticky_kept s (os_CheckOperationModeStatus_startup s) := by
  unfold os_CheckOperationModeStatus_startup
  split_ifs
  · exact ⟨fun h => h, fun h => h, fun h => h⟩
  · exact ⟨fun h => h, fun h => h, fun h => h⟩
  · exact ⟨fun h => h, fun h => h, fun h => h⟩
  · exact ⟨fun h => h, fun h => h, fun _ => rfl⟩
  · exact sticky_kept_refl s

theorem switch_sticky (cfg : CONFIG) (s : SYS) :
    sticky_kept s (os_CheckOperationModeStatus_switch cfg s) := by
  unfold os_CheckOperationModeStatus_switch
  split
  case h_6 => exact ⟨fun h => h, fun _ => rfl, fun h => h⟩
  all_goals exact ⟨fun h => h, fun h => h, fun h => h⟩

theorem finish_sticky (env : ENVIRONMENT) (s : SYS) (hk : keeps_sticky env) :
    sticky_kept s (os_CheckOperationModeStatus_finish env s).sys := by
  unfold os_CheckOperationModeStatus_finish
  cases s.task_mgr.op_mode_switch_over_function with
  | none => exact ⟨fun h => h, fun h => h, fun h => h⟩
  | some f =>
    exact sticky_kept_trans (hk.2.1 f s) ⟨fun h => h, fun h => h, fun h => h⟩

theorem check_sticky (cfg : CONFIG) (env : ENVIRONMENT) (s : SYS) (hk : keeps_sticky env) :
    sticky_kept s (os_CheckOperationModeStatus cfg env s).sys := by
  have h1 := startup_sticky s
  have h2 := switch_sticky cfg (os_CheckOperationModeStatus_startup s)
  have h3 : sticky_kept (os_CheckOperationModeStatus_switch cfg
      (os_CheckOperationModeStatus_startup s))
      (os_CheckOperationModeStatus_clear (os_CheckOperationModeStatus_switch cfg
        (os_CheckOperationModeStatus_startup s))) := ⟨fun h => h, fun h => h, fun h => h⟩
  unfold os_CheckOperationModeStatus
  dsimp only
  split
  · exact sticky_kept_trans h1 (sticky_kept_trans h2
      (sticky_kept_trans h3 (finish_sticky env _ hk)))
  · exact sticky_kept_trans h1 ⟨fun h => h, fun h => h, fun h => h⟩

theorem advance_sticky (cfg : CONFIG) (env : ENVIRONMENT) (fres : Nat) (s : SYS)
    (hk : keeps_sticky env) : sticky_kept s (OS_Execute_advance cfg env fres s).sys := by
  unfold OS_Execute_advance
  split
  · exact sticky_kept_trans (check_sticky cfg env s hk) ⟨fun h => h, fun h => h, fun h => h⟩
  · exact ⟨fun h => h, fun h => h, fun h => h⟩

theorem cycle_sticky (cfg : CONFIG) (env : ENVIRONMENT) (fres : Nat) (s : SYS)
    (hk : keeps_sticky env) : sticky_kept s (OS_Execute_cycle cfg env fres s).sys := by
  obtain ⟨fres3, hs, -⟩ := cycle_eq_advance cfg env fres s
  rw [hs]
  have h1 : sticky_kept s (OS_Execute_cpu_load cfg env s) := ⟨fun h => h, fun h => h, fun h => h⟩
  have h2 := process_sticky cfg env (OS_Execute_cpu_load cfg env s) hk
  have h3 := hk.2.2.1 (os_ProcessTaskQueue cfg env (OS_Execute_cpu_load cfg env s)).sys
  have h4 : sticky_kept
      (env.APPLICATION_CaptureSystemStatus
        (os_ProcessTaskQueue cfg env (OS_Execute_cpu_load cfg env s)).sys).1
      (at_component_check cfg env fres s) := ⟨fun h => h, fun h => h, fun h => h⟩
  have h5 : sticky_kept (at_component_check cfg env fres s) (before_advance cfg env fres s) :=
    hk.2.2.2 _
  exact sticky_kept_trans h1 (sticky_kept_trans h2 (sticky_kept_trans h3
    (sticky_kept_trans h4 (sticky_kept_trans h5 (advance_sticky cfg env fres3 _ hk)))))

theorem loop_sticky (cfg : CONFIG) (envs : List ENVIRONMENT) :
    ∀ (fres : Nat) (s : SYS), (∀ e ∈ envs, keeps_sticky e) →
      sticky_kept s (OS_Execute_loop cfg envs fres s).sys := by
  induction envs with
  | nil => intro fres s _; exact sticky_kept_refl s
  | cons env envs ih =>
    intro fres s hk
    unfold OS_Execute_loop
    split
    · exact sticky_kept_trans (cycle_sticky cfg env fres s (hk env (List.mem_cons_self _ _)))
        (ih _ _ (fun e he => hk e (List.mem_cons_of_mem _ he)))
    · exact sticky_kept_refl s

theorem keeps_sticky_env0 : keeps_sticky env0 := by
  refine ⟨?_, fun _ s => sticky_kept_refl s, fun s => sticky_kept_refl s,
    fun s => sticky_kept_refl s⟩
  intro id entry s ht
  have he : entry = fun s => TASK_RESULT.returned s 1 := by
    simp only [env0, Option.some.injEq] at ht
    exact ht.symm
  subst he
  exact sticky_kept_refl s

/-- C39. Sticky status bits: none of `os_ProcessTaskQueue`,
`os_CheckOperationModeStatus`, the rescue handler, the advance step of the
scheduler, a scheduler cycle and any number of cycles clears
`rescue_timer_overrun`, `fault_override` or `startup_sequence_complete` once
set (the code outside the core not clearing them). In particular
`fault_override` stays true through the mode check that leaves FAULT for any
requested mode, and `startup_sequence_complete` stays true through the mode
check that takes the mode from UNKNOWN back to BOOT. -/
theorem sticky_status_bits (cfg : CONFIG) (env : ENVIRONMENT) (envs : List ENVIRONMENT)
    (fres : Nat) (s : SYS) (hk : keeps_sticky env) (hks : ∀ e ∈ envs, keeps_sticky e) :
    sticky_kept s (os_ProcessTaskQueue cfg env s).sys ∧
    sticky_kept s (os_CheckOperationModeStatus cfg env s).sys ∧
    sticky_kept s (_RescueTimer_Interrupt s) ∧
    sticky_kept s (OS_Execute_advance cfg env fres s).sys ∧
    sticky_kept s (OS_Execute_cycle cfg env fres s).sys ∧
    sticky_kept s (OS_Execute_loop cfg envs fres s).sys ∧
    (s.task_mgr.status.fault_override = true → ∀ m : OP_MODE,
      (os_CheckOperationModeStatus cfg env
        (set_op_mode s m)).sys.task_mgr.status.fault_override = true) ∧
    (s.task_mgr.status.startup_sequence_complete = true →
      (os_CheckOperationModeStatus cfg env
        (set_op_mode s OP_MODE.UNKNOWN)).sys.task_mgr.op_mode = OP_MODE.BOOT ∧
      (os_CheckOperationModeStatus cfg env
        (set_op_mode s OP_MODE.UNKNOWN)).sys.task_mgr.status.startup_sequence_complete
        = true) :=
  ⟨process_sticky cfg env s hk, check_sticky cfg env s hk, isr_sticky s,
    advance_sticky cfg env fres s hk, cycle_sticky cfg env fres s hk,
    loop_sticky cfg envs fres s hks,
    fun h m => (check_sticky cfg env (set_op_mode s m) hk).2.1 h,
    fun h => ⟨(check_from_unknown cfg env (set_op_mode s OP_MODE.UNKNOWN) rfl).1,
      (check_sticky cfg env (set_op_mode s OP_MODE.UNKNOWN) hk).2.2 h⟩⟩

/-- In the state `sys_fault_mode` of `cfg0` (mode FAULT, `fault_override`
and `startup_sequence_complete` set): the mode check that leaves FAULT for
RUN keeps `fault_override`, and the mode check after the mode word was
cleared to UNKNOWN ends in BOOT with `startup_sequence_complete` still
set. -/
theorem sticky_status_bits_witness :
    sys_fault_mode.task_mgr.pre_op_mode = OP_MODE.FAULT ∧
    sys_fault_mode.task_mgr.status.fault_override = true ∧
    sys_fault_mode.task_mgr.status.startup_sequence_complete = true ∧
    (os_CheckOperationModeStatus cfg0 env0
      (set_op_mode sys_fault_mode OP_MODE.RUN)).sys.task_mgr.op_mode = OP_MODE.RUN ∧
    (os_CheckOperationModeStatus cfg0 env0
      (set_op_mode sys_fault_mode OP_MODE.RUN)).sys.task_mgr.status.fault_override = true ∧
    (os_CheckOperationModeStatus cfg0 env0
      (set_op_mode sys_fault_mode OP_MODE.UNKNOWN)).sys.task_mgr.op_mode = OP_MODE.BOOT ∧
    (os_CheckOperationModeStatus cfg0 env0
      (set_op_mode sys_fault_mode
        OP_MODE.UNKNOWN)).sys.task_mgr.status.startup_sequence_complete = true :=
  have h := sticky_status_bits cfg0 env0 [env0] 1 sys_fault_mode keeps_sticky_env0
    (by
      intro e he
      simp only [List.mem_singleton] at he
      rw [he]
      exact keeps_sticky_env0)
  ⟨by decide, by decide, by decide, by decide, h.2.2.2.2.2.2.1 (by decide) OP_MODE.RUN,
    (h.2.2.2.2.2.2.2 (by decide)).1, (h.2.2.2.2.2.2.2 (by decide)).2⟩

/-! ## Dispatches without a return value -/

theorem no_return_value_ret (cfg : CONFIG) (env : ENVIRONMENT) (s : SYS)
    (h : no_return_value cfg env s) : (at_jump_target cfg env s).ret = 0 := by
  rcases h with h | h | ⟨hen, entry, s1, htab, hto⟩
  · exact (call_skipped env (os_ProcessTaskQueue_arm cfg s) (by
      intro hc
      rw [h] at hc
      exact absurd hc.1 (by simp))).2
  · exact (call_skipped env (os_ProcessTaskQueue_arm cfg s) (by
      intro hc
      rw [h] at hc
      exact absurd hc.2 (by simp))).2
  · exact (call_timed_out env (os_ProcessTaskQueue_arm cfg s) entry s1 hen htab hto).2

/-- C40. Skipped or aborted tasks read as failed: whenever
`os_ProcessTaskQueue` obtains no return value from the task (the task is
disabled, its table entry is NULL, or the call is ended by the rescue
handler), the local `retval` is still 0 at the jump target and the function
records `active_retval = 0` and `return_value = 0` for the active task (the
task `active_queue[active_index]` when the task was skipped); the object
configured by `TaskExecutionFaultObject_Initialize` then has its trip
condition true and its reset condition false. -/
theorem skipped_task_reads_failed (cfg : CONFIG) (env : ENVIRONMENT) (fc : FAULT_CONFIG)
    (traplog_status_value : Nat) (s : SYS) (h : no_return_value cfg env s) :
    (at_jump_target cfg env s).ret = 0 ∧
    (os_ProcessTaskQueue cfg env s).sys.task_mgr.task_queue.active_retval = 0 ∧
    ((os_ProcessTaskQueue cfg env s).sys.tasks
      (at_jump_target cfg env s).sys.task_mgr.task_queue.active_task_id).return_value = 0 ∧
    ((at_jump_target cfg env s).sys = os_ProcessTaskQueue_arm cfg s →
      ((os_ProcessTaskQueue cfg env s).sys.tasks
        (s.task_mgr.task_queue.active_queue s.task_mgr.task_queue.active_index)).return_value
        = 0) ∧
    object_trips (TaskExecutionFaultObject_Initialize fc).1
      (source_value fc traplog_status_value (os_ProcessTaskQueue cfg env s).sys) = true ∧
    object_resets (TaskExecutionFaultObject_Initialize fc).1
      (source_value fc traplog_status_value (os_ProcessTaskQueue cfg env s).sys) = false := by
  have hr := no_return_value_ret cfg env s h
  have hm := measure_fields env (at_jump_target cfg env s).sys (at_jump_target cfg env s).ret
  have h1 : (os_ProcessTaskQueue cfg env s).sys.task_mgr.task_queue.active_retval = 0 := by
    show (os_ProcessTaskQueue_measure env (at_jump_target cfg env s).sys
      (at_jump_target cfg env s).ret).1.task_mgr.task_queue.active_retval = 0
    rw [hm.2.2.2.2.1, hr]
  have h2 : ((os_ProcessTaskQueue cfg env s).sys.tasks
      (at_jump_target cfg env s).sys.task_mgr.task_queue.active_task_id).return_value = 0 := by
    show ((os_ProcessTaskQueue_measure env (at_jump_target cfg env s).sys
      (at_jump_target cfg env s).ret).1.tasks
        (at_jump_target cfg env s).sys.task_mgr.task_queue.active_task_id).return_value = 0
    rw [hm.2.2.2.1, hr]
  refine ⟨hr, h1, h2, ?_, ?_, ?_⟩
  · intro he
    rw [he] at h2
    exact h2
  · rw [task_execution_trips, h1]
    rfl
  · rw [task_execution_resets, h1]
    rfl

/-- The first dispatch of `cfg0` with a task that spins until the rescue
handler ends it: the recorded status is 0 and the task-execution object
trips. -/
theorem skipped_task_reads_failed_witness :
    (os_ProcessTaskQueue cfg0 env_spin
      (os_TaskManager_Initialize cfg0 sys0)).sys.task_mgr.task_queue.active_retval = 0 ∧
    ((os_ProcessTaskQueue cfg0 env_spin (os_TaskManager_Initialize cfg0 sys0)).sys.tasks
      0).return_value = 0 ∧
    object_trips (TaskExecutionFaultObject_Initialize fc0).1
      (source_value fc0 0
        (os_ProcessTaskQueue cfg0 env_spin (os_TaskManager_Initialize cfg0 sys0)).sys) = true :=
  have h := skipped_task_reads_failed cfg0 env_spin fc0 0 (os_TaskManager_Initialize cfg0 sys0)
    (Or.inr (Or.inr ⟨by decide, fun s => TASK_RESULT.timed_out s,
      os_ProcessTaskQueue_arm cfg0 (os_TaskManager_Initialize cfg0 sys0), rfl, rfl⟩))
  ⟨h.2.1, h.2.2.1, h.2.2.2.2.1⟩

end Frwk
